import Mathlib

/-!
# BLE platform abstraction layer (PAL) system module: sleep coordination

Shallow embedding of

* `Libraries/Cordio/platform/targets/maxim/max32665/sources/pal_sys.c`
* `Libraries/Cordio/platform/targets/maxim/max32690/sources/pal_sys.c`
* `freertos_tickless.c`
* `wc_DsaSign` and `wc_DsaVerify` of
  `Libraries/FreeRTOS-Plus/Source/WolfSSL/wolfcrypt/src/dsa.c` (namespace `Dsa`)

The three file-scope statics (`palSysAssertCount`, `PalSysAssertTrapEnable`,
`palSysBusyCount`) become fields of `PalState`, together with the two pieces of
hardware state the routines change themselves: the global interrupt-enable bit
(`__disable_irq` / `__enable_irq`) and the wake-up timer compare register
(`MXC_WUT->cmp`).  Every call of a collaborator that is not defined in these
files, and every access to a hardware register, is appended to `PalState.trace`
in program order.  What the collaborators return during one call is the input
record `Hw`; the build-time macros are the record `Config`.  The tickless
override adds the `ENABLE` bit of `SysTick->CTRL` to the state and its own
inputs and macros (`Tickless.TicklessHw`, `Tickless.TicklessConfig`).

`uint32_t` / `uint64_t` values are natural numbers, reduced modulo `2^32` /
`2^64` wherever the C code computes in that width.
-/

namespace Pal

/-! ## Machine arithmetic -/

/-- Conversion to `uint32_t`. -/
def u32 (n : Nat) : Nat := n % 2 ^ 32

/-- Conversion to `uint64_t`. -/
def u64 (n : Nat) : Nat := n % 2 ^ 64

/-- The C expression `a - b` evaluated in `uint32_t`. -/
def sub32 (a b : Nat) : Nat := (u32 a + (2 ^ 32 - u32 b)) % 2 ^ 32

/-- The C expression `a - b` evaluated in `uint64_t`. -/
def sub64 (a b : Nat) : Nat := (u64 a + (2 ^ 64 - u64 b)) % 2 ^ 64

/-! ## Observable actions -/

/-- LED identifiers used by `pal_sys.c`. -/
inductive LedId where
  | PAL_LED_ID_ERROR
  | PAL_LED_ID_CPU_ACTIVE
  deriving DecidableEq, Repr

/-- Interrupt lines named by `pal_sys.c`. -/
inductive Irq where
  | WUT_IRQn
  | WUT0_IRQn
  | RISCV_IRQn
  | PF_IRQn
  deriving DecidableEq, Repr

/-- One collaborator call or hardware register access, named after the C
expression that performs it. -/
inductive Action where
  | PalEnterCs
  | PalExitCs
  | PalLedInit
  | PalLedOn (id : LedId)
  | PalLedOff (id : LedId)
  | PalCryptoInit
  | PalRtcInit
  | MXC_PWRSEQ_lppwen_set
  | MXC_SYS_RISCVShutdown
  | MXC_GPIO_Config
  | MXC_SEMA_Init
  | MXC_SEMA_InitBoxes
  | NVIC_ClearPendingIRQ (irq : Irq)
  | NVIC_EnableIRQ (irq : Irq)
  | MXC_SYS_RISCVRun
  | MXC_WUT_TrimPending
  | PalUartGetState
  | PalTimerGetState
  | MXC_UART_GetActive
  | PalTimerSleep (n : Nat)
  | MXC_WUT_GetCompare
  | MXC_WUT_GetCount
  | MXC_WUT_Store
  | MXC_WUT_cnt_read
  | PalTimerGetExpTime
  | MXC_WUT_cmp_write (v : Nat)
  | MXC_LP_EnableWUTAlarmWakeup
  | PalTimerStop
  | PalBbDisable
  | MXC_SEMA_irq1_set
  | MXC_LP_EnterSleepMode
  | MXC_LP_EnterStandbyMode
  | MXC_LP_EnterLowPowerMode
  | PalBbEnable
  | PalBbRestore
  | MXC_WUT_RestoreBBClock
  | PalTimerRestore (v : Nat)
  | SysTick_VAL_read
  | cpsid_i
  | cpsie_i
  | eTaskConfirmSleepModeStatus
  | SysTick_CTRL_clear_ENABLE
  | SysTick_CTRL_set_ENABLE
  | LED_Off (n : Nat)
  | LED_On (n : Nat)
  | portENTER_CRITICAL
  | vTaskStepTick (n : Nat)
  | portEXIT_CRITICAL
  deriving DecidableEq, Repr

/-! ## State, inputs and build configuration -/

/-- The module's statics plus the hardware state it writes. -/
structure PalState where
  /-- Number of assertions (`static uint32_t`). -/
  palSysAssertCount : Nat
  /-- Trap enabled flag (`static volatile bool_t`). -/
  PalSysAssertTrapEnable : Bool
  /-- Busy client count (`static uint32_t`). -/
  palSysBusyCount : Nat
  /-- Global interrupt enable: `true` after `__enable_irq`. -/
  irqEnabled : Bool
  /-- Contents of the wake-up timer compare register. -/
  MXC_WUT_cmp : Nat
  /-- Collaborator calls and register accesses so far, oldest first. -/
  trace : List Action
  deriving DecidableEq, Repr

/-- What the collaborators and hardware registers return during one call. -/
structure Hw where
  /-- Whether `MXC_WUT_TrimPending() != E_NO_ERROR`. -/
  trimPending : Bool
  /-- Whether `PalUartGetState(PAL_UART_ID_TERMINAL) == PAL_UART_STATE_BUSY`. -/
  uartBusy : Bool
  /-- Whether `PalTimerGetState() == PAL_TIMER_STATE_BUSY`. -/
  timerBusy : Bool
  /-- Whether `MXC_UART_GetActive(MXC_UART_GET_UART(TERMINAL_UART)) != E_NO_ERROR`. -/
  uartActive : Bool
  /-- The CMSIS variable `SystemCoreClock`. -/
  SystemCoreClock : Nat
  /-- Value of `MXC_WUT->cnt` at the snapshot taken on entry of `palSysEnterStandby`. -/
  cntEntry : Nat
  /-- Return value of `PalTimerGetExpTime()`. -/
  schUsec : Nat
  /-- Value of `MXC_WUT->cnt` read after wake-up. -/
  cntWake : Nat
  /-- Return value of `MXC_WUT_GetCompare()`. -/
  wutGetCompare : Nat
  /-- Return value of `MXC_WUT_GetCount()`. -/
  wutGetCount : Nat
  deriving DecidableEq, Repr

/-- Build-time macros.  `PAL_RTC_TICKS_PER_SEC` and `PAL_MAX_RTC_COUNTER_VAL`
come from `pal_rtc.h`, which is not part of the sources at hand, so they are
parameters. -/
structure Config where
  /-- Macro `PAL_SYS_ENABLE_STANDBY` (defaults to 0). -/
  PAL_SYS_ENABLE_STANDBY : Nat
  /-- Whether `DEBUG` is defined. -/
  DEBUG : Bool
  /-- Macro `PAL_SYS_RISCV_LOAD` (defaults to 0). -/
  PAL_SYS_RISCV_LOAD : Nat
  /-- Whether `__riscv` is defined (RISC-V build of the max32690 file). -/
  riscv : Bool
  /-- Macro `PAL_RTC_TICKS_PER_SEC`. -/
  PAL_RTC_TICKS_PER_SEC : Nat
  /-- Macro `PAL_MAX_RTC_COUNTER_VAL`. -/
  PAL_MAX_RTC_COUNTER_VAL : Nat
  deriving DecidableEq, Repr

/-- Macro `PAL_SYS_MIN_STANDBY_USEC` (same value in both files). -/
def PAL_SYS_MIN_STANDBY_USEC : Nat := 3000

/-- Record one action. -/
def emit (a : Action) (s : PalState) : PalState :=
  { s with trace := s.trace ++ [a] }

/-- Store to the 32-bit register `MXC_WUT->cmp`. -/
def writeCmp (v : Nat) (s : PalState) : PalState :=
  emit (Action.MXC_WUT_cmp_write (u32 v)) { s with MXC_WUT_cmp := u32 v }

/-! ## Functions whose text is the same in both files -/

/-- Routine `PalEnterCs`: `__disable_irq()`. -/
def PalEnterCs (s : PalState) : PalState :=
  emit Action.PalEnterCs { s with irqEnabled := false }

/-- Routine `PalExitCs`: `__enable_irq()`. -/
def PalExitCs (s : PalState) : PalState :=
  emit Action.PalExitCs { s with irqEnabled := true }

/-- Routine `PalSysSetTrap`. -/
def PalSysSetTrap (enable : Bool) (s : PalState) : PalState :=
  { s with PalSysAssertTrapEnable := enable }

/-- Routine `PalSysGetAssertCount`. -/
def PalSysGetAssertCount (s : PalState) : Nat := s.palSysAssertCount

/-- Routine `PalSysGetStackUsage`: stub routine. -/
def PalSysGetStackUsage (_s : PalState) : Nat := 0

/-- Routine `PalSysSetBusy`. -/
def PalSysSetBusy (s : PalState) : PalState :=
  let s := PalEnterCs s
  let s := { s with palSysBusyCount := u32 (s.palSysBusyCount + 1) }
  PalExitCs s

/-- Routine `PalSysSetIdle`. -/
def PalSysSetIdle (s : PalState) : PalState :=
  let s := PalEnterCs s
  let s := if s.palSysBusyCount ≠ 0 then
      { s with palSysBusyCount := sub32 s.palSysBusyCount 1 }
    else s
  PalExitCs s

/-- Routine `PalSysIsBusy`: the returned flag and the state after the call. -/
def PalSysIsBusy (s : PalState) : Bool × PalState :=
  let s := PalEnterCs s
  let sysIsBusy := if s.palSysBusyCount = 0 then false else true
  let s := PalExitCs s
  (sysIsBusy, s)

/-! ### `PalSysAssertTrap`

The body is straight-line code up to `while (PalSysAssertTrapEnable);`.  The
loop is a step function on a program point: `spin` is the loop head, `done`
is the point after `PalExitCs()`. -/

/-- Program points of `PalSysAssertTrap`. -/
inductive TrapPc where
  | spin
  | done
  deriving DecidableEq, Repr

/-- Routine `PalSysAssertTrap` up to the loop head. -/
def trapEntry (s : PalState) : PalState :=
  let s := PalEnterCs s
  let s := emit (Action.PalLedOn LedId.PAL_LED_ID_ERROR) s
  { s with palSysAssertCount := u32 (s.palSysAssertCount + 1) }

/-- One evaluation of the loop condition of `while (PalSysAssertTrapEnable);`,
followed by `PalExitCs()` when the loop is left. -/
def trapStep : TrapPc × PalState → TrapPc × PalState
  | (TrapPc.spin, s) =>
      if s.PalSysAssertTrapEnable then (TrapPc.spin, s) else (TrapPc.done, PalExitCs s)
  | (TrapPc.done, s) => (TrapPc.done, s)

/-- The configuration reached after `n` steps from the loop head. -/
def trapRun (n : Nat) (s : PalState) : TrapPc × PalState :=
  trapStep^[n] (TrapPc.spin, trapEntry s)

/-- Routine `PalSysAssertTrap` with a bound on the number of loop-condition
evaluations: `none` when the routine has not returned within `fuel` steps. -/
def PalSysAssertTrap (fuel : Nat) (s : PalState) : Option PalState :=
  match trapRun fuel s with
  | (TrapPc.done, s') => some s'
  | (TrapPc.spin, _) => none

/-- Record several actions, in order. -/
def emits (as : List Action) (s : PalState) : PalState :=
  { s with trace := s.trace ++ as }

/-! ## max32665 -/

namespace Max32665

/-- Macro `PAL_SYS_STANDBY_WAKEUP_USEC_96`: 96 MHz clock. -/
def PAL_SYS_STANDBY_WAKEUP_USEC_96 : Nat := 2950

/-- Macro `PAL_SYS_STANDBY_WAKEUP_USEC_60`: 60 MHz clock. -/
def PAL_SYS_STANDBY_WAKEUP_USEC_60 : Nat := 3100

/-- Routine `PalSysInit`.  The `DEBUG` delay loop counts a local up to `0x3FFFFF` and
has no other effect. -/
def PalSysInit (cfg : Config) (s : PalState) : PalState :=
  let s := { s with palSysAssertCount := 0 }
  let s := { s with PalSysAssertTrapEnable := true }
  let s := { s with palSysBusyCount := 0 }
  let s := if cfg.DEBUG then
      emits [Action.PalLedInit, Action.PalLedOff LedId.PAL_LED_ID_ERROR,
        Action.PalLedOn LedId.PAL_LED_ID_CPU_ACTIVE] s
    else s
  let s := emit Action.PalCryptoInit s
  emit Action.PalRtcInit s

/-- The local `wakeupUs` of `palSysEnterStandby` after the test of
`SystemCoreClock`: the time needed for wakeup restore. -/
def wakeupUs (hw : Hw) : Nat :=
  if hw.SystemCoreClock = 96000000 then PAL_SYS_STANDBY_WAKEUP_USEC_96
  else PAL_SYS_STANDBY_WAKEUP_USEC_60

/-- Routine `palSysEnterStandby`: set WUT and enter standby.  The quotient by
`PAL_RTC_TICKS_PER_SEC` is the C one only for a non-zero tick rate. -/
def palSysEnterStandby (cfg : Config) (hw : Hw) (s : PalState) : PalState :=
  let s := emit Action.MXC_WUT_Store s
  let s := emit Action.MXC_WUT_cnt_read s
  let rtcCount := hw.cntEntry
  let s := emit Action.PalTimerGetExpTime s
  let schUsec := hw.schUsec
  if schUsec < PAL_SYS_MIN_STANDBY_USEC then
    emit Action.MXC_LP_EnterSleepMode s
  else
    let wakeupUs := wakeupUs hw
    let targetTick := rtcCount
    let targetTick := u32 (u64 (targetTick +
      u64 (u64 (sub64 schUsec wakeupUs) * u64 cfg.PAL_RTC_TICKS_PER_SEC) / u64 1000000))
    let s := writeCmp targetTick s
    let s := emit (Action.NVIC_EnableIRQ Irq.WUT_IRQn) s
    let s := emit Action.MXC_LP_EnableWUTAlarmWakeup s
    let s := emit Action.PalTimerStop s
    let s := emit Action.PalBbDisable s
    let s := PalExitCs s
    let s := emit Action.MXC_LP_EnterSleepMode s
    let s := PalEnterCs s
    let s := emit Action.PalBbEnable s
    let s := emit Action.PalBbRestore s
    let s := emit Action.MXC_WUT_RestoreBBClock s
    let s := emit Action.MXC_WUT_cnt_read s
    let rtcElapsed := sub32 hw.cntWake rtcCount
    let schUsecElapsed := u32 (u64 (u64 rtcElapsed * u64 1000000) / u64 cfg.PAL_RTC_TICKS_PER_SEC)
    let s := emit (Action.PalTimerRestore (sub32 schUsec schUsecElapsed)) s
    writeCmp cfg.PAL_MAX_RTC_COUNTER_VAL s

/-- Routine `PalSysSleep`.  The caller must have disabled IRQs. -/
def PalSysSleep (cfg : Config) (hw : Hw) (s : PalState) : PalState :=
  if s.palSysBusyCount ≠ 0 then s
  else if cfg.DEBUG ∧ cfg.PAL_SYS_ENABLE_STANDBY = 0 then s
  else
    let s := emit Action.MXC_WUT_TrimPending s
    if hw.trimPending then emit Action.MXC_LP_EnterSleepMode s
    else
      let s := emit Action.PalUartGetState s
      if hw.uartBusy then emit Action.MXC_LP_EnterSleepMode s
      else
        let s := emit Action.PalTimerGetState s
        if ¬ hw.timerBusy then emit Action.MXC_LP_EnterSleepMode s
        else
          let s := emit Action.MXC_UART_GetActive s
          if hw.uartActive then emit (Action.PalTimerSleep 25) s
          else if cfg.PAL_SYS_ENABLE_STANDBY ≠ 0 then palSysEnterStandby cfg hw s
          else emit Action.MXC_LP_EnterSleepMode s

end Max32665

/-! ## max32690 -/

namespace Max32690

/-- Macro `PAL_SYS_STANDBY_WAKEUP_USEC_120`: 120 MHz clock; the value depends on
whether `__riscv` is defined. -/
def PAL_SYS_STANDBY_WAKEUP_USEC_120 (cfg : Config) : Nat :=
  if cfg.riscv then 1850 else 950

/-- Macro `PAL_SYS_STANDBY_WAKEUP_USEC_60`: 60 MHz clock; the value depends on
whether `__riscv` is defined. -/
def PAL_SYS_STANDBY_WAKEUP_USEC_60 (cfg : Config) : Nat :=
  if cfg.riscv then 2200 else 1100

/-- Routine `PalSysInit`.  The delay loops count a local up to a constant and have no
other effect. -/
def PalSysInit (cfg : Config) (s : PalState) : PalState :=
  let s := { s with palSysAssertCount := 0 }
  let s := { s with PalSysAssertTrapEnable := true }
  let s := { s with palSysBusyCount := 0 }
  let s := emit Action.MXC_PWRSEQ_lppwen_set s
  let s := emit Action.PalLedInit s
  let s := emit (Action.PalLedOff LedId.PAL_LED_ID_ERROR) s
  let s := emit (Action.PalLedOn LedId.PAL_LED_ID_CPU_ACTIVE) s
  let s := emit Action.PalCryptoInit s
  let s := emit Action.PalRtcInit s
  let s := if ¬ cfg.riscv ∧ cfg.PAL_SYS_RISCV_LOAD ≠ 0 then
      let s := emit Action.MXC_SYS_RISCVShutdown s
      let s := if cfg.DEBUG then emit Action.MXC_GPIO_Config s else s
      emits [Action.MXC_SEMA_Init, Action.MXC_SEMA_InitBoxes,
        Action.NVIC_ClearPendingIRQ Irq.RISCV_IRQn, Action.NVIC_EnableIRQ Irq.RISCV_IRQn,
        Action.MXC_SYS_RISCVRun] s
    else s
  if cfg.riscv then
    emits [Action.MXC_SEMA_Init, Action.NVIC_ClearPendingIRQ Irq.PF_IRQn,
      Action.NVIC_EnableIRQ Irq.PF_IRQn] s
  else s

/-- The local `wakeupUs` of `palSysEnterStandby` after the test of
`SystemCoreClock`: the time needed for wakeup restore. -/
def wakeupUs (cfg : Config) (hw : Hw) : Nat :=
  if hw.SystemCoreClock = 120000000 then PAL_SYS_STANDBY_WAKEUP_USEC_120 cfg
  else PAL_SYS_STANDBY_WAKEUP_USEC_60 cfg

/-- Routine `palSysEnterStandby`: set WUT and enter standby.  The quotient by
`PAL_RTC_TICKS_PER_SEC` is the C one only for a non-zero tick rate. -/
def palSysEnterStandby (cfg : Config) (hw : Hw) (s : PalState) : PalState :=
  let s := emit Action.MXC_WUT_Store s
  let s := emit Action.MXC_WUT_cnt_read s
  let rtcCount := hw.cntEntry
  let s := emit Action.PalTimerGetExpTime s
  let schUsec := hw.schUsec
  if schUsec < PAL_SYS_MIN_STANDBY_USEC then
    emit Action.MXC_LP_EnterSleepMode s
  else
    let wakeupUs := wakeupUs cfg hw
    let targetTick := rtcCount
    let targetTick := u32 (u64 (targetTick +
      u64 (u64 (sub64 schUsec wakeupUs) * u64 cfg.PAL_RTC_TICKS_PER_SEC) / u64 1000000))
    let s := writeCmp targetTick s
    let s := emit (Action.NVIC_EnableIRQ Irq.WUT0_IRQn) s
    let s := emit Action.MXC_LP_EnableWUTAlarmWakeup s
    let s := emit Action.PalTimerStop s
    let s := emit Action.PalBbDisable s
    let s := PalExitCs s
    let s := if ¬ cfg.riscv then emit Action.MXC_LP_EnterStandbyMode s
      else emit Action.MXC_LP_EnterSleepMode (emit Action.MXC_SEMA_irq1_set s)
    let s := PalEnterCs s
    let s := emit Action.PalBbEnable s
    let s := emit Action.PalBbRestore s
    let s := emit Action.MXC_WUT_RestoreBBClock s
    let s := emit Action.MXC_WUT_cnt_read s
    let rtcElapsed := sub32 hw.cntWake rtcCount
    let schUsecElapsed := u32 (u64 (u64 rtcElapsed * u64 1000000) / u64 cfg.PAL_RTC_TICKS_PER_SEC)
    let s := emit (Action.PalTimerRestore (sub32 schUsec schUsecElapsed)) s
    writeCmp cfg.PAL_MAX_RTC_COUNTER_VAL s

/-- Routine `PalSysSleep`.  The caller must have disabled IRQs. -/
def PalSysSleep (cfg : Config) (hw : Hw) (s : PalState) : PalState :=
  if s.palSysBusyCount ≠ 0 then s
  else if cfg.DEBUG ∧ cfg.PAL_SYS_ENABLE_STANDBY = 0 then s
  else
    let s := emit Action.MXC_WUT_TrimPending s
    if hw.trimPending then emit Action.MXC_LP_EnterSleepMode s
    else
      let s := emit Action.PalUartGetState s
      if hw.uartBusy then emit Action.MXC_LP_EnterSleepMode s
      else
        let s := emit Action.PalTimerGetState s
        if ¬ hw.timerBusy then emit Action.MXC_LP_EnterSleepMode s
        else
          let s := emit Action.MXC_UART_GetActive s
          if hw.uartActive then emit (Action.PalTimerSleep 25) s
          else if cfg.PAL_SYS_RISCV_LOAD = 1 then
            let s := emit Action.MXC_WUT_GetCompare s
            let s := emit Action.MXC_WUT_GetCount s
            let wutDiff := sub32 hw.wutGetCompare hw.wutGetCount
            if cfg.PAL_SYS_ENABLE_STANDBY ≠ 0 ∧ (wutDiff > 10 ∧ wutDiff < 0x100000) then
              emit Action.MXC_LP_EnterStandbyMode s
            else emit Action.MXC_LP_EnterLowPowerMode s
          else if cfg.PAL_SYS_ENABLE_STANDBY ≠ 0 then palSysEnterStandby cfg hw s
          else emit Action.MXC_LP_EnterSleepMode s

end Max32690

/-! ## The FreeRTOS tickless override, `freertos_tickless.c`

The file shares the wake-up timer, the interrupt-enable bit and the Cordio
collaborators with `pal_sys.c`, so its state is a `PalState` together with the
`ENABLE` bit of `SysTick->CTRL`.  `configRTC_TICK_RATE_HZ` and
`configTICK_RATE_HZ` come from `FreeRTOSConfig.h`, which is not part of the
sources at hand, so they are parameters; constant expressions over them are
taken at their mathematical value. -/

namespace Tickless

/-- The two codes of `mxc_errors.h` that `freertos_permit_tickless` returns. -/
inductive MxcError where
  | E_NO_ERROR
  | E_BUSY
  deriving DecidableEq, Repr

/-- Build-time macros of `freertos_tickless.c`. -/
structure TicklessConfig where
  /-- Macro `configRTC_TICK_RATE_HZ`: rate of the wake-up timer. -/
  configRTC_TICK_RATE_HZ : Nat
  /-- Macro `configTICK_RATE_HZ`: rate of the RTOS tick. -/
  configTICK_RATE_HZ : Nat
  /-- Whether `MXC_ASSERT` is compiled in (`MXC_ASSERT_ENABLE`). -/
  MXC_ASSERT_ENABLE : Bool
  deriving DecidableEq, Repr

/-- What the collaborators return during one call of
`vPortSuppressTicksAndSleep`: the driver state of `Hw` and the values only
this file reads.  The snapshot `preCapture` is `wutGetCount`. -/
structure TicklessHw extends Hw where
  /-- Whether `MXC_UART_GetActive(MXC_UART_GET_UART(CONSOLE_UART)) != E_NO_ERROR`. -/
  consoleUartActive : Bool
  /-- Value of `SysTick->VAL` on entry. -/
  SysTick_VAL : Nat
  /-- Whether `eTaskConfirmSleepModeStatus() == eAbortSleep`. -/
  abortSleep : Bool
  /-- Return value of the second `MXC_WUT_GetCount()`, taken after the sleep. -/
  wutGetCountPost : Nat
  deriving DecidableEq, Repr

/-- State that `vPortSuppressTicksAndSleep` reads and writes. -/
structure TicklessState where
  /-- The interrupt-enable bit, the compare register and the trace. -/
  pal : PalState
  /-- The `ENABLE` bit of `SysTick->CTRL`. -/
  SysTick_CTRL_ENABLE : Bool
  deriving DecidableEq, Repr

/-- Macro `WUT_RATIO`. -/
def WUT_RATIO (cfg : TicklessConfig) : Nat :=
  cfg.configRTC_TICK_RATE_HZ / cfg.configTICK_RATE_HZ

/-- Macro `MAX_WUT_SNOOZE`. -/
def MAX_WUT_SNOOZE (cfg : TicklessConfig) : Nat := 5 * cfg.configRTC_TICK_RATE_HZ

/-- Macro `MIN_SYSTICK`. -/
def MIN_SYSTICK : Nat := 2

/-- Macro `MIN_WUT_TICKS`. -/
def MIN_WUT_TICKS : Nat := 150

/-- Macro `WAKEUP_US`. -/
def WAKEUP_US : Nat := 1000

/-- Routine `freertos_permit_tickless`: the sleep-check function, with the
return code and the state after the queries it makes. -/
def freertos_permit_tickless (th : TicklessHw) (s : PalState) : MxcError × PalState :=
  let s := emit Action.MXC_WUT_TrimPending s
  if th.trimPending then (MxcError.E_BUSY, s)
  else
    let s := emit Action.PalUartGetState s
    if th.uartBusy then (MxcError.E_BUSY, s)
    else
      let s := emit Action.PalTimerGetState s
      if ¬ th.timerBusy then (MxcError.E_BUSY, s)
      else
        let s := emit Action.MXC_UART_GetActive s
        if th.consoleUartActive then (MxcError.E_BUSY, s)
        else (MxcError.E_NO_ERROR, s)

/-- The abandon branch of `vPortSuppressTicksAndSleep`: `cpsie i` and return. -/
def abandon (s : TicklessState) (p : PalState) : TicklessState :=
  { s with pal := emit Action.cpsie_i { p with irqEnabled := true } }

/-- The local `idleTicks` of `vPortSuppressTicksAndSleep` after the clamp to
`MAX_WUT_SNOOZE`: the number of WUT ticks, less one RTOS tick to synchronize. -/
def idleTicks (cfg : TicklessConfig) (xExpectedIdleTime : Nat) : Nat :=
  let idleTicks := u32 (sub32 xExpectedIdleTime 1 * WUT_RATIO cfg)
  if idleTicks > MAX_WUT_SNOOZE cfg then MAX_WUT_SNOOZE cfg else idleTicks

/-- The `else` branch of the test of `schUsec` in `vPortSuppressTicksAndSleep`:
arm the wake-up timer, quiesce, sleep, restore. -/
def deepBranch (cfg : TicklessConfig) (th : TicklessHw) (idleTicks : Nat) (p : PalState) :
    PalState :=
  let preCapture := th.wutGetCount
  let schUsec := th.schUsec
  let idleTicks := u32 (sub64 idleTicks
    (u64 (u64 WAKEUP_US * u64 cfg.configRTC_TICK_RATE_HZ) / u64 1000000))
  let bleSleepTicks := u32 (u64 (u64 (sub32 schUsec WAKEUP_US) *
    u64 cfg.configRTC_TICK_RATE_HZ) / u64 1000000)
  let p := if bleSleepTicks < idleTicks then writeCmp (preCapture + bleSleepTicks) p
    else writeCmp (preCapture + idleTicks) p
  let p := emit Action.PalTimerStop p
  let p := emit Action.PalBbDisable p
  let p := emit (Action.LED_Off 1) p
  let p := emit Action.MXC_LP_EnterSleepMode p
  let p := emit (Action.LED_On 1) p
  let p := emit Action.PalBbEnable p
  let p := emit Action.PalBbRestore p
  let p := emit Action.MXC_WUT_RestoreBBClock p
  let p := emit Action.MXC_WUT_cnt_read p
  let actualTicks := sub32 th.cntWake preCapture
  let schUsecElapsed := u32 (u64 (u64 actualTicks * u64 1000000) /
    u64 cfg.configRTC_TICK_RATE_HZ)
  emit (Action.PalTimerRestore (sub32 schUsec schUsecElapsed)) p

/-- Routine `vPortSuppressTicksAndSleep`; `none` when `MXC_ASSERT` fails, in
which case the routine does not return.  The two operands of the `||` in the
abandon test are evaluated left to right. -/
def vPortSuppressTicksAndSleep (cfg : TicklessConfig) (th : TicklessHw)
    (xExpectedIdleTime : Nat) (s : TicklessState) : Option TicklessState :=
  if cfg.MXC_ASSERT_ENABLE ∧ ¬ (cfg.configRTC_TICK_RATE_HZ ≥ cfg.configTICK_RATE_HZ) then none
  else
    let p := emit Action.SysTick_VAL_read s.pal
    if th.SysTick_VAL < MIN_SYSTICK then some { s with pal := p }
    else
      let idleTicks := idleTicks cfg xExpectedIdleTime
      if idleTicks < MIN_WUT_TICKS then some { s with pal := p }
      else
        let p := emit Action.cpsid_i { p with irqEnabled := false }
        let p := emit Action.eTaskConfirmSleepModeStatus p
        if th.abortSleep then some (abandon s p)
        else
          let r := freertos_permit_tickless th p
          if r.1 ≠ MxcError.E_NO_ERROR then some (abandon s r.2)
          else
            let p := emit Action.SysTick_CTRL_clear_ENABLE r.2
            let p := emit Action.MXC_WUT_Store p
            let p := emit Action.MXC_WUT_GetCount p
            let preCapture := th.wutGetCount
            let p := emit Action.PalTimerGetExpTime p
            let schUsec := th.schUsec
            let p := if schUsec < MIN_WUT_TICKS * 1000000 / cfg.configRTC_TICK_RATE_HZ then
                emit Action.MXC_LP_EnterSleepMode p
              else deepBranch cfg th idleTicks p
            let p := emit Action.MXC_WUT_GetCount p
            let postCapture := th.wutGetCountPost
            let actualTicks := sub32 postCapture preCapture
            let p := emit Action.cpsie_i { p with irqEnabled := true }
            let p := emit Action.portENTER_CRITICAL p
            let p := emit (Action.vTaskStepTick (actualTicks / WUT_RATIO cfg)) p
            let p := emit Action.portEXIT_CRITICAL p
            let p := emit Action.SysTick_CTRL_set_ENABLE p
            some { pal := p, SysTick_CTRL_ENABLE := true }

end Tickless

/-! ## DSA signatures, wolfcrypt `dsa.c`

The multi-precision integers of the bignum library are natural numbers and
byte buffers are lists of bytes.  The library itself is not part of the
sources at hand: its arithmetic is modelled as exact, and whether a call that
can fail for lack of resources succeeds is an input (`SignEnv`, `VerifyEnv`).
After a failed step the C code skips every later step (`ret == 0 && ...`), so
the values of the remaining locals do not matter. -/

namespace Dsa

/-- Size of `r` and of `s` in a signature. -/
def DSA_HALF_SIZE : Nat := 20

/-- Size of a signature. -/
def DSA_SIG_SIZE : Nat := 40

/-- Modelled from the spec: the digest is a 20-byte SHA-1 digest
(`SHA_DIGEST_SIZE` of `sha.h`). -/
def SHA_DIGEST_SIZE : Nat := 20

/-- Return codes of `wc_DsaSign` and `wc_DsaVerify`: 0, the non-zero code of
`wc_RNG_GenerateBlock`, a non-zero code of the bignum library handed on as it
is, and the distinct non-zero `MP_*_E` codes of `error-crypt.h`. -/
inductive Ret where
  | ok
  | rngError
  | mpError
  | MP_INIT_E
  | MP_READ_E
  | MP_CMP_E
  | MP_INVMOD_E
  | MP_EXPTMOD_E
  | MP_MOD_E
  | MP_MUL_E
  | MP_ADD_E
  | MP_MULMOD_E
  | MP_TO_E
  | MP_ZERO_E
  deriving DecidableEq, Repr

/-- The fields of `DsaKey` that the two routines read. -/
structure DsaKey where
  p : Nat
  q : Nat
  g : Nat
  y : Nat
  x : Nat
  deriving DecidableEq, Repr

/-- Modelled from the spec: `mp_read_unsigned_bin` of the external bignum
library, the value of a big-endian byte string. -/
def mp_read_unsigned_bin (bytes : List Nat) : Nat :=
  bytes.foldl (fun acc b => acc * 256 + b % 256) 0

/-- The bytes of a number, least significant first, none for zero. -/
def bytesLE : Nat → Nat → List Nat
  | 0, _ => []
  | fuel + 1, a => if a = 0 then [] else a % 256 :: bytesLE fuel (a / 256)

/-- Modelled from the spec: the bytes `mp_to_unsigned_bin` of the external
bignum library writes, big-endian and without leading zeros. -/
def mp_to_unsigned_bin (a : Nat) : List Nat := (bytesLE a a).reverse

/-- Modelled from the spec: `mp_unsigned_bin_size` of the external bignum
library, the number of bytes `mp_to_unsigned_bin` writes. -/
def mp_unsigned_bin_size (a : Nat) : Nat := (mp_to_unsigned_bin a).length

/-- Modelled from the spec: `mp_invmod` of the external bignum library, the
inverse of `a` modulo `b` in `0 .. b - 1`; it fails when there is none. -/
def mp_invmod (a b : Nat) : Option Nat :=
  (List.range b).find? (fun c => a * c % b = 1)

/-- Modelled from the spec: `mp_exptmod` of the external bignum library,
`g ^ k mod p`; it fails for a zero modulus. -/
def mp_exptmod (g k p : Nat) : Option Nat :=
  if p = 0 then none else some (g ^ k % p)

/-- Modelled from the spec: `mp_mod` of the external bignum library; it fails
for a zero modulus. -/
def mp_mod (a b : Nat) : Option Nat :=
  if b = 0 then none else some (a % b)

/-- Modelled from the spec: `mp_mulmod` of the external bignum library,
`a * b mod c`; it fails for a zero modulus. -/
def mp_mulmod (a b c : Nat) : Option Nat :=
  if c = 0 then none else some (a * b % c)

/-- Store bytes into a buffer at an offset; `none` when the store would go
past the end of the buffer. -/
def store (buf : List Nat) (off : Nat) (bytes : List Nat) : Option (List Nat) :=
  if off + bytes.length ≤ buf.length then
    some (buf.take off ++ bytes ++ buf.drop (off + bytes.length))
  else none

/-- What the random number generator and the fallible library calls of one
`wc_DsaSign` do.  Each flag says whether the call succeeds, given that its
arguments are in the domain of the operation. -/
structure SignEnv where
  /-- Whether `wc_RNG_GenerateBlock` returns 0. -/
  rng_ok : Bool
  /-- The bytes `wc_RNG_GenerateBlock` delivers. -/
  rngBytes : List Nat
  /-- The 20 bytes of the local `buffer` before the call. -/
  buffer0 : List Nat
  /-- Status of `mp_init_multi`. -/
  init_ok : Bool
  /-- Status of `mp_read_unsigned_bin` of `k`. -/
  read_k_ok : Bool
  /-- Status of `mp_invmod`. -/
  invmod_ok : Bool
  /-- Status of `mp_exptmod`. -/
  exptmod_ok : Bool
  /-- Status of `mp_mod`. -/
  mod_ok : Bool
  /-- Status of `mp_read_unsigned_bin` of `H`. -/
  read_H_ok : Bool
  /-- Status of `mp_mul`. -/
  mul_ok : Bool
  /-- Status of `mp_add`. -/
  add_ok : Bool
  /-- Status of `mp_mulmod`. -/
  mulmod_ok : Bool
  /-- Status of `mp_to_unsigned_bin` of `r`. -/
  to_r_ok : Bool
  /-- Status of `mp_to_unsigned_bin` of `s`. -/
  to_s_ok : Bool
  deriving DecidableEq, Repr

/-- What the fallible library calls of one `wc_DsaVerify` do.  Each flag says
whether the call succeeds, given that its arguments are in the domain of the
operation. -/
structure VerifyEnv where
  /-- Status of `mp_init_multi`. -/
  init_ok : Bool
  /-- Status of `mp_read_unsigned_bin` of `r`. -/
  read_r_ok : Bool
  /-- Status of `mp_read_unsigned_bin` of `s`. -/
  read_s_ok : Bool
  /-- Status of `mp_read_unsigned_bin` of `H`. -/
  read_H_ok : Bool
  /-- Status of `mp_invmod`. -/
  invmod_ok : Bool
  /-- Status of `mp_mulmod` for `u1`. -/
  mulmod_u1_ok : Bool
  /-- Status of `mp_mulmod` for `u2`. -/
  mulmod_u2_ok : Bool
  /-- Status of `mp_exptmod` of `g`. -/
  exptmod_g_ok : Bool
  /-- Status of `mp_exptmod` of `y`. -/
  exptmod_y_ok : Bool
  /-- Status of `mp_mulmod` for `v`. -/
  mulmod_v_ok : Bool
  /-- Status of `mp_mod` for `v`. -/
  mod_v_ok : Bool
  deriving DecidableEq, Repr

/-- One guarded step `if (ret == 0 && call != MP_OKAY) ret = code;` whose call
yields a value: the call is made only when `ret` is 0, it succeeds when its
status flag is set and the operation is defined. -/
def guarded (ret : Ret) (status : Bool) (value : Option Nat) (code : Ret) : Ret × Nat :=
  if ret = Ret.ok then
    match status, value with
    | true, some v => (Ret.ok, v)
    | _, _ => (code, 0)
  else (ret, 0)

/-- The write-out of `wc_DsaSign`, entered with `ret == 0`: the new `ret` and
the caller's buffer; `none` when a store goes past the end of the buffer. -/
def writeOut (env : SignEnv) (r s : Nat) (out : List Nat) : Option (Ret × List Nat) :=
  let rSz := mp_unsigned_bin_size r
  let sSz := mp_unsigned_bin_size s
  -- `out` is the caller's buffer, `off` the current value of the pointer
  let off := 0
  (if rSz = DSA_HALF_SIZE - 1 then (store out off [0]).map (fun o => (o, off + 1))
    else some (out, off)).bind fun (out, off) =>
  if ¬ env.to_r_ok then some (Ret.MP_TO_E, out)
  else
    (store out off (mp_to_unsigned_bin r)).bind fun out =>
    (if sSz = DSA_HALF_SIZE - 1 then (store out (off + rSz) [0]).map (fun o => (o, off + 1))
      else some (out, off)).bind fun (out, off) =>
    if env.to_s_ok then
      (store out (off + rSz) (mp_to_unsigned_bin s)).map fun out => (Ret.ok, out)
    else some (Ret.mpError, out)

/-- Routine `wc_DsaSign`: the return code and the caller's 40-byte buffer `out`
after the call; `none` when a store goes past the end of that buffer. -/
def wc_DsaSign (env : SignEnv) (digest : List Nat) (out : List Nat) (key : DsaKey) :
    Option (Ret × List Nat) :=
  let sz := min DSA_HALF_SIZE (mp_unsigned_bin_size key.q)
  -- generate k
  if ¬ env.rng_ok then some (Ret.rngError, out)
  else
    let buffer := env.rngBytes.take sz ++ env.buffer0.drop sz
    let buffer := buffer.set 0 ((buffer.getD 0 0) ||| 0x0C)
    if ¬ env.init_ok then some (Ret.MP_INIT_E, out)
    else
      let k := mp_read_unsigned_bin (buffer.take sz)
      let ret := if ¬ env.read_k_ok then Ret.MP_READ_E else Ret.ok
      let ret := if ret = Ret.ok ∧ ¬ (k > 1) then Ret.MP_CMP_E else ret
      -- inverse k mod q
      let kInv := guarded ret env.invmod_ok (mp_invmod k key.q) Ret.MP_INVMOD_E
      -- generate r, r = (g exp k mod p) mod q
      let r := guarded kInv.1 env.exptmod_ok (mp_exptmod key.g k key.p) Ret.MP_EXPTMOD_E
      let r := guarded r.1 env.mod_ok (mp_mod r.2 key.q) Ret.MP_MOD_E
      -- generate H from sha digest
      let H := guarded r.1 env.read_H_ok
        (some (mp_read_unsigned_bin (digest.take SHA_DIGEST_SIZE))) Ret.MP_READ_E
      -- generate s, s = (kInv * (H + x*r)) % q
      let s := guarded H.1 env.mul_ok (some (key.x * r.2)) Ret.MP_MUL_E
      let s := guarded s.1 env.add_ok (some (s.2 + H.2)) Ret.MP_ADD_E
      let s := guarded s.1 env.mulmod_ok (mp_mulmod s.2 kInv.2 key.q) Ret.MP_MULMOD_E
      -- write out
      if s.1 = Ret.ok then writeOut env r.2 s.2 out else some (s.1, out)

/-- Routine `wc_DsaVerify`: the return code and the value of `*answer` after
the call, given its value before.  Each local that a guarded step assigns is
paired with the value of `ret` after that step. -/
def wc_DsaVerify (env : VerifyEnv) (digest sig : List Nat) (key : DsaKey) (answer : Int) :
    Ret × Int :=
  if ¬ env.init_ok then (Ret.MP_INIT_E, answer)
  else
    -- set r and s from signature
    let r := mp_read_unsigned_bin (sig.take DSA_HALF_SIZE)
    let s := mp_read_unsigned_bin ((sig.drop DSA_HALF_SIZE).take DSA_HALF_SIZE)
    let ret := if ¬ env.read_r_ok ∨ ¬ env.read_s_ok then Ret.MP_READ_E else Ret.ok
    -- sanity checks
    let ret := if ret = Ret.ok ∧ (r = 0 ∨ s = 0 ∨ ¬ r < key.q ∨ ¬ s < key.q) then Ret.MP_ZERO_E
      else ret
    -- put H into u1 from sha digest
    let H := guarded ret env.read_H_ok
      (some (mp_read_unsigned_bin (digest.take SHA_DIGEST_SIZE))) Ret.MP_READ_E
    -- w = s invmod q
    let w := guarded H.1 env.invmod_ok (mp_invmod s key.q) Ret.MP_INVMOD_E
    -- u1 = (H * w) % q
    let u1 := guarded w.1 env.mulmod_u1_ok (mp_mulmod H.2 w.2 key.q) Ret.MP_MULMOD_E
    -- u2 = (r * w) % q
    let u2 := guarded u1.1 env.mulmod_u2_ok (mp_mulmod r w.2 key.q) Ret.MP_MULMOD_E
    -- verify v = ((g^u1 * y^u2) mod p) mod q
    let gu1 := guarded u2.1 env.exptmod_g_ok (mp_exptmod key.g u1.2 key.p) Ret.MP_EXPTMOD_E
    let yu2 := guarded gu1.1 env.exptmod_y_ok (mp_exptmod key.y u2.2 key.p) Ret.MP_EXPTMOD_E
    let v := guarded yu2.1 env.mulmod_v_ok (mp_mulmod gu1.2 yu2.2 key.p) Ret.MP_MULMOD_E
    let v := guarded v.1 env.mod_v_ok (mp_mod v.2 key.q) Ret.MP_MULMOD_E
    -- do they match
    if v.1 = Ret.ok ∧ r = v.2 then (v.1, 1) else (v.1, 0)

end Dsa

/-! ## Observations on traces -/

/-- The actions a routine appended, given the state before and after. -/
def emitted (s s' : PalState) : List Action := s'.trace.drop s.trace.length

/-- Whether an action is an entry into a low-power mode. -/
def Action.isLowPowerEntry : Action → Bool
  | Action.MXC_LP_EnterSleepMode => true
  | Action.MXC_LP_EnterStandbyMode => true
  | Action.MXC_LP_EnterLowPowerMode => true
  | _ => false

/-- Whether an action is a store to the wake-clock compare register. -/
def Action.isCmpWrite : Action → Bool
  | Action.MXC_WUT_cmp_write _ => true
  | _ => false

/-- The values stored to the wake-clock compare register, in order. -/
def cmpWrites (tr : List Action) : List Nat :=
  tr.filterMap fun a => match a with
    | Action.MXC_WUT_cmp_write v => some v
    | _ => none

/-- The arguments of the `PalTimerRestore` calls, in order. -/
def timerRestoreArgs (tr : List Action) : List Nat :=
  tr.filterMap fun a => match a with
    | Action.PalTimerRestore v => some v
    | _ => none

/-- The value stored to the compare register before the first low-power
entry, if there is such a store. -/
def armedTarget : List Action → Option Nat
  | [] => none
  | Action.MXC_WUT_cmp_write v :: _ => some v
  | a :: tr => if a.isLowPowerEntry then none else armedTarget tr

/-- The actions of the deep path of `palSysEnterStandby`, with the platform's
interrupt line, its low-power entry sequence, the compare target, the argument
of `PalTimerRestore` and the sentinel written last. -/
def deepActions (irq : Irq) (entry : List Action) (target restoreArg sentinel : Nat) :
    List Action :=
  [Action.MXC_WUT_Store, Action.MXC_WUT_cnt_read, Action.PalTimerGetExpTime,
    Action.MXC_WUT_cmp_write target, Action.NVIC_EnableIRQ irq,
    Action.MXC_LP_EnableWUTAlarmWakeup, Action.PalTimerStop, Action.PalBbDisable,
    Action.PalExitCs] ++ entry ++
  [Action.PalEnterCs, Action.PalBbEnable, Action.PalBbRestore,
    Action.MXC_WUT_RestoreBBClock, Action.MXC_WUT_cnt_read,
    Action.PalTimerRestore restoreArg, Action.MXC_WUT_cmp_write sentinel]

/-- The low-power entry of the max32690 deep path: standby on the ARM core; on
the RISC-V core the ARM is signalled and the core sleeps. -/
def Max32690.lowPowerEntry (cfg : Config) : List Action :=
  if cfg.riscv then [Action.MXC_SEMA_irq1_set, Action.MXC_LP_EnterSleepMode]
  else [Action.MXC_LP_EnterStandbyMode]

/-- The compare target as `palSysEnterStandby` computes it. -/
def targetTick (cfg : Config) (rtcCount schUsec wakeupUs : Nat) : Nat :=
  u32 (u64 (rtcCount +
    u64 (u64 (sub64 schUsec wakeupUs) * u64 cfg.PAL_RTC_TICKS_PER_SEC) / u64 1000000))

/-- The argument of `PalTimerRestore` as `palSysEnterStandby` computes it. -/
def restoreArg (cfg : Config) (hw : Hw) : Nat :=
  sub32 hw.schUsec
    (u32 (u64 (u64 (sub32 hw.cntWake hw.cntEntry) * u64 1000000) / u64 cfg.PAL_RTC_TICKS_PER_SEC))

/-- The branch conditions under which the max32665 `PalSysSleep` reaches the
deep path of `palSysEnterStandby`. -/
def Max32665.takesDeepPath (cfg : Config) (hw : Hw) (s : PalState) : Prop :=
  s.palSysBusyCount = 0 ∧ ¬ (cfg.DEBUG = true ∧ cfg.PAL_SYS_ENABLE_STANDBY = 0) ∧
  hw.trimPending = false ∧ hw.uartBusy = false ∧ hw.timerBusy = true ∧
  hw.uartActive = false ∧ cfg.PAL_SYS_ENABLE_STANDBY ≠ 0 ∧ 3000 ≤ hw.schUsec

/-- The branch conditions under which the max32690 `PalSysSleep` reaches the
deep path of `palSysEnterStandby`. -/
def Max32690.takesDeepPath (cfg : Config) (hw : Hw) (s : PalState) : Prop :=
  s.palSysBusyCount = 0 ∧ ¬ (cfg.DEBUG = true ∧ cfg.PAL_SYS_ENABLE_STANDBY = 0) ∧
  hw.trimPending = false ∧ hw.uartBusy = false ∧ hw.timerBusy = true ∧
  hw.uartActive = false ∧ cfg.PAL_SYS_RISCV_LOAD ≠ 1 ∧
  cfg.PAL_SYS_ENABLE_STANDBY ≠ 0 ∧ 3000 ≤ hw.schUsec

/-- The four gate queries of `PalSysSleep`, in program order. -/
def gateQueries : List Action :=
  [Action.MXC_WUT_TrimPending, Action.PalUartGetState, Action.PalTimerGetState,
    Action.MXC_UART_GetActive]

/-- What an action does to the global interrupt-enable bit, if anything:
`PalExitCs` (`__enable_irq`) and `cpsie i` set it, `PalEnterCs`
(`__disable_irq`) and `cpsid i` clear it. -/
def Action.irqEffect : Action → Option Bool
  | Action.PalExitCs => some true
  | Action.cpsie_i => some true
  | Action.PalEnterCs => some false
  | Action.cpsid_i => some false
  | _ => none

/-- Each action of a trace, paired with the interrupt-enable state in which it
is issued, given the state before the first action. -/
def irqDuring : Bool → List Action → List (Action × Bool)
  | _, [] => []
  | irq, a :: tr => (a, irq) :: irqDuring (a.irqEffect.getD irq) tr

/-- The interrupt-enable state after a trace, given the state before it. -/
def irqAfter : Bool → List Action → Bool
  | irq, [] => irq
  | irq, a :: tr => irqAfter (a.irqEffect.getD irq) tr

/-- Whether an action belongs to a tickless sleep proper: a low-power entry, a
store to the compare register, `PalTimerStop`, `PalBbDisable`,
`PalTimerRestore`, `vTaskStepTick`, or a write to the `ENABLE` bit of
`SysTick->CTRL`. -/
def Action.isSleepStep : Action → Bool
  | Action.MXC_LP_EnterSleepMode => true
  | Action.MXC_LP_EnterStandbyMode => true
  | Action.MXC_LP_EnterLowPowerMode => true
  | Action.MXC_WUT_cmp_write _ => true
  | Action.PalTimerStop => true
  | Action.PalBbDisable => true
  | Action.PalTimerRestore _ => true
  | Action.vTaskStepTick _ => true
  | Action.SysTick_CTRL_clear_ENABLE => true
  | Action.SysTick_CTRL_set_ENABLE => true
  | _ => false

/-- The queries `freertos_permit_tickless` makes before it returns. -/
def permitQueries (th : Tickless.TicklessHw) : List Action :=
  if th.trimPending then [Action.MXC_WUT_TrimPending]
  else if th.uartBusy then [Action.MXC_WUT_TrimPending, Action.PalUartGetState]
  else if ¬ th.timerBusy then
    [Action.MXC_WUT_TrimPending, Action.PalUartGetState, Action.PalTimerGetState]
  else gateQueries

/-- The local `idleTicks` of `vPortSuppressTicksAndSleep` after the adjustment
for the restart of the BLE hardware, as `deepBranch` computes it. -/
def Tickless.adjustedIdleTicks (cfg : Tickless.TicklessConfig) (idleTicks : Nat) : Nat :=
  u32 (sub64 idleTicks
    (u64 (u64 Tickless.WAKEUP_US * u64 cfg.configRTC_TICK_RATE_HZ) / u64 1000000))

/-- The local `bleSleepTicks` of `vPortSuppressTicksAndSleep`, as `deepBranch`
computes it. -/
def Tickless.bleSleepTicks (cfg : Tickless.TicklessConfig) (th : Tickless.TicklessHw) : Nat :=
  u32 (u64 (u64 (sub32 th.schUsec Tickless.WAKEUP_US) *
    u64 cfg.configRTC_TICK_RATE_HZ) / u64 1000000)

/-- The argument of `PalTimerRestore` as `deepBranch` computes it. -/
def Tickless.restoreArg (cfg : Tickless.TicklessConfig) (th : Tickless.TicklessHw) : Nat :=
  sub32 th.schUsec (u32 (u64 (u64 (sub32 th.cntWake th.wutGetCount) * u64 1000000) /
    u64 cfg.configRTC_TICK_RATE_HZ))

/-- The actions of `deepBranch`, with the value stored to the compare register
and the argument of `PalTimerRestore`. -/
def Tickless.deepBranchActions (armed restoreArg : Nat) : List Action :=
  [Action.MXC_WUT_cmp_write armed, Action.PalTimerStop, Action.PalBbDisable, Action.LED_Off 1,
    Action.MXC_LP_EnterSleepMode, Action.LED_On 1, Action.PalBbEnable, Action.PalBbRestore,
    Action.MXC_WUT_RestoreBBClock, Action.MXC_WUT_cnt_read, Action.PalTimerRestore restoreArg]

/-- The offset from the snapshot at which the wake-up timer is to be armed, in
the words of the specification: the smaller of the ticks to the BLE scheduler
deadline less the wake-up time, and the idle ticks less the wake-up ticks, in
exact arithmetic. -/
def Tickless.armedOffset (cfg : Tickless.TicklessConfig) (th : Tickless.TicklessHw)
    (xExpectedIdleTime : Nat) : Nat :=
  min ((th.schUsec - Tickless.WAKEUP_US) * cfg.configRTC_TICK_RATE_HZ / 1000000)
    (Tickless.idleTicks cfg xExpectedIdleTime -
      Tickless.WAKEUP_US * cfg.configRTC_TICK_RATE_HZ / 1000000)

/-! ## Sequences of busy-count calls -/

/-- A call of the busy-count client API that changes the count. -/
inductive BusyCall where
  | SetBusy
  | SetIdle
  deriving DecidableEq, Repr

/-- Perform one call. -/
def BusyCall.run : BusyCall → PalState → PalState
  | BusyCall.SetBusy, s => PalSysSetBusy s
  | BusyCall.SetIdle, s => PalSysSetIdle s

/-- Perform a sequence of calls, first call first. -/
def runBusyCalls (calls : List BusyCall) (s : PalState) : PalState :=
  calls.foldl (fun s c => c.run s) s

/-- The reference count of the specification after one more call: plus one
per `SetBusy`, minus one per `SetIdle`, floored at zero. -/
def marksStep (n : Nat) : BusyCall → Nat
  | BusyCall.SetBusy => n + 1
  | BusyCall.SetIdle => if n = 0 then 0 else n - 1

/-- The number of outstanding marks after a sequence of calls, starting from
`n` marks. -/
def marksFrom (n : Nat) (calls : List BusyCall) : Nat :=
  calls.foldl marksStep n

/-- The number of outstanding marks after a sequence of calls, starting from
none. -/
def outstandingMarks (calls : List BusyCall) : Nat := marksFrom 0 calls

/-! ## Calls after initialisation -/

/-- The routines of `pal_sys.c` that may be called after `PalSysInit`. -/
inductive PalCall where
  | AssertTrap
  | SetTrap (enable : Bool)
  | GetAssertCount
  | GetStackUsage
  | SetBusy
  | SetIdle
  | IsBusy
  | Sleep32665 (cfg : Config) (hw : Hw)
  | Sleep32690 (cfg : Config) (hw : Hw)
  deriving DecidableEq, Repr

/-- The state after one call; `none` when `PalSysAssertTrap` does not leave its
loop at the first evaluation of the loop condition. -/
def PalCall.run : PalCall → PalState → Option PalState
  | PalCall.AssertTrap, s => PalSysAssertTrap 1 s
  | PalCall.SetTrap enable, s => some (PalSysSetTrap enable s)
  | PalCall.GetAssertCount, s => some s
  | PalCall.GetStackUsage, s => some s
  | PalCall.SetBusy, s => some (PalSysSetBusy s)
  | PalCall.SetIdle, s => some (PalSysSetIdle s)
  | PalCall.IsBusy, s => some (PalSysIsBusy s).2
  | PalCall.Sleep32665 cfg hw, s => some (Max32665.PalSysSleep cfg hw s)
  | PalCall.Sleep32690 cfg hw, s => some (Max32690.PalSysSleep cfg hw s)

/-! ## Example inputs -/

/-- A release build with standby enabled, a 32768 Hz wake clock and the
all-ones sentinel. -/
def cfgStandby : Config :=
  { PAL_SYS_ENABLE_STANDBY := 1, DEBUG := false, PAL_SYS_RISCV_LOAD := 0, riscv := false,
    PAL_RTC_TICKS_PER_SEC := 32768, PAL_MAX_RTC_COUNTER_VAL := 4294967295 }

/-- A debug build with the default `PAL_SYS_ENABLE_STANDBY`. -/
def cfgDebug : Config :=
  { PAL_SYS_ENABLE_STANDBY := 0, DEBUG := true, PAL_SYS_RISCV_LOAD := 0, riscv := false,
    PAL_RTC_TICKS_PER_SEC := 32768, PAL_MAX_RTC_COUNTER_VAL := 4294967295 }

/-- All gates pass; the scheduler timer expires in 10 ms; the core runs at
96 MHz; 200 wake-clock ticks pass during sleep. -/
def hwDeep : Hw :=
  { trimPending := false, uartBusy := false, timerBusy := true, uartActive := false,
    SystemCoreClock := 96000000, cntEntry := 1000, schUsec := 10000, cntWake := 1200,
    wutGetCompare := 0, wutGetCount := 0 }

/-- As `hwDeep`, with the scheduler timer expiring in 2 ms. -/
def hwShort : Hw := { hwDeep with schUsec := 2000 }

/-- As `hwDeep`, with the terminal UART still shifting out a character. -/
def hwUartActive : Hw := { hwDeep with uartActive := true }

/-- As `hwDeep`, with a trim procedure pending. -/
def hwTrim : Hw := { hwDeep with trimPending := true }

/-- The scheduler timer expires in 3 ms and 100 wake-clock ticks (about
3051 microseconds at 32768 Hz) pass during sleep. -/
def hwOverslept : Hw := { hwDeep with cntEntry := 0, schUsec := 3000, cntWake := 100 }

/-- An idle state with interrupts disabled, as `PalSysSleep` expects. -/
def sIdle : PalState :=
  { palSysAssertCount := 0, PalSysAssertTrapEnable := true, palSysBusyCount := 0,
    irqEnabled := false, MXC_WUT_cmp := 4294967295, trace := [] }

/-- As `sIdle`, with two busy marks outstanding. -/
def sBusy : PalState := { sIdle with palSysBusyCount := 2 }

/-- As `sIdle`, with the trap disabled. -/
def sNoTrap : PalState := { sIdle with PalSysAssertTrapEnable := false }

/-- The trap is disabled and the assert counter is at its largest value. -/
def sNoTrapMax : PalState :=
  { sIdle with PalSysAssertTrapEnable := false, palSysAssertCount := 4294967295 }

/-- A sequence with more `SetIdle` than `SetBusy` calls. -/
def callsMoreIdle : List BusyCall :=
  [BusyCall.SetIdle, BusyCall.SetBusy, BusyCall.SetBusy, BusyCall.SetIdle, BusyCall.SetIdle,
    BusyCall.SetIdle, BusyCall.SetBusy]

/-- As `hwDeep`, with the core at 60 MHz and the scheduler timer expiring in
3 ms, which is less than the 3100 microseconds the max32665 table gives for
that clock. -/
def hwUnderflow : Hw := { hwDeep with SystemCoreClock := 60000000, schUsec := 3000 }

/-- The default build: release, `PAL_SYS_ENABLE_STANDBY` at 0. -/
def cfgDefault : Config := { cfgStandby with PAL_SYS_ENABLE_STANDBY := 0 }

/-- A 32768 Hz wake-up timer under a 1000 Hz RTOS tick, assertions compiled
in. -/
def cfgTickless : Tickless.TicklessConfig :=
  { configRTC_TICK_RATE_HZ := 32768, configTICK_RATE_HZ := 1000, MXC_ASSERT_ENABLE := true }

/-- The driver state of `hwDeep` (all gates pass, scheduler timer expiring in
10 ms) with the wake-up timer at 1000 on entry, 1200 on wake and 1205 at the
final capture; no context switch is pending. -/
def thDeep : Tickless.TicklessHw :=
  { toHw := { hwDeep with wutGetCount := 1000 }, consoleUartActive := false,
    SysTick_VAL := 100, abortSleep := false, wutGetCountPost := 1205 }

/-- As `thDeep`, with the console UART still shifting out a character. -/
def thUartActive : Tickless.TicklessHw := { thDeep with consoleUartActive := true }

/-- As `thDeep`, with a context switch pending. -/
def thAbort : Tickless.TicklessHw := { thDeep with abortSleep := true }

/-- The idle task: interrupts enabled, `SysTick` running, compare register at
the all-ones sentinel. -/
def tsIdle : Tickless.TicklessState :=
  { pal := { sIdle with irqEnabled := true }, SysTick_CTRL_ENABLE := true }

/-- A 1 MHz wake-up timer under a 4000 Hz RTOS tick, assertions compiled in. -/
def cfgTicklessFast : Tickless.TicklessConfig :=
  { configRTC_TICK_RATE_HZ := 1000000, configTICK_RATE_HZ := 4000, MXC_ASSERT_ENABLE := true }

/-- A small DSA key: `q = 11` divides `p - 1 = 22`, `g = 2` has order 11
modulo 23, `x = 3` and `y = 2^3 mod 23`. -/
def dsaKeySmall : Dsa.DsaKey := { p := 23, q := 11, g := 2, y := 8, x := 3 }

/-- A 20-byte digest with the value 5. -/
def digestFive : List Nat := List.replicate 19 0 ++ [5]

/-- Every call succeeds and the random number generator delivers the byte
`0x01`, so that `k = 0x0D`. -/
def signEnvOk : Dsa.SignEnv :=
  { rng_ok := true, rngBytes := [1], buffer0 := List.replicate 20 0, init_ok := true,
    read_k_ok := true, invmod_ok := true, exptmod_ok := true, mod_ok := true,
    read_H_ok := true, mul_ok := true, add_ok := true, mulmod_ok := true, to_r_ok := true,
    to_s_ok := true }

/-- Every library call of `wc_DsaVerify` succeeds. -/
def verifyEnvOk : Dsa.VerifyEnv :=
  { init_ok := true, read_r_ok := true, read_s_ok := true, read_H_ok := true,
    invmod_ok := true, mulmod_u1_ok := true, mulmod_u2_ok := true, exptmod_g_ok := true,
    exptmod_y_ok := true, mulmod_v_ok := true, mod_v_ok := true }

/-- As `verifyEnvOk`, but `mp_init_multi` fails. -/
def verifyEnvInitFails : Dsa.VerifyEnv := { verifyEnvOk with init_ok := false }

/-- The caller's 40-byte signature buffer before `wc_DsaSign`, filled with
`0xAA`. -/
def sigBufferStale : List Nat := List.replicate 40 170

/-- The signature `r = 4`, `s = 3`, each written as 20 big-endian bytes. -/
def sigPadded : List Nat := List.replicate 19 0 ++ [4] ++ (List.replicate 19 0 ++ [3])

/-! ## Basic lemmas -/

theorem emitted_append (s s' : PalState) (l : List Action) (h : s'.trace = s.trace ++ l) :
    emitted s s' = l := by
  simp [emitted, h]

theorem emitted_self (s : PalState) : emitted s s = [] := by
  simp [emitted]

theorem palSysEnterStandby_short_eq_max32665 (cfg : Config) (hw : Hw) (s : PalState)
    (h : hw.schUsec < 3000) :
    Max32665.palSysEnterStandby cfg hw s =
      { s with trace := s.trace ++ [Action.MXC_WUT_Store, Action.MXC_WUT_cnt_read,
          Action.PalTimerGetExpTime, Action.MXC_LP_EnterSleepMode] } := by
  simp [Max32665.palSysEnterStandby, PAL_SYS_MIN_STANDBY_USEC, h, emit]

theorem palSysEnterStandby_short_eq_max32690 (cfg : Config) (hw : Hw) (s : PalState)
    (h : hw.schUsec < 3000) :
    Max32690.palSysEnterStandby cfg hw s =
      { s with trace := s.trace ++ [Action.MXC_WUT_Store, Action.MXC_WUT_cnt_read,
          Action.PalTimerGetExpTime, Action.MXC_LP_EnterSleepMode] } := by
  simp [Max32690.palSysEnterStandby, PAL_SYS_MIN_STANDBY_USEC, h, emit]

theorem palSysEnterStandby_deep_eq_max32665 (cfg : Config) (hw : Hw) (s : PalState)
    (h : 3000 ≤ hw.schUsec) :
    Max32665.palSysEnterStandby cfg hw s =
      { s with
        irqEnabled := false
        MXC_WUT_cmp := u32 cfg.PAL_MAX_RTC_COUNTER_VAL
        trace := s.trace ++ deepActions Irq.WUT_IRQn [Action.MXC_LP_EnterSleepMode]
          (targetTick cfg hw.cntEntry hw.schUsec (Max32665.wakeupUs hw))
          (restoreArg cfg hw) (u32 cfg.PAL_MAX_RTC_COUNTER_VAL) } := by
  have h' : ¬ hw.schUsec < 3000 := by omega
  simp [Max32665.palSysEnterStandby, PAL_SYS_MIN_STANDBY_USEC, h', emit, writeCmp, PalExitCs,
    PalEnterCs, deepActions, targetTick, restoreArg, u32]

theorem palSysEnterStandby_deep_eq_max32690 (cfg : Config) (hw : Hw) (s : PalState)
    (h : 3000 ≤ hw.schUsec) :
    Max32690.palSysEnterStandby cfg hw s =
      { s with
        irqEnabled := false
        MXC_WUT_cmp := u32 cfg.PAL_MAX_RTC_COUNTER_VAL
        trace := s.trace ++ deepActions Irq.WUT0_IRQn (Max32690.lowPowerEntry cfg)
          (targetTick cfg hw.cntEntry hw.schUsec (Max32690.wakeupUs cfg hw))
          (restoreArg cfg hw) (u32 cfg.PAL_MAX_RTC_COUNTER_VAL) } := by
  have h' : ¬ hw.schUsec < 3000 := by omega
  cases hr : cfg.riscv <;>
  simp [Max32690.palSysEnterStandby, PAL_SYS_MIN_STANDBY_USEC, h', emit, writeCmp, PalExitCs,
    PalEnterCs, deepActions, targetTick, restoreArg, u32, Max32690.lowPowerEntry, hr]

theorem targetTick_eq (cfg : Config) (rtcCount schUsec wakeupUs : Nat)
    (hsch : schUsec < 2 ^ 32) (hw : wakeupUs ≤ schUsec)
    (hT : cfg.PAL_RTC_TICKS_PER_SEC < 2 ^ 32) :
    targetTick cfg rtcCount schUsec wakeupUs =
      (rtcCount + (schUsec - wakeupUs) * cfg.PAL_RTC_TICKS_PER_SEC / 1000000) % 2 ^ 32 := by
  have h1 : sub64 schUsec wakeupUs = schUsec - wakeupUs := by
    unfold sub64 u64
    have ha : schUsec % 2 ^ 64 = schUsec := Nat.mod_eq_of_lt (by omega)
    have hb : wakeupUs % 2 ^ 64 = wakeupUs := Nat.mod_eq_of_lt (by omega)
    rw [ha, hb]
    have : schUsec + (2 ^ 64 - wakeupUs) = (schUsec - wakeupUs) + 2 ^ 64 := by omega
    rw [this, Nat.add_mod_right]
    exact Nat.mod_eq_of_lt (by omega)
  have h2 : (schUsec - wakeupUs) * cfg.PAL_RTC_TICKS_PER_SEC < 2 ^ 64 := by
    have : (schUsec - wakeupUs) * cfg.PAL_RTC_TICKS_PER_SEC < 2 ^ 32 * 2 ^ 32 :=
      Nat.mul_lt_mul'' (by omega) hT
    calc (schUsec - wakeupUs) * cfg.PAL_RTC_TICKS_PER_SEC < 2 ^ 32 * 2 ^ 32 := this
      _ = 2 ^ 64 := by norm_num
  unfold targetTick
  rw [h1]
  unfold u32 u64
  rw [Nat.mod_eq_of_lt (show schUsec - wakeupUs < 2 ^ 64 by omega),
    Nat.mod_eq_of_lt (show cfg.PAL_RTC_TICKS_PER_SEC < 2 ^ 64 by omega),
    Nat.mod_eq_of_lt h2, Nat.mod_eq_of_lt (show 1000000 < 2 ^ 64 by norm_num)]
  exact Nat.mod_mod_of_dvd _ (by norm_num)

theorem armedTarget_deepActions (irq : Irq) (entry : List Action)
    (target restoreArg sentinel : Nat) :
    armedTarget (deepActions irq entry target restoreArg sentinel) = some target := rfl

theorem armedTarget_deep_max32665 (cfg : Config) (hw : Hw) (s : PalState)
    (h : 3000 ≤ hw.schUsec) :
    armedTarget (emitted s (Max32665.palSysEnterStandby cfg hw s)) =
      some (targetTick cfg hw.cntEntry hw.schUsec (Max32665.wakeupUs hw)) := by
  rw [emitted_append s _ _ (congrArg PalState.trace
    (palSysEnterStandby_deep_eq_max32665 cfg hw s h))]
  rfl

theorem armedTarget_deep_max32690 (cfg : Config) (hw : Hw) (s : PalState)
    (h : 3000 ≤ hw.schUsec) :
    armedTarget (emitted s (Max32690.palSysEnterStandby cfg hw s)) =
      some (targetTick cfg hw.cntEntry hw.schUsec (Max32690.wakeupUs cfg hw)) := by
  rw [emitted_append s _ _ (congrArg PalState.trace
    (palSysEnterStandby_deep_eq_max32690 cfg hw s h))]
  rfl

theorem PalSysIsBusy_fst (s : PalState) :
    (PalSysIsBusy s).1 = decide (s.palSysBusyCount ≠ 0) := by
  by_cases h : s.palSysBusyCount = 0 <;>
  simp [PalSysIsBusy, PalEnterCs, PalExitCs, emit, h]

theorem PalSysSetBusy_busyCount (s : PalState) :
    (PalSysSetBusy s).palSysBusyCount = (s.palSysBusyCount + 1) % 2 ^ 32 := rfl

theorem PalSysSetIdle_busyCount_zero (s : PalState) (h : s.palSysBusyCount = 0) :
    (PalSysSetIdle s).palSysBusyCount = 0 := by
  simp [PalSysSetIdle, PalEnterCs, PalExitCs, emit, h]

theorem PalSysSetIdle_busyCount_pos (s : PalState) (h : s.palSysBusyCount ≠ 0)
    (hlt : s.palSysBusyCount < 2 ^ 32) :
    (PalSysSetIdle s).palSysBusyCount = s.palSysBusyCount - 1 := by
  simp only [PalSysSetIdle, PalEnterCs, PalExitCs, emit, ne_eq, h, not_false_eq_true,
    if_true, sub32, u32]
  omega

theorem BusyCall.run_busyCount (c : BusyCall) (s : PalState)
    (hlt : s.palSysBusyCount < 2 ^ 32) (hstep : marksStep s.palSysBusyCount c < 2 ^ 32) :
    (c.run s).palSysBusyCount = marksStep s.palSysBusyCount c := by
  cases c with
  | SetBusy =>
    simp only [BusyCall.run, marksStep] at hstep ⊢
    rw [PalSysSetBusy_busyCount]
    exact Nat.mod_eq_of_lt hstep
  | SetIdle =>
    simp only [BusyCall.run, marksStep]
    by_cases h0 : s.palSysBusyCount = 0
    · rw [PalSysSetIdle_busyCount_zero s h0, if_pos h0]
    · rw [PalSysSetIdle_busyCount_pos s h0 hlt, if_neg h0]

theorem runBusyCalls_busyCount (calls : List BusyCall) :
    ∀ s : PalState, (∀ k, marksFrom s.palSysBusyCount (calls.take k) < 2 ^ 32) →
      (runBusyCalls calls s).palSysBusyCount = marksFrom s.palSysBusyCount calls := by
  induction calls with
  | nil => intro s _; rfl
  | cons c cs ih =>
    intro s h
    have h0 : s.palSysBusyCount < 2 ^ 32 := by simpa [marksFrom] using h 0
    have h1 : marksStep s.palSysBusyCount c < 2 ^ 32 := by simpa [marksFrom] using h 1
    have hrun := BusyCall.run_busyCount c s h0 h1
    have hrest : ∀ k, marksFrom (c.run s).palSysBusyCount (cs.take k) < 2 ^ 32 := by
      intro k
      rw [hrun]
      simpa [marksFrom] using h (k + 1)
    have := ih (c.run s) hrest
    rw [hrun] at this
    simpa [runBusyCalls, marksFrom] using this

theorem marksFrom_le (calls : List BusyCall) :
    ∀ n, marksFrom n calls ≤ n + calls.length := by
  induction calls with
  | nil => intro n; simp [marksFrom]
  | cons c cs ih =>
    intro n
    have h := ih (marksStep n c)
    have hs : marksStep n c ≤ n + 1 := by
      cases c
      · simp only [marksStep]; omega
      · simp only [marksStep]; split_ifs <;> omega
    simp only [marksFrom, List.foldl_cons, List.length_cons] at h ⊢
    omega

theorem outstandingMarks_take_lt (calls : List BusyCall) (h : calls.length < 2 ^ 32) (k : Nat) :
    outstandingMarks (calls.take k) < 2 ^ 32 := by
  have h1 := marksFrom_le (calls.take k) 0
  have h2 : (calls.take k).length ≤ calls.length := by
    rw [List.length_take]; exact Nat.min_le_right _ _
  unfold outstandingMarks
  omega

theorem runBusyCalls_replicate_SetBusy (n : Nat) :
    ∀ s : PalState, s.palSysBusyCount < 2 ^ 32 →
      (runBusyCalls (List.replicate n BusyCall.SetBusy) s).palSysBusyCount =
        (s.palSysBusyCount + n) % 2 ^ 32 := by
  induction n with
  | zero =>
    intro s hs
    show s.palSysBusyCount = _
    rw [Nat.add_zero, Nat.mod_eq_of_lt hs]
  | succ n ih =>
    intro s _
    have hlt : (PalSysSetBusy s).palSysBusyCount < 2 ^ 32 := by
      rw [PalSysSetBusy_busyCount]
      exact Nat.mod_lt _ (by norm_num)
    have := ih (PalSysSetBusy s) hlt
    rw [PalSysSetBusy_busyCount] at this
    have e : runBusyCalls (List.replicate (n + 1) BusyCall.SetBusy) s =
        runBusyCalls (List.replicate n BusyCall.SetBusy) (PalSysSetBusy s) := rfl
    rw [e, this, Nat.add_mod, Nat.mod_mod, ← Nat.add_mod]
    congr 1
    omega

theorem marksFrom_replicate_SetBusy (n : Nat) :
    ∀ c, marksFrom c (List.replicate n BusyCall.SetBusy) = c + n := by
  induction n with
  | zero => intro c; rfl
  | succ n ih =>
    intro c
    have e : marksFrom c (List.replicate (n + 1) BusyCall.SetBusy) =
        marksFrom (c + 1) (List.replicate n BusyCall.SetBusy) := rfl
    rw [e, ih]
    omega

theorem PalSysInit_busyCount_max32665 (cfg : Config) (s : PalState) :
    (Max32665.PalSysInit cfg s).palSysBusyCount = 0 := by
  unfold Max32665.PalSysInit
  split_ifs <;> rfl

theorem PalSysInit_busyCount_max32690 (cfg : Config) (s : PalState) :
    (Max32690.PalSysInit cfg s).palSysBusyCount = 0 := by
  unfold Max32690.PalSysInit
  split_ifs <;> rfl

theorem runBusyCalls_from_zero (calls : List BusyCall) (s : PalState)
    (h0 : s.palSysBusyCount = 0) (hbound : ∀ k, outstandingMarks (calls.take k) < 2 ^ 32) :
    (runBusyCalls calls s).palSysBusyCount = outstandingMarks calls ∧
    (PalSysIsBusy (runBusyCalls calls s)).1 = decide (0 < outstandingMarks calls) := by
  have h := runBusyCalls_busyCount calls s (by rw [h0]; exact hbound)
  rw [h0] at h
  refine ⟨h, ?_⟩
  rw [PalSysIsBusy_fst, h]
  simp [outstandingMarks, Nat.pos_iff_ne_zero]

theorem restoreArg_eq (cfg : Config) (hw : Hw) (hT : cfg.PAL_RTC_TICKS_PER_SEC < 2 ^ 32) :
    restoreArg cfg hw =
      sub32 hw.schUsec
        (u32 (sub32 hw.cntWake hw.cntEntry * 1000000 / cfg.PAL_RTC_TICKS_PER_SEC)) := by
  have hE : sub32 hw.cntWake hw.cntEntry < 2 ^ 32 := Nat.mod_lt _ (by norm_num)
  unfold restoreArg
  have h1 : u64 (sub32 hw.cntWake hw.cntEntry) = sub32 hw.cntWake hw.cntEntry :=
    Nat.mod_eq_of_lt (by omega)
  have h2 : u64 1000000 = 1000000 := by norm_num [u64]
  have h3 : u64 cfg.PAL_RTC_TICKS_PER_SEC = cfg.PAL_RTC_TICKS_PER_SEC :=
    Nat.mod_eq_of_lt (by omega)
  have h4 : u64 (sub32 hw.cntWake hw.cntEntry * 1000000) =
      sub32 hw.cntWake hw.cntEntry * 1000000 := Nat.mod_eq_of_lt (by omega)
  rw [h1, h2, h3, h4]

theorem sub32_of_le (a b : Nat) (ha : a < 2 ^ 32) (hb : b ≤ a) : sub32 a (u32 b) = a - b := by
  unfold sub32 u32
  omega

theorem sub32_of_gt (a b : Nat) (ha : a < b) (hb : b < 2 ^ 32) :
    sub32 a (u32 b) = 2 ^ 32 - (b - a) := by
  unfold sub32 u32
  omega

theorem timerRestoreArgs_deep_max32665 (cfg : Config) (hw : Hw) (s : PalState)
    (h : 3000 ≤ hw.schUsec) :
    timerRestoreArgs (emitted s (Max32665.palSysEnterStandby cfg hw s)) =
      [restoreArg cfg hw] := by
  rw [emitted_append s _ _ (congrArg PalState.trace
    (palSysEnterStandby_deep_eq_max32665 cfg hw s h))]
  rfl

theorem timerRestoreArgs_deep_max32690 (cfg : Config) (hw : Hw) (s : PalState)
    (h : 3000 ≤ hw.schUsec) :
    timerRestoreArgs (emitted s (Max32690.palSysEnterStandby cfg hw s)) =
      [restoreArg cfg hw] := by
  rw [emitted_append s _ _ (congrArg PalState.trace
    (palSysEnterStandby_deep_eq_max32690 cfg hw s h))]
  cases hr : cfg.riscv <;> simp [Max32690.lowPowerEntry, hr, deepActions, timerRestoreArgs]

theorem PalSysSleep_deep_max32665 (cfg : Config) (hw : Hw) (s : PalState)
    (h : Max32665.takesDeepPath cfg hw s) :
    Max32665.PalSysSleep cfg hw s =
      { s with
        irqEnabled := false
        MXC_WUT_cmp := u32 cfg.PAL_MAX_RTC_COUNTER_VAL
        trace := s.trace ++ (gateQueries ++ deepActions Irq.WUT_IRQn [Action.MXC_LP_EnterSleepMode]
          (targetTick cfg hw.cntEntry hw.schUsec (Max32665.wakeupUs hw))
          (restoreArg cfg hw) (u32 cfg.PAL_MAX_RTC_COUNTER_VAL)) } := by
  obtain ⟨hb, hd, ht, hu, htm, hua, hst, hmin⟩ := h
  have hd' : ¬ (cfg.DEBUG = true ∧ cfg.PAL_SYS_ENABLE_STANDBY = 0) := hd
  unfold Max32665.PalSysSleep
  simp only [hb, ne_eq, not_true_eq_false, if_false, hd', ht, hu, htm, hua, hst,
    not_false_eq_true, if_true, Bool.false_eq_true]
  rw [palSysEnterStandby_deep_eq_max32665 cfg hw _ hmin]
  simp [emit, gateQueries, hb]

theorem PalSysSleep_not_deep_max32665 (cfg : Config) (hw : Hw) (s : PalState)
    (h : ¬ Max32665.takesDeepPath cfg hw s) :
    cmpWrites (emitted s (Max32665.PalSysSleep cfg hw s)) = [] ∧
    (Max32665.PalSysSleep cfg hw s).MXC_WUT_cmp = s.MXC_WUT_cmp := by
  unfold Max32665.takesDeepPath at h
  unfold Max32665.PalSysSleep
  split_ifs with h1 h2 h3 h4 h5 h6 h7
  all_goals first
    | (simp [emitted, emit, cmpWrites]; done)
    | skip
  have hshort : hw.schUsec < 3000 := by
    by_contra hge
    exact h ⟨by simpa using h1, h2, by simpa using h3, by simpa using h4, h5,
      by simpa using h6, h7, by omega⟩
  simp only [palSysEnterStandby_short_eq_max32665 cfg hw _ hshort]
  simp [emitted, emit, cmpWrites]

theorem PalSysSleep_deep_max32690 (cfg : Config) (hw : Hw) (s : PalState)
    (h : Max32690.takesDeepPath cfg hw s) :
    Max32690.PalSysSleep cfg hw s =
      { s with
        irqEnabled := false
        MXC_WUT_cmp := u32 cfg.PAL_MAX_RTC_COUNTER_VAL
        trace := s.trace ++ (gateQueries ++ deepActions Irq.WUT0_IRQn (Max32690.lowPowerEntry cfg)
          (targetTick cfg hw.cntEntry hw.schUsec (Max32690.wakeupUs cfg hw))
          (restoreArg cfg hw) (u32 cfg.PAL_MAX_RTC_COUNTER_VAL)) } := by
  obtain ⟨hb, hd, ht, hu, htm, hua, hrl, hst, hmin⟩ := h
  have hd' : ¬ (cfg.DEBUG = true ∧ cfg.PAL_SYS_ENABLE_STANDBY = 0) := hd
  unfold Max32690.PalSysSleep
  simp only [hb, ne_eq, not_true_eq_false, if_false, hd', ht, hu, htm, hua, hst, hrl,
    not_false_eq_true, if_true, Bool.false_eq_true]
  rw [palSysEnterStandby_deep_eq_max32690 cfg hw _ hmin]
  simp [emit, gateQueries, hb]

theorem PalSysSleep_not_deep_max32690 (cfg : Config) (hw : Hw) (s : PalState)
    (h : ¬ Max32690.takesDeepPath cfg hw s) :
    cmpWrites (emitted s (Max32690.PalSysSleep cfg hw s)) = [] ∧
    (Max32690.PalSysSleep cfg hw s).MXC_WUT_cmp = s.MXC_WUT_cmp := by
  unfold Max32690.takesDeepPath at h
  unfold Max32690.PalSysSleep
  split_ifs with h1 h2 h3 h4 h5 h6 h7 h8
  all_goals first
    | (simp [emitted, emit, cmpWrites]; done)
    | (dsimp only; split_ifs <;> simp [emitted, emit, cmpWrites])
    | skip
  have hshort : hw.schUsec < 3000 := by
    by_contra hge
    exact h ⟨by simpa using h1, h2, by simpa using h3, by simpa using h4, h5,
      by simpa using h6, h7, h8, by omega⟩
  simp only [palSysEnterStandby_short_eq_max32690 cfg hw _ hshort]
  simp [emitted, emit, cmpWrites]

theorem cmpWrites_gate_deep (irq : Irq) (entry : List Action) (target restoreArg sentinel : Nat)
    (hentry : cmpWrites entry = []) :
    cmpWrites (gateQueries ++ deepActions irq entry target restoreArg sentinel) =
      [target, sentinel] := by
  simp only [cmpWrites, gateQueries, deepActions, List.filterMap_append] at hentry ⊢
  rw [hentry]
  rfl

theorem Max32690.cmpWrites_lowPowerEntry (cfg : Config) :
    cmpWrites (Max32690.lowPowerEntry cfg) = [] := by
  cases hr : cfg.riscv <;> simp [Max32690.lowPowerEntry, hr, cmpWrites]

theorem trapEntry_eq (s : PalState) :
    trapEntry s =
      { s with
        palSysAssertCount := (s.palSysAssertCount + 1) % 2 ^ 32
        irqEnabled := false
        trace := s.trace ++ [Action.PalEnterCs, Action.PalLedOn LedId.PAL_LED_ID_ERROR] } := by
  simp [trapEntry, PalEnterCs, emit, u32]

theorem trapRun_enabled (s : PalState) (h : s.PalSysAssertTrapEnable = true) (n : Nat) :
    trapRun n s = (TrapPc.spin, trapEntry s) := by
  have hfix : trapStep (TrapPc.spin, trapEntry s) = (TrapPc.spin, trapEntry s) := by
    have he : (trapEntry s).PalSysAssertTrapEnable = true := by rw [trapEntry_eq]; exact h
    simp [trapStep, he]
  exact Function.iterate_fixed hfix n

theorem trapRun_disabled (s : PalState) (h : s.PalSysAssertTrapEnable = false) (n : Nat) :
    trapRun (n + 1) s = (TrapPc.done, PalExitCs (trapEntry s)) := by
  have he : (trapEntry s).PalSysAssertTrapEnable = false := by rw [trapEntry_eq]; exact h
  have h1 : trapStep (TrapPc.spin, trapEntry s) = (TrapPc.done, PalExitCs (trapEntry s)) := by
    simp [trapStep, he]
  have hfix : trapStep (TrapPc.done, PalExitCs (trapEntry s)) =
      (TrapPc.done, PalExitCs (trapEntry s)) := rfl
  unfold trapRun
  rw [Function.iterate_succ_apply, h1]
  exact Function.iterate_fixed hfix n

theorem palSysEnterStandby_first_max32665 (cfg : Config) (hw : Hw) (s : PalState) :
    ∃ rest, (Max32665.palSysEnterStandby cfg hw s).trace =
      s.trace ++ Action.MXC_WUT_Store :: rest := by
  by_cases h : hw.schUsec < 3000
  · exact ⟨_, congrArg PalState.trace (palSysEnterStandby_short_eq_max32665 cfg hw s h)⟩
  · exact ⟨_, congrArg PalState.trace
      (palSysEnterStandby_deep_eq_max32665 cfg hw s (by omega))⟩

theorem PalSysSleep_standby_eq_max32665 (cfg : Config) (hw : Hw) (s : PalState)
    (hdebug : cfg.DEBUG = false) (hbusy : s.palSysBusyCount = 0)
    (htrim : hw.trimPending = false) (huart : hw.uartBusy = false)
    (htimer : hw.timerBusy = true) (hactive : hw.uartActive = false)
    (hstandby : cfg.PAL_SYS_ENABLE_STANDBY ≠ 0) :
    Max32665.PalSysSleep cfg hw s =
      Max32665.palSysEnterStandby cfg hw { s with trace := s.trace ++ gateQueries } := by
  simp [Max32665.PalSysSleep, hdebug, hbusy, htrim, huart, htimer, hactive, hstandby, emit,
    gateQueries]

theorem PalSysSleep_store_imp_max32665 (cfg : Config) (hw : Hw) (s : PalState)
    (h : Action.MXC_WUT_Store ∈ emitted s (Max32665.PalSysSleep cfg hw s)) :
    s.palSysBusyCount = 0 ∧ hw.trimPending = false ∧ hw.uartBusy = false ∧
    hw.timerBusy = true ∧ hw.uartActive = false ∧ cfg.PAL_SYS_ENABLE_STANDBY ≠ 0 := by
  unfold Max32665.PalSysSleep at h
  split_ifs at h with h1 h2 h3 h4 h5 h6 h7
  all_goals first
    | (simp [emitted, emit] at h; done)
    | skip
  exact ⟨by simpa using h1, by simpa using h3, by simpa using h4, h5, by simpa using h6, h7⟩

theorem irqDuring_of_no_effect (tr : List Action) (irq : Bool)
    (h : ∀ a ∈ tr, a.irqEffect = none) :
    (∀ p ∈ irqDuring irq tr, p.2 = irq) ∧ irqAfter irq tr = irq := by
  induction tr with
  | nil => simp [irqDuring, irqAfter]
  | cons a tr ih =>
    have ha : a.irqEffect = none := h a (List.mem_cons_self a tr)
    have ih' := ih (fun b hb => h b (List.mem_cons_of_mem a hb))
    simp only [irqDuring, irqAfter, ha, Option.getD_none, List.mem_cons]
    refine ⟨?_, ih'.2⟩
    rintro p (rfl | hp)
    · rfl
    · exact ih'.1 p hp

theorem all_noIrqEffect (l : List Action)
    (h : l.all (fun a => a.irqEffect.isNone) = true) : ∀ a ∈ l, a.irqEffect = none := by
  intro a ha
  have := List.all_eq_true.mp h a ha
  simpa using this

theorem PalSysSleep_not_deep_irq_max32665 (cfg : Config) (hw : Hw) (s : PalState)
    (h : ¬ Max32665.takesDeepPath cfg hw s) :
    (emitted s (Max32665.PalSysSleep cfg hw s)).all (fun a => a.irqEffect.isNone) = true ∧
    (Max32665.PalSysSleep cfg hw s).irqEnabled = s.irqEnabled := by
  unfold Max32665.takesDeepPath at h
  unfold Max32665.PalSysSleep
  split_ifs with h1 h2 h3 h4 h5 h6 h7
  all_goals first
    | (simp [emitted, emit, Action.irqEffect]; done)
    | skip
  have hshort : hw.schUsec < 3000 := by
    by_contra hge
    exact h ⟨by simpa using h1, h2, by simpa using h3, by simpa using h4, h5,
      by simpa using h6, h7, by omega⟩
  simp only [palSysEnterStandby_short_eq_max32665 cfg hw _ hshort]
  simp [emitted, emit, Action.irqEffect]

theorem PalSysSleep_not_deep_irq_max32690 (cfg : Config) (hw : Hw) (s : PalState)
    (h : ¬ Max32690.takesDeepPath cfg hw s) :
    (emitted s (Max32690.PalSysSleep cfg hw s)).all (fun a => a.irqEffect.isNone) = true ∧
    (Max32690.PalSysSleep cfg hw s).irqEnabled = s.irqEnabled := by
  unfold Max32690.takesDeepPath at h
  unfold Max32690.PalSysSleep
  split_ifs with h1 h2 h3 h4 h5 h6 h7 h8
  all_goals first
    | (simp [emitted, emit, Action.irqEffect]; done)
    | (dsimp only; split_ifs <;> simp [emitted, emit, Action.irqEffect])
    | skip
  have hshort : hw.schUsec < 3000 := by
    by_contra hge
    exact h ⟨by simpa using h1, h2, by simpa using h3, by simpa using h4, h5,
      by simpa using h6, h7, h8, by omega⟩
  simp only [palSysEnterStandby_short_eq_max32690 cfg hw _ hshort]
  simp [emitted, emit, Action.irqEffect]

theorem irqDuring_gate_deep (irq : Irq) (entry : List Action) (target restoreArg sentinel : Nat)
    (hentry : entry = [Action.MXC_LP_EnterSleepMode] ∨
      entry = [Action.MXC_LP_EnterStandbyMode] ∨
      entry = [Action.MXC_SEMA_irq1_set, Action.MXC_LP_EnterSleepMode]) :
    (∀ p ∈ irqDuring false (gateQueries ++ deepActions irq entry target restoreArg sentinel),
      p.2 = true → p.1.isLowPowerEntry = true ∨ p.1 = Action.MXC_SEMA_irq1_set ∨
        p.1 = Action.PalEnterCs) ∧
    irqAfter false (gateQueries ++ deepActions irq entry target restoreArg sentinel) = false ∧
    (gateQueries ++ deepActions irq entry target restoreArg sentinel).count Action.PalExitCs = 1 ∧
    (gateQueries ++ deepActions irq entry target restoreArg sentinel).count Action.PalEnterCs = 1
    := by
  rcases hentry with rfl | rfl | rfl <;>
  · refine ⟨?_, rfl, rfl, rfl⟩
    simp [irqDuring, gateQueries, deepActions, Action.irqEffect, Action.isLowPowerEntry]

theorem PalSysSleep_irq_window_max32665 (cfg : Config) (hw : Hw) (s : PalState)
    (hirq : s.irqEnabled = false) :
    (Max32665.PalSysSleep cfg hw s).irqEnabled = false ∧
    irqAfter false (emitted s (Max32665.PalSysSleep cfg hw s)) = false ∧
    (∀ p ∈ irqDuring false (emitted s (Max32665.PalSysSleep cfg hw s)),
      p.2 = true → p.1.isLowPowerEntry = true ∨ p.1 = Action.MXC_SEMA_irq1_set ∨
        p.1 = Action.PalEnterCs) ∧
    (emitted s (Max32665.PalSysSleep cfg hw s)).count Action.PalExitCs ≤ 1 ∧
    (emitted s (Max32665.PalSysSleep cfg hw s)).count Action.PalEnterCs ≤ 1 := by
  by_cases h : Max32665.takesDeepPath cfg hw s
  · rw [PalSysSleep_deep_max32665 cfg hw s h, emitted_append s _ _ rfl]
    obtain ⟨h1, h2, h3, h4⟩ := irqDuring_gate_deep Irq.WUT_IRQn [Action.MXC_LP_EnterSleepMode]
      (targetTick cfg hw.cntEntry hw.schUsec (Max32665.wakeupUs hw)) (restoreArg cfg hw)
      (u32 cfg.PAL_MAX_RTC_COUNTER_VAL) (Or.inl rfl)
    exact ⟨rfl, h2, h1, h3.le, h4.le⟩
  · obtain ⟨hall, hkeep⟩ := PalSysSleep_not_deep_irq_max32665 cfg hw s h
    have hno := all_noIrqEffect _ hall
    obtain ⟨hd, ha⟩ := irqDuring_of_no_effect _ false hno
    refine ⟨by rw [hkeep, hirq], ha, ?_, ?_, ?_⟩
    · intro p hp hp2
      rw [hd p hp] at hp2
      exact absurd hp2 (by decide)
    · rw [List.count_eq_zero_of_not_mem]
      · omega
      · intro hmem
        have := hno _ hmem
        simp [Action.irqEffect] at this
    · rw [List.count_eq_zero_of_not_mem]
      · omega
      · intro hmem
        have := hno _ hmem
        simp [Action.irqEffect] at this

theorem PalSysSleep_irq_window_max32690 (cfg : Config) (hw : Hw) (s : PalState)
    (hirq : s.irqEnabled = false) :
    (Max32690.PalSysSleep cfg hw s).irqEnabled = false ∧
    irqAfter false (emitted s (Max32690.PalSysSleep cfg hw s)) = false ∧
    (∀ p ∈ irqDuring false (emitted s (Max32690.PalSysSleep cfg hw s)),
      p.2 = true → p.1.isLowPowerEntry = true ∨ p.1 = Action.MXC_SEMA_irq1_set ∨
        p.1 = Action.PalEnterCs) ∧
    (emitted s (Max32690.PalSysSleep cfg hw s)).count Action.PalExitCs ≤ 1 ∧
    (emitted s (Max32690.PalSysSleep cfg hw s)).count Action.PalEnterCs ≤ 1 := by
  by_cases h : Max32690.takesDeepPath cfg hw s
  · rw [PalSysSleep_deep_max32690 cfg hw s h, emitted_append s _ _ rfl]
    have hentry : Max32690.lowPowerEntry cfg = [Action.MXC_LP_EnterSleepMode] ∨
        Max32690.lowPowerEntry cfg = [Action.MXC_LP_EnterStandbyMode] ∨
        Max32690.lowPowerEntry cfg = [Action.MXC_SEMA_irq1_set, Action.MXC_LP_EnterSleepMode] := by
      cases hr : cfg.riscv <;> simp [Max32690.lowPowerEntry, hr]
    obtain ⟨h1, h2, h3, h4⟩ := irqDuring_gate_deep Irq.WUT0_IRQn (Max32690.lowPowerEntry cfg)
      (targetTick cfg hw.cntEntry hw.schUsec (Max32690.wakeupUs cfg hw)) (restoreArg cfg hw)
      (u32 cfg.PAL_MAX_RTC_COUNTER_VAL) hentry
    exact ⟨rfl, h2, h1, h3.le, h4.le⟩
  · obtain ⟨hall, hkeep⟩ := PalSysSleep_not_deep_irq_max32690 cfg hw s h
    have hno := all_noIrqEffect _ hall
    obtain ⟨hd, ha⟩ := irqDuring_of_no_effect _ false hno
    refine ⟨by rw [hkeep, hirq], ha, ?_, ?_, ?_⟩
    · intro p hp hp2
      rw [hd p hp] at hp2
      exact absurd hp2 (by decide)
    · rw [List.count_eq_zero_of_not_mem]
      · omega
      · intro hmem
        have := hno _ hmem
        simp [Action.irqEffect] at this
    · rw [List.count_eq_zero_of_not_mem]
      · omega
      · intro hmem
        have := hno _ hmem
        simp [Action.irqEffect] at this

theorem palSysEnterStandby_assertCount_max32665 (cfg : Config) (hw : Hw) (s : PalState) :
    (Max32665.palSysEnterStandby cfg hw s).palSysAssertCount = s.palSysAssertCount := by
  by_cases h : hw.schUsec < 3000
  · rw [palSysEnterStandby_short_eq_max32665 cfg hw s h]
  · rw [palSysEnterStandby_deep_eq_max32665 cfg hw s (by omega)]

theorem palSysEnterStandby_assertCount_max32690 (cfg : Config) (hw : Hw) (s : PalState) :
    (Max32690.palSysEnterStandby cfg hw s).palSysAssertCount = s.palSysAssertCount := by
  by_cases h : hw.schUsec < 3000
  · rw [palSysEnterStandby_short_eq_max32690 cfg hw s h]
  · rw [palSysEnterStandby_deep_eq_max32690 cfg hw s (by omega)]

theorem PalSysSleep_assertCount_max32665 (cfg : Config) (hw : Hw) (s : PalState) :
    (Max32665.PalSysSleep cfg hw s).palSysAssertCount = s.palSysAssertCount := by
  unfold Max32665.PalSysSleep
  split_ifs <;> simp [emit, palSysEnterStandby_assertCount_max32665]

theorem PalSysSleep_assertCount_max32690 (cfg : Config) (hw : Hw) (s : PalState) :
    (Max32690.PalSysSleep cfg hw s).palSysAssertCount = s.palSysAssertCount := by
  unfold Max32690.PalSysSleep
  split_ifs
  all_goals first
    | (simp [emit, palSysEnterStandby_assertCount_max32690]; done)
    | (dsimp only; split_ifs <;> simp [emit])

theorem PalCall.run_assertCount (call : PalCall) (s s' : PalState)
    (hne : call ≠ PalCall.AssertTrap) (h : call.run s = some s') :
    s'.palSysAssertCount = s.palSysAssertCount := by
  cases call with
  | AssertTrap => exact absurd rfl hne
  | SetTrap enable => simp only [PalCall.run, Option.some.injEq] at h; rw [← h]; rfl
  | GetAssertCount => simp only [PalCall.run, Option.some.injEq] at h; rw [← h]
  | GetStackUsage => simp only [PalCall.run, Option.some.injEq] at h; rw [← h]
  | SetBusy => simp only [PalCall.run, Option.some.injEq] at h; rw [← h]; rfl
  | SetIdle =>
    simp only [PalCall.run, Option.some.injEq] at h
    rw [← h]
    unfold PalSysSetIdle
    dsimp only
    split_ifs <;> simp [PalExitCs, PalEnterCs, emit]
  | IsBusy => simp only [PalCall.run, Option.some.injEq] at h; rw [← h]; rfl
  | Sleep32665 cfg hw =>
    simp only [PalCall.run, Option.some.injEq] at h
    rw [← h, PalSysSleep_assertCount_max32665]
  | Sleep32690 cfg hw =>
    simp only [PalCall.run, Option.some.injEq] at h
    rw [← h, PalSysSleep_assertCount_max32690]

theorem freertos_permit_tickless_fst (th : Tickless.TicklessHw) (p : PalState) :
    (Tickless.freertos_permit_tickless th p).1 =
      if th.trimPending = false ∧ th.uartBusy = false ∧ th.timerBusy = true ∧
          th.consoleUartActive = false then Tickless.MxcError.E_NO_ERROR
      else Tickless.MxcError.E_BUSY := by
  cases h1 : th.trimPending <;> cases h2 : th.uartBusy <;> cases h3 : th.timerBusy <;>
    cases h4 : th.consoleUartActive <;>
    simp [Tickless.freertos_permit_tickless, h1, h2, h3, h4]

theorem freertos_permit_tickless_snd (th : Tickless.TicklessHw) (p : PalState) :
    (Tickless.freertos_permit_tickless th p).2 =
      { p with trace := p.trace ++ permitQueries th } := by
  cases h1 : th.trimPending <;> cases h2 : th.uartBusy <;> cases h3 : th.timerBusy <;>
    cases h4 : th.consoleUartActive <;>
    simp [Tickless.freertos_permit_tickless, permitQueries, gateQueries, h1, h2, h3, h4, emit]

theorem permitQueries_all (th : Tickless.TicklessHw) :
    (permitQueries th).all (fun a => !a.isSleepStep && a.irqEffect.isNone
      && !(a == Action.eTaskConfirmSleepModeStatus)) = true := by
  unfold permitQueries
  split_ifs <;> decide

theorem PalSysSleep_store_of_gates_max32665 (cfg : Config) (hw : Hw) (s : PalState)
    (hdebug : cfg.DEBUG = false) (hbusy : s.palSysBusyCount = 0)
    (htrim : hw.trimPending = false) (huart : hw.uartBusy = false)
    (htimer : hw.timerBusy = true) (hactive : hw.uartActive = false)
    (hstandby : cfg.PAL_SYS_ENABLE_STANDBY ≠ 0) :
    Action.MXC_WUT_Store ∈ emitted s (Max32665.PalSysSleep cfg hw s) := by
  rw [PalSysSleep_standby_eq_max32665 cfg hw s hdebug hbusy htrim huart htimer hactive hstandby]
  obtain ⟨rest, hrest⟩ := palSysEnterStandby_first_max32665 cfg hw
    { s with trace := s.trace ++ gateQueries }
  rw [emitted_append s _ (gateQueries ++ Action.MXC_WUT_Store :: rest)
    (by rw [hrest]; simp)]
  simp

theorem vPortSuppressTicksAndSleep_deny (cfg : Tickless.TicklessConfig)
    (th : Tickless.TicklessHw) (x : Nat) (s : Tickless.TicklessState)
    (hassert : ¬ (cfg.MXC_ASSERT_ENABLE = true ∧
      ¬ cfg.configRTC_TICK_RATE_HZ ≥ cfg.configTICK_RATE_HZ))
    (hdeny : th.abortSleep = true ∨
      (Tickless.freertos_permit_tickless th s.pal).1 ≠ Tickless.MxcError.E_NO_ERROR) :
    Tickless.vPortSuppressTicksAndSleep cfg th x s =
      some (if th.SysTick_VAL < 2 ∨ Tickless.idleTicks cfg x < 150 then
          { s with pal := { s.pal with trace := s.pal.trace ++ [Action.SysTick_VAL_read] } }
        else
          { s with pal := { s.pal with
              irqEnabled := true
              trace := s.pal.trace ++ ([Action.SysTick_VAL_read, Action.cpsid_i,
                Action.eTaskConfirmSleepModeStatus] ++
                (if th.abortSleep then [] else permitQueries th) ++ [Action.cpsie_i]) } }) := by
  unfold Tickless.vPortSuppressTicksAndSleep
  rw [if_neg hassert]
  by_cases h1 : th.SysTick_VAL < 2
  · simp [Tickless.MIN_SYSTICK, h1, emit]
  · by_cases h2 : Tickless.idleTicks cfg x < 150
    · simp [Tickless.MIN_SYSTICK, Tickless.MIN_WUT_TICKS, h1, h2, emit]
    · by_cases h3 : th.abortSleep = true
      · simp [Tickless.MIN_SYSTICK, Tickless.MIN_WUT_TICKS, h1, h2, h3, emit, Tickless.abandon]
      · have hperm : ∀ p, (Tickless.freertos_permit_tickless th p).1 ≠
            Tickless.MxcError.E_NO_ERROR := by
          intro p
          rcases hdeny with h | h
          · exact absurd h h3
          · rw [freertos_permit_tickless_fst] at h ⊢
            exact h
        simp [Tickless.MIN_SYSTICK, Tickless.MIN_WUT_TICKS, h1, h2, h3, emit, Tickless.abandon,
          hperm, freertos_permit_tickless_snd]

theorem permitQueries_mem (th : Tickless.TicklessHw) (a : Action) (h : a ∈ permitQueries th) :
    a.isSleepStep = false ∧ a.irqEffect = none ∧ a ≠ Action.eTaskConfirmSleepModeStatus := by
  have := List.all_eq_true.mp (permitQueries_all th) a h
  simpa [and_assoc] using this

theorem deepBranch_eq (cfg : Tickless.TicklessConfig) (th : Tickless.TicklessHw)
    (idleTicks : Nat) (p : PalState) :
    Tickless.deepBranch cfg th idleTicks p =
      { p with
        MXC_WUT_cmp := u32 (th.wutGetCount +
          min (Tickless.bleSleepTicks cfg th) (Tickless.adjustedIdleTicks cfg idleTicks))
        trace := p.trace ++ Tickless.deepBranchActions
          (u32 (th.wutGetCount +
            min (Tickless.bleSleepTicks cfg th) (Tickless.adjustedIdleTicks cfg idleTicks)))
          (Tickless.restoreArg cfg th) } := by
  unfold Tickless.deepBranch
  dsimp only
  by_cases h : Tickless.bleSleepTicks cfg th < Tickless.adjustedIdleTicks cfg idleTicks
  · have hmin : min (Tickless.bleSleepTicks cfg th) (Tickless.adjustedIdleTicks cfg idleTicks) =
        Tickless.bleSleepTicks cfg th := Nat.min_eq_left h.le
    rw [hmin]
    unfold Tickless.bleSleepTicks Tickless.adjustedIdleTicks at h
    simp [h, writeCmp, emit, Tickless.deepBranchActions, Tickless.bleSleepTicks,
      Tickless.restoreArg]
  · have hmin : min (Tickless.bleSleepTicks cfg th) (Tickless.adjustedIdleTicks cfg idleTicks) =
        Tickless.adjustedIdleTicks cfg idleTicks := Nat.min_eq_right (by omega)
    rw [hmin]
    unfold Tickless.bleSleepTicks Tickless.adjustedIdleTicks at h
    simp [h, writeCmp, emit, Tickless.deepBranchActions, Tickless.adjustedIdleTicks,
      Tickless.restoreArg]

theorem vPortSuppressTicksAndSleep_deep (cfg : Tickless.TicklessConfig)
    (th : Tickless.TicklessHw) (x : Nat) (s : Tickless.TicklessState)
    (hassert : ¬ (cfg.MXC_ASSERT_ENABLE = true ∧
      ¬ cfg.configRTC_TICK_RATE_HZ ≥ cfg.configTICK_RATE_HZ))
    (hsys : 2 ≤ th.SysTick_VAL) (hidle : 150 ≤ Tickless.idleTicks cfg x)
    (habort : th.abortSleep = false) (htrim : th.trimPending = false)
    (huart : th.uartBusy = false) (htimer : th.timerBusy = true)
    (hconsole : th.consoleUartActive = false)
    (hsch : 150000000 / cfg.configRTC_TICK_RATE_HZ ≤ th.schUsec) :
    ∃ s', Tickless.vPortSuppressTicksAndSleep cfg th x s = some s' ∧
      cmpWrites (emitted s.pal s'.pal) =
        [u32 (th.wutGetCount + min (Tickless.bleSleepTicks cfg th)
          (Tickless.adjustedIdleTicks cfg (Tickless.idleTicks cfg x)))] ∧
      s'.pal.MXC_WUT_cmp =
        u32 (th.wutGetCount + min (Tickless.bleSleepTicks cfg th)
          (Tickless.adjustedIdleTicks cfg (Tickless.idleTicks cfg x))) := by
  have h1 : ¬ th.SysTick_VAL < 2 := by omega
  have h2 : ¬ Tickless.idleTicks cfg x < 150 := by omega
  have h3 : ¬ th.schUsec < 150000000 / cfg.configRTC_TICK_RATE_HZ := by omega
  have hperm : ∀ p, (Tickless.freertos_permit_tickless th p).1 =
      Tickless.MxcError.E_NO_ERROR := by
    intro p
    rw [freertos_permit_tickless_fst, if_pos ⟨htrim, huart, htimer, hconsole⟩]
  have hq : permitQueries th = gateQueries := by
    simp [permitQueries, htrim, huart, htimer]
  unfold Tickless.vPortSuppressTicksAndSleep
  rw [if_neg hassert]
  simp only [Tickless.MIN_SYSTICK, Tickless.MIN_WUT_TICKS, h1, h2, h3, habort, hperm,
    if_false, ne_eq, not_true_eq_false, Bool.false_eq_true, Nat.reduceMul,
    freertos_permit_tickless_snd, hq, deepBranch_eq]
  refine ⟨_, rfl, ?_, ?_⟩
  · simp [emitted, emit, cmpWrites, gateQueries, Tickless.deepBranchActions]
  · simp [emit]

theorem idleTicks_le (cfg : Tickless.TicklessConfig) (x : Nat) :
    Tickless.idleTicks cfg x ≤ 5 * cfg.configRTC_TICK_RATE_HZ ∧
    Tickless.idleTicks cfg x ≤ sub32 x 1 * Tickless.WUT_RATIO cfg := by
  unfold Tickless.idleTicks Tickless.MAX_WUT_SNOOZE
  dsimp only
  have hmod : u32 (sub32 x 1 * Tickless.WUT_RATIO cfg) ≤ sub32 x 1 * Tickless.WUT_RATIO cfg :=
    Nat.mod_le _ _
  split_ifs with h
  · exact ⟨le_refl _, by omega⟩
  · exact ⟨by omega, hmod⟩

theorem adjustedIdleTicks_eq (cfg : Tickless.TicklessConfig) (idleTicks : Nat)
    (hrtc : cfg.configRTC_TICK_RATE_HZ ≤ 150000) (hidle : 150 ≤ idleTicks)
    (hidle32 : idleTicks < 2 ^ 32) :
    Tickless.adjustedIdleTicks cfg idleTicks =
      idleTicks - Tickless.WAKEUP_US * cfg.configRTC_TICK_RATE_HZ / 1000000 ∧
    Tickless.WAKEUP_US * cfg.configRTC_TICK_RATE_HZ / 1000000 ≤ idleTicks := by
  have hw : u64 (u64 Tickless.WAKEUP_US * u64 cfg.configRTC_TICK_RATE_HZ) / u64 1000000 =
      Tickless.WAKEUP_US * cfg.configRTC_TICK_RATE_HZ / 1000000 := by
    unfold u64 Tickless.WAKEUP_US
    rw [Nat.mod_eq_of_lt (show 1000 < 2 ^ 64 by norm_num),
      Nat.mod_eq_of_lt (show cfg.configRTC_TICK_RATE_HZ < 2 ^ 64 by omega),
      Nat.mod_eq_of_lt (show 1000 * cfg.configRTC_TICK_RATE_HZ < 2 ^ 64 by omega),
      Nat.mod_eq_of_lt (show 1000000 < 2 ^ 64 by norm_num)]
  have hle : Tickless.WAKEUP_US * cfg.configRTC_TICK_RATE_HZ / 1000000 ≤ 150 := by
    unfold Tickless.WAKEUP_US
    omega
  unfold Tickless.adjustedIdleTicks
  rw [hw]
  generalize Tickless.WAKEUP_US * cfg.configRTC_TICK_RATE_HZ / 1000000 = w at hle ⊢
  unfold sub64 u32 u64
  constructor <;> omega

theorem bleSleepTicks_eq (cfg : Tickless.TicklessConfig) (th : Tickless.TicklessHw)
    (hrtc : cfg.configRTC_TICK_RATE_HZ ≤ 150000) (hlo : 1000 ≤ th.schUsec)
    (hsch32 : th.schUsec < 2 ^ 32) :
    Tickless.bleSleepTicks cfg th =
      (th.schUsec - Tickless.WAKEUP_US) * cfg.configRTC_TICK_RATE_HZ / 1000000 := by
  have hsub : sub32 th.schUsec Tickless.WAKEUP_US = th.schUsec - 1000 := by
    unfold sub32 u32 Tickless.WAKEUP_US
    omega
  have hprod : (th.schUsec - 1000) * cfg.configRTC_TICK_RATE_HZ < 2 ^ 64 := by
    have : (th.schUsec - 1000) * cfg.configRTC_TICK_RATE_HZ < 2 ^ 32 * 2 ^ 32 :=
      Nat.mul_lt_mul'' (by omega) (by omega)
    calc (th.schUsec - 1000) * cfg.configRTC_TICK_RATE_HZ < 2 ^ 32 * 2 ^ 32 := this
      _ = 2 ^ 64 := by norm_num
  have hquot : (th.schUsec - 1000) * cfg.configRTC_TICK_RATE_HZ / 1000000 < 2 ^ 32 := by
    have h1 : (th.schUsec - 1000) * cfg.configRTC_TICK_RATE_HZ / 1000000 ≤
        (th.schUsec - 1000) * 150000 / 1000000 :=
      Nat.div_le_div_right (Nat.mul_le_mul_left _ hrtc)
    omega
  unfold Tickless.bleSleepTicks
  rw [hsub]
  unfold u32 u64 Tickless.WAKEUP_US
  rw [Nat.mod_eq_of_lt (show th.schUsec - 1000 < 2 ^ 64 by omega),
    Nat.mod_eq_of_lt (show cfg.configRTC_TICK_RATE_HZ < 2 ^ 64 by omega),
    Nat.mod_eq_of_lt hprod, Nat.mod_eq_of_lt (show 1000000 < 2 ^ 64 by norm_num),
    Nat.mod_eq_of_lt hquot]

theorem schUsec_ge_wakeup (cfg : Tickless.TicklessConfig) (th : Tickless.TicklessHw)
    (hrtc : cfg.configRTC_TICK_RATE_HZ ≤ 150000)
    (hsch : 150000000 / cfg.configRTC_TICK_RATE_HZ ≤ th.schUsec) (hpos : 0 < cfg.configRTC_TICK_RATE_HZ) :
    1000 ≤ th.schUsec := by
  have h : 1000 ≤ 150000000 / cfg.configRTC_TICK_RATE_HZ := by
    rw [Nat.le_div_iff_mul_le hpos]
    omega
  omega

theorem guarded_fst_ok (ret : Dsa.Ret) (status : Bool) (value : Option Nat) (code : Dsa.Ret)
    (hcode : code ≠ Dsa.Ret.ok) (h : (Dsa.guarded ret status value code).1 = Dsa.Ret.ok) :
    ret = Dsa.Ret.ok ∧ status = true ∧ value = some (Dsa.guarded ret status value code).2 := by
  unfold Dsa.guarded at h ⊢
  by_cases hr : ret = Dsa.Ret.ok
  · cases status <;> cases value <;> simp_all
  · simp_all

theorem guarded_of_ne (ret : Dsa.Ret) (status : Bool) (value : Option Nat) (code : Dsa.Ret)
    (h : ret ≠ Dsa.Ret.ok) : Dsa.guarded ret status value code = (ret, 0) := by
  simp [Dsa.guarded, h]

theorem mp_invmod_spec (a b c : Nat) (h : Dsa.mp_invmod a b = some c) :
    c < b ∧ a * c % b = 1 := by
  unfold Dsa.mp_invmod at h
  have h1 := List.mem_of_find?_eq_some h
  have h2 := List.find?_some h
  exact ⟨List.mem_range.mp h1, by simpa using h2⟩

theorem wc_DsaVerify_zero (env : Dsa.VerifyEnv) (digest sig : List Nat) (key : Dsa.DsaKey)
    (answer : Int) (hinit : env.init_ok = true) (hr : env.read_r_ok = true)
    (hs : env.read_s_ok = true)
    (hbad : Dsa.mp_read_unsigned_bin (sig.take 20) = 0 ∨
      Dsa.mp_read_unsigned_bin ((sig.drop 20).take 20) = 0 ∨
      ¬ Dsa.mp_read_unsigned_bin (sig.take 20) < key.q ∨
      ¬ Dsa.mp_read_unsigned_bin ((sig.drop 20).take 20) < key.q) :
    Dsa.wc_DsaVerify env digest sig key answer = (Dsa.Ret.MP_ZERO_E, 0) := by
  unfold Dsa.wc_DsaVerify
  simp only [hinit, hr, hs, Dsa.DSA_HALF_SIZE, not_true_eq_false, or_self, if_false,
    true_and, hbad, if_true]
  simp [guarded_of_ne]

theorem mp_mod_some (a b c : Nat) (h : Dsa.mp_mod a b = some c) : c = a % b := by
  unfold Dsa.mp_mod at h
  split_ifs at h
  exact (Option.some.inj h).symm

theorem mp_mulmod_some (a b c d : Nat) (h : Dsa.mp_mulmod a b c = some d) : d = a * b % c := by
  unfold Dsa.mp_mulmod at h
  split_ifs at h
  exact (Option.some.inj h).symm

theorem mp_exptmod_some (g k p c : Nat) (h : Dsa.mp_exptmod g k p = some c) :
    c = g ^ k % p := by
  unfold Dsa.mp_exptmod at h
  split_ifs at h
  exact (Option.some.inj h).symm

theorem wc_DsaVerify_answer_one (env : Dsa.VerifyEnv) (digest sig : List Nat)
    (key : Dsa.DsaKey) (answer : Int) (hinit : env.init_ok = true)
    (h : (Dsa.wc_DsaVerify env digest sig key answer).2 = 1) :
    (Dsa.wc_DsaVerify env digest sig key answer).1 = Dsa.Ret.ok ∧
    0 < Dsa.mp_read_unsigned_bin (sig.take 20) ∧
    Dsa.mp_read_unsigned_bin (sig.take 20) < key.q ∧
    0 < Dsa.mp_read_unsigned_bin ((sig.drop 20).take 20) ∧
    Dsa.mp_read_unsigned_bin ((sig.drop 20).take 20) < key.q ∧
    ∃ w, w < key.q ∧ Dsa.mp_read_unsigned_bin ((sig.drop 20).take 20) * w % key.q = 1 ∧
      Dsa.mp_read_unsigned_bin (sig.take 20) =
        (key.g ^ (Dsa.mp_read_unsigned_bin (digest.take 20) * w % key.q) *
          key.y ^ (Dsa.mp_read_unsigned_bin (sig.take 20) * w % key.q)) % key.p % key.q := by
  by_cases hread : env.read_r_ok = true ∧ env.read_s_ok = true
  swap
  · exfalso
    have hne : (if ¬ env.read_r_ok = true ∨ ¬ env.read_s_ok = true then Dsa.Ret.MP_READ_E
        else Dsa.Ret.ok) = Dsa.Ret.MP_READ_E := by
      rw [if_pos]
      by_contra hc
      exact hread ⟨by_contra fun h1 => hc (Or.inl h1), by_contra fun h2 => hc (Or.inr h2)⟩
    unfold Dsa.wc_DsaVerify at h
    simp only [hinit, not_true_eq_false, if_false, hne] at h
    simp [guarded_of_ne] at h
  obtain ⟨hr, hs⟩ := hread
  by_cases hbad : Dsa.mp_read_unsigned_bin (sig.take 20) = 0 ∨
      Dsa.mp_read_unsigned_bin ((sig.drop 20).take 20) = 0 ∨
      ¬ Dsa.mp_read_unsigned_bin (sig.take 20) < key.q ∨
      ¬ Dsa.mp_read_unsigned_bin ((sig.drop 20).take 20) < key.q
  · exfalso
    rw [wc_DsaVerify_zero env digest sig key answer hinit hr hs hbad] at h
    exact absurd h (by decide)
  have hrange : 0 < Dsa.mp_read_unsigned_bin (sig.take 20) ∧
      Dsa.mp_read_unsigned_bin (sig.take 20) < key.q ∧
      0 < Dsa.mp_read_unsigned_bin ((sig.drop 20).take 20) ∧
      Dsa.mp_read_unsigned_bin ((sig.drop 20).take 20) < key.q := by
    refine ⟨?_, ?_, ?_, ?_⟩
    · exact Nat.pos_of_ne_zero fun h0 => hbad (Or.inl h0)
    · by_contra hc; exact hbad (Or.inr (Or.inr (Or.inl hc)))
    · exact Nat.pos_of_ne_zero fun h0 => hbad (Or.inr (Or.inl h0))
    · by_contra hc; exact hbad (Or.inr (Or.inr (Or.inr hc)))
  unfold Dsa.wc_DsaVerify at h ⊢
  simp only [hinit, hr, hs, not_true_eq_false, or_self, if_false, Dsa.DSA_HALF_SIZE,
    Dsa.SHA_DIGEST_SIZE, true_and, hbad] at h ⊢
  generalize hH : Dsa.guarded Dsa.Ret.ok env.read_H_ok
    (some (Dsa.mp_read_unsigned_bin (List.take 20 digest))) Dsa.Ret.MP_READ_E = H at h ⊢
  generalize hw : Dsa.guarded H.1 env.invmod_ok
    (Dsa.mp_invmod (Dsa.mp_read_unsigned_bin (List.take 20 (List.drop 20 sig))) key.q)
    Dsa.Ret.MP_INVMOD_E = w at h ⊢
  generalize hu1 : Dsa.guarded w.1 env.mulmod_u1_ok (Dsa.mp_mulmod H.2 w.2 key.q)
    Dsa.Ret.MP_MULMOD_E = u1 at h ⊢
  generalize hu2 : Dsa.guarded u1.1 env.mulmod_u2_ok
    (Dsa.mp_mulmod (Dsa.mp_read_unsigned_bin (List.take 20 sig)) w.2 key.q)
    Dsa.Ret.MP_MULMOD_E = u2 at h ⊢
  generalize hg : Dsa.guarded u2.1 env.exptmod_g_ok (Dsa.mp_exptmod key.g u1.2 key.p)
    Dsa.Ret.MP_EXPTMOD_E = gu1 at h ⊢
  generalize hy : Dsa.guarded gu1.1 env.exptmod_y_ok (Dsa.mp_exptmod key.y u2.2 key.p)
    Dsa.Ret.MP_EXPTMOD_E = yu2 at h ⊢
  generalize hv7 : Dsa.guarded yu2.1 env.mulmod_v_ok (Dsa.mp_mulmod gu1.2 yu2.2 key.p)
    Dsa.Ret.MP_MULMOD_E = v7 at h ⊢
  generalize hv8 : Dsa.guarded v7.1 env.mod_v_ok (Dsa.mp_mod v7.2 key.q)
    Dsa.Ret.MP_MULMOD_E = v8 at h ⊢
  split_ifs at h ⊢ with hfin
  · obtain ⟨hv, hrv⟩ := hfin
    obtain ⟨h8, -, e8⟩ := guarded_fst_ok _ _ _ Dsa.Ret.MP_MULMOD_E (by decide) (hv8 ▸ hv)
    obtain ⟨h7, -, e7⟩ := guarded_fst_ok _ _ _ Dsa.Ret.MP_MULMOD_E (by decide) (hv7 ▸ h8)
    obtain ⟨h6, -, e6⟩ := guarded_fst_ok _ _ _ Dsa.Ret.MP_EXPTMOD_E (by decide) (hy ▸ h7)
    obtain ⟨h5, -, e5⟩ := guarded_fst_ok _ _ _ Dsa.Ret.MP_EXPTMOD_E (by decide) (hg ▸ h6)
    obtain ⟨h4, -, e4⟩ := guarded_fst_ok _ _ _ Dsa.Ret.MP_MULMOD_E (by decide) (hu2 ▸ h5)
    obtain ⟨h3, -, e3⟩ := guarded_fst_ok _ _ _ Dsa.Ret.MP_MULMOD_E (by decide) (hu1 ▸ h4)
    obtain ⟨h2, -, e2⟩ := guarded_fst_ok _ _ _ Dsa.Ret.MP_INVMOD_E (by decide) (hw ▸ h3)
    obtain ⟨-, -, e1⟩ := guarded_fst_ok _ _ _ Dsa.Ret.MP_READ_E (by decide) (hH ▸ h2)
    rw [hH] at e1
    rw [hw] at e2
    rw [hu1] at e3
    rw [hu2] at e4
    rw [hg] at e5
    rw [hy] at e6
    rw [hv7] at e7
    rw [hv8] at e8
    have e1' := Option.some.inj e1
    have e2' := mp_invmod_spec _ _ _ e2
    have e3' := mp_mulmod_some _ _ _ _ e3
    have e4' := mp_mulmod_some _ _ _ _ e4
    have e5' := mp_exptmod_some _ _ _ _ e5
    have e6' := mp_exptmod_some _ _ _ _ e6
    have e7' := mp_mulmod_some _ _ _ _ e7
    have e8' := mp_mod_some _ _ _ e8
    refine ⟨hv, hrange.1, hrange.2.1, hrange.2.2.1, hrange.2.2.2, w.2, e2'.1, e2'.2, ?_⟩
    refine hrv.trans ?_
    rw [e8', e7', e5', e6', e3', e4', ← e1', ← Nat.mul_mod]
  · simp at h

theorem answer_zero_or_one (c : Prop) [Decidable c] (a : Dsa.Ret) :
    (if c then (a, (1 : Int)) else (a, 0)).2 = 0 ∨
      (if c then (a, (1 : Int)) else (a, 0)).2 = 1 := by
  by_cases h : c <;> simp [h]

theorem wc_DsaVerify_answer_range (env : Dsa.VerifyEnv) (digest sig : List Nat)
    (key : Dsa.DsaKey) (answer : Int) (hinit : env.init_ok = true) :
    (Dsa.wc_DsaVerify env digest sig key answer).2 = 0 ∨
      (Dsa.wc_DsaVerify env digest sig key answer).2 = 1 := by
  unfold Dsa.wc_DsaVerify
  simp only [hinit, not_true_eq_false, if_false]
  exact answer_zero_or_one _ _

theorem irqDuring_gate_deep_eq (irq : Irq) (entry : List Action)
    (target restoreArg sentinel : Nat)
    (hentry : entry = [Action.MXC_LP_EnterSleepMode] ∨
      entry = [Action.MXC_LP_EnterStandbyMode] ∨
      entry = [Action.MXC_SEMA_irq1_set, Action.MXC_LP_EnterSleepMode]) :
    irqDuring false (gateQueries ++ deepActions irq entry target restoreArg sentinel) =
      ([Action.MXC_WUT_TrimPending, Action.PalUartGetState, Action.PalTimerGetState,
        Action.MXC_UART_GetActive,
        Action.MXC_WUT_Store, Action.MXC_WUT_cnt_read, Action.PalTimerGetExpTime,
        Action.MXC_WUT_cmp_write target, Action.NVIC_EnableIRQ irq,
        Action.MXC_LP_EnableWUTAlarmWakeup, Action.PalTimerStop, Action.PalBbDisable,
        Action.PalExitCs].map (fun a => (a, false)) ++
      (entry ++ [Action.PalEnterCs]).map (fun a => (a, true)) ++
      [Action.PalBbEnable, Action.PalBbRestore, Action.MXC_WUT_RestoreBBClock,
        Action.MXC_WUT_cnt_read, Action.PalTimerRestore restoreArg,
        Action.MXC_WUT_cmp_write sentinel].map (fun a => (a, false))) := by
  rcases hentry with rfl | rfl | rfl <;> rfl

theorem not_mem_of_no_irqEffect (tr : List Action) (h : ∀ a ∈ tr, a.irqEffect = none) :
    Action.PalExitCs ∉ tr ∧ Action.PalEnterCs ∉ tr := by
  constructor <;>
  · intro hmem
    have := h _ hmem
    simp [Action.irqEffect] at this

/-! ## Claims -/

/-- C1: in both PAL variants, whatever the driver state and the build
configuration, a call of `PalSysSleep` with a non-zero busy count returns at
once: the state is unchanged and no action is recorded, so there is no
low-power entry, no `PalTimerSleep`, no store to the compare register, no
`PalTimerStop` and no `PalBbDisable`. -/
theorem PalSysSleep_busy_returns (cfg : Config) (hw : Hw) (s : PalState)
    (hbusy : s.palSysBusyCount ≠ 0) :
    (Max32665.PalSysSleep cfg hw s = s ∧
      emitted s (Max32665.PalSysSleep cfg hw s) = []) ∧
    (Max32690.PalSysSleep cfg hw s = s ∧
      emitted s (Max32690.PalSysSleep cfg hw s) = []) := by
  have h5 : Max32665.PalSysSleep cfg hw s = s := by
    simp [Max32665.PalSysSleep, hbusy]
  have h9 : Max32690.PalSysSleep cfg hw s = s := by
    simp [Max32690.PalSysSleep, hbusy]
  rw [h5, h9]
  exact ⟨⟨rfl, emitted_self s⟩, ⟨rfl, emitted_self s⟩⟩

theorem PalSysSleep_busy_returns_witness :
    sBusy.palSysBusyCount ≠ 0 ∧
    Max32665.PalSysSleep cfgStandby hwDeep sBusy = sBusy ∧
    Max32690.PalSysSleep cfgStandby hwDeep sBusy = sBusy :=
  ⟨by decide,
    (PalSysSleep_busy_returns cfgStandby hwDeep sBusy (by decide)).1.1,
    (PalSysSleep_busy_returns cfgStandby hwDeep sBusy (by decide)).2.1⟩

/-- C3: in `palSysEnterStandby` of both PAL variants, for every clock
frequency and counter value, when the scheduler timer expires in less than
3000 microseconds the routine records the snapshot, the counter read, the
query of the expiry time and exactly one `MXC_LP_EnterSleepMode`, and nothing
else: the compare register, the interrupt-enable state and the statics are as
before, and there is no wake-interrupt enable, `PalTimerStop`, `PalBbDisable`
or `PalTimerRestore`. -/
theorem palSysEnterStandby_short_request (cfg : Config) (hw : Hw) (s : PalState)
    (hshort : hw.schUsec < 3000) :
    (Max32665.palSysEnterStandby cfg hw s =
      { s with trace := s.trace ++ [Action.MXC_WUT_Store, Action.MXC_WUT_cnt_read,
          Action.PalTimerGetExpTime, Action.MXC_LP_EnterSleepMode] }) ∧
    (Max32690.palSysEnterStandby cfg hw s =
      { s with trace := s.trace ++ [Action.MXC_WUT_Store, Action.MXC_WUT_cnt_read,
          Action.PalTimerGetExpTime, Action.MXC_LP_EnterSleepMode] }) ∧
    (Max32665.palSysEnterStandby cfg hw s).irqEnabled = s.irqEnabled ∧
    (Max32690.palSysEnterStandby cfg hw s).irqEnabled = s.irqEnabled ∧
    (Max32665.palSysEnterStandby cfg hw s).MXC_WUT_cmp = s.MXC_WUT_cmp ∧
    (Max32690.palSysEnterStandby cfg hw s).MXC_WUT_cmp = s.MXC_WUT_cmp ∧
    cmpWrites (emitted s (Max32665.palSysEnterStandby cfg hw s)) = [] ∧
    cmpWrites (emitted s (Max32690.palSysEnterStandby cfg hw s)) = [] := by
  rw [palSysEnterStandby_short_eq_max32665 cfg hw s hshort,
    palSysEnterStandby_short_eq_max32690 cfg hw s hshort]
  refine ⟨rfl, rfl, rfl, rfl, rfl, rfl, ?_, ?_⟩ <;>
  · rw [emitted_append s _ _ rfl]
    rfl

theorem palSysEnterStandby_short_request_witness :
    hwShort.schUsec < 3000 ∧
    (Max32665.palSysEnterStandby cfgStandby hwShort sIdle).trace =
      [Action.MXC_WUT_Store, Action.MXC_WUT_cnt_read, Action.PalTimerGetExpTime,
        Action.MXC_LP_EnterSleepMode] ∧
    (Max32690.palSysEnterStandby cfgStandby hwShort sIdle).trace =
      [Action.MXC_WUT_Store, Action.MXC_WUT_cnt_read, Action.PalTimerGetExpTime,
        Action.MXC_LP_EnterSleepMode] :=
  ⟨by decide,
    congrArg PalState.trace
      (palSysEnterStandby_short_request cfgStandby hwShort sIdle (by decide)).1,
    congrArg PalState.trace
      (palSysEnterStandby_short_request cfgStandby hwShort sIdle (by decide)).2.1⟩

/-- C4: in `palSysEnterStandby`, for every snapshot count, every expiry time
`schUsec` of at least 3000 microseconds (a `uint32_t`) that is at least the
selected wake-up overhead, and every tick rate below `2^32`, the value stored
to the compare register before the low-power entry is
`(rtcCount + (schUsec - overhead) * PAL_RTC_TICKS_PER_SEC / 1000000) mod 2^32`,
and the product is below `2^64`.  For `schUsec = 10000` at the fastest clock
the overhead is 2950 on max32665 and 950 on the ARM build of max32690. -/
theorem palSysEnterStandby_compare_target (cfg : Config) (hw : Hw) (s : PalState)
    (hsch : hw.schUsec < 2 ^ 32) (hmin : 3000 ≤ hw.schUsec)
    (hT : cfg.PAL_RTC_TICKS_PER_SEC < 2 ^ 32) :
    (Max32665.wakeupUs hw ≤ hw.schUsec →
      armedTarget (emitted s (Max32665.palSysEnterStandby cfg hw s)) =
        some ((hw.cntEntry + (hw.schUsec - Max32665.wakeupUs hw) *
          cfg.PAL_RTC_TICKS_PER_SEC / 1000000) % 2 ^ 32)) ∧
    (Max32690.wakeupUs cfg hw ≤ hw.schUsec →
      armedTarget (emitted s (Max32690.palSysEnterStandby cfg hw s)) =
        some ((hw.cntEntry + (hw.schUsec - Max32690.wakeupUs cfg hw) *
          cfg.PAL_RTC_TICKS_PER_SEC / 1000000) % 2 ^ 32)) ∧
    (∀ overhead, overhead ≤ hw.schUsec →
      (hw.schUsec - overhead) * cfg.PAL_RTC_TICKS_PER_SEC < 2 ^ 64) ∧
    (hw.schUsec = 10000 → hw.SystemCoreClock = 96000000 →
      armedTarget (emitted s (Max32665.palSysEnterStandby cfg hw s)) =
        some ((hw.cntEntry + (10000 - 2950) * cfg.PAL_RTC_TICKS_PER_SEC / 1000000) % 2 ^ 32)) ∧
    (hw.schUsec = 10000 → hw.SystemCoreClock = 120000000 → cfg.riscv = false →
      armedTarget (emitted s (Max32690.palSysEnterStandby cfg hw s)) =
        some ((hw.cntEntry + (10000 - 950) * cfg.PAL_RTC_TICKS_PER_SEC / 1000000) % 2 ^ 32)) := by
  refine ⟨?_, ?_, ?_, ?_, ?_⟩
  · intro hover
    rw [armedTarget_deep_max32665 cfg hw s hmin, targetTick_eq cfg _ _ _ hsch hover hT]
  · intro hover
    rw [armedTarget_deep_max32690 cfg hw s hmin, targetTick_eq cfg _ _ _ hsch hover hT]
  · intro overhead _
    have : (hw.schUsec - overhead) * cfg.PAL_RTC_TICKS_PER_SEC < 2 ^ 32 * 2 ^ 32 :=
      Nat.mul_lt_mul'' (by omega) hT
    calc (hw.schUsec - overhead) * cfg.PAL_RTC_TICKS_PER_SEC < 2 ^ 32 * 2 ^ 32 := this
      _ = 2 ^ 64 := by norm_num
  · intro h10 hclk
    have hw5 : Max32665.wakeupUs hw = 2950 := by
      simp [Max32665.wakeupUs, hclk, Max32665.PAL_SYS_STANDBY_WAKEUP_USEC_96]
    rw [armedTarget_deep_max32665 cfg hw s hmin,
      targetTick_eq cfg _ _ _ hsch (by rw [hw5, h10]; norm_num) hT, hw5, h10]
  · intro h10 hclk hrv
    have hw9 : Max32690.wakeupUs cfg hw = 950 := by
      simp [Max32690.wakeupUs, hclk, Max32690.PAL_SYS_STANDBY_WAKEUP_USEC_120, hrv]
    rw [armedTarget_deep_max32690 cfg hw s hmin,
      targetTick_eq cfg _ _ _ hsch (by rw [hw9, h10]; norm_num) hT, hw9, h10]

theorem palSysEnterStandby_compare_target_witness :
    hwDeep.schUsec < 2 ^ 32 ∧ 3000 ≤ hwDeep.schUsec ∧
    cfgStandby.PAL_RTC_TICKS_PER_SEC < 2 ^ 32 ∧
    Max32665.wakeupUs hwDeep ≤ hwDeep.schUsec ∧
    armedTarget (emitted sIdle (Max32665.palSysEnterStandby cfgStandby hwDeep sIdle)) =
      some 1231 :=
  ⟨by decide, by decide, by decide, by decide,
    ((palSysEnterStandby_compare_target cfgStandby hwDeep sIdle
      (by decide) (by decide) (by decide)).1 (by decide)).trans (by decide)⟩

/-- C2 (as stated, refuted): after `PalSysInit`, `2^32` calls of
`PalSysSetBusy` leave `2^32` marks outstanding, yet the 32-bit busy count has
wrapped to zero and `PalSysIsBusy` returns `FALSE`. -/
theorem busyCount_wraps_at_two_pow_32 :
    0 < outstandingMarks (List.replicate (2 ^ 32) BusyCall.SetBusy) ∧
    (runBusyCalls (List.replicate (2 ^ 32) BusyCall.SetBusy)
      (Max32665.PalSysInit cfgStandby sIdle)).palSysBusyCount = 0 ∧
    (PalSysIsBusy (runBusyCalls (List.replicate (2 ^ 32) BusyCall.SetBusy)
      (Max32665.PalSysInit cfgStandby sIdle))).1 = false := by
  have hm : outstandingMarks (List.replicate (2 ^ 32) BusyCall.SetBusy) = 0 + 2 ^ 32 :=
    marksFrom_replicate_SetBusy (2 ^ 32) 0
  have hi := PalSysInit_busyCount_max32665 cfgStandby sIdle
  have hc := runBusyCalls_replicate_SetBusy (2 ^ 32) (Max32665.PalSysInit cfgStandby sIdle)
    (by rw [hi]; norm_num)
  rw [hi, Nat.zero_add, Nat.mod_self] at hc
  refine ⟨by rw [hm]; norm_num, hc, ?_⟩
  rw [PalSysIsBusy_fst, hc]
  rfl

/-- C2 (amended): starting from the state left by `PalSysInit` of either
variant, for every finite sequence of `PalSysSetBusy` / `PalSysSetIdle` calls
during which fewer than `2^32` marks are outstanding at every point, the busy
count equals the number of outstanding marks (plus one per `SetBusy`, minus
one per `SetIdle`, floored at zero) and `PalSysIsBusy` returns `TRUE` exactly
when that number is positive; a `PalSysSetIdle` at count zero leaves the
count at zero. -/
theorem busyCount_tracks_outstanding_marks (cfg : Config) (s0 : PalState)
    (calls : List BusyCall) (hbound : ∀ k, outstandingMarks (calls.take k) < 2 ^ 32) :
    ((runBusyCalls calls (Max32665.PalSysInit cfg s0)).palSysBusyCount =
        outstandingMarks calls ∧
      (PalSysIsBusy (runBusyCalls calls (Max32665.PalSysInit cfg s0))).1 =
        decide (0 < outstandingMarks calls)) ∧
    ((runBusyCalls calls (Max32690.PalSysInit cfg s0)).palSysBusyCount =
        outstandingMarks calls ∧
      (PalSysIsBusy (runBusyCalls calls (Max32690.PalSysInit cfg s0))).1 =
        decide (0 < outstandingMarks calls)) ∧
    (∀ s : PalState, s.palSysBusyCount = 0 → (PalSysSetIdle s).palSysBusyCount = 0) :=
  ⟨runBusyCalls_from_zero calls _ (PalSysInit_busyCount_max32665 cfg s0) hbound,
    runBusyCalls_from_zero calls _ (PalSysInit_busyCount_max32690 cfg s0) hbound,
    PalSysSetIdle_busyCount_zero⟩

theorem busyCount_tracks_outstanding_marks_witness :
    (∀ k, outstandingMarks (callsMoreIdle.take k) < 2 ^ 32) ∧
    (runBusyCalls callsMoreIdle (Max32665.PalSysInit cfgStandby sBusy)).palSysBusyCount = 1 ∧
    (PalSysIsBusy (runBusyCalls callsMoreIdle (Max32690.PalSysInit cfgStandby sBusy))).1 =
      true :=
  ⟨outstandingMarks_take_lt callsMoreIdle (by decide),
    (busyCount_tracks_outstanding_marks cfgStandby sBusy callsMoreIdle
      (outstandingMarks_take_lt callsMoreIdle (by decide))).1.1.trans (by decide),
    (busyCount_tracks_outstanding_marks cfgStandby sBusy callsMoreIdle
      (outstandingMarks_take_lt callsMoreIdle (by decide))).2.1.2.trans (by decide)⟩

/-- C5 (as stated, refuted): with a 32768 Hz wake clock, an expiry time of
3000 microseconds and 100 ticks elapsed (3051 microseconds), the difference is
negative, yet `PalTimerRestore` receives 4294967245 and not zero, in both
variants. -/
theorem palSysEnterStandby_restore_not_clamped :
    3000 ≤ hwOverslept.schUsec ∧
    sub32 hwOverslept.cntWake hwOverslept.cntEntry = 100 ∧
    100 * 1000000 / cfgStandby.PAL_RTC_TICKS_PER_SEC = 3051 ∧
    timerRestoreArgs (emitted sIdle (Max32665.palSysEnterStandby cfgStandby hwOverslept sIdle))
      = [4294967245] ∧
    timerRestoreArgs (emitted sIdle (Max32690.palSysEnterStandby cfgStandby hwOverslept sIdle))
      = [4294967245] := by
  decide

/-- C5 (amended): after a deep-sleep cycle of `palSysEnterStandby` (expiry
time `schUsec` of at least 3000 microseconds, a `uint32_t`; tick rate positive
and below `2^32`) in which the counter read on wake differs from the snapshot
by `E = (cntWake - cntEntry) mod 2^32` ticks, `PalTimerRestore` is called once,
with `schUsec - floor(E * 1000000 / PAL_RTC_TICKS_PER_SEC)` computed in
unsigned 32-bit arithmetic.  That is the exact difference whenever the
difference is not negative; when it is negative the value is not clamped: it
wraps to `2^32 - (elapsed - schUsec)` for an elapsed time below `2^32`. -/
theorem palSysEnterStandby_restore_arg (cfg : Config) (hw : Hw) (s : PalState)
    (hsch : hw.schUsec < 2 ^ 32) (hmin : 3000 ≤ hw.schUsec)
    (hT0 : 0 < cfg.PAL_RTC_TICKS_PER_SEC) (hT : cfg.PAL_RTC_TICKS_PER_SEC < 2 ^ 32) :
    timerRestoreArgs (emitted s (Max32665.palSysEnterStandby cfg hw s)) =
      [sub32 hw.schUsec
        (u32 (sub32 hw.cntWake hw.cntEntry * 1000000 / cfg.PAL_RTC_TICKS_PER_SEC))] ∧
    timerRestoreArgs (emitted s (Max32690.palSysEnterStandby cfg hw s)) =
      [sub32 hw.schUsec
        (u32 (sub32 hw.cntWake hw.cntEntry * 1000000 / cfg.PAL_RTC_TICKS_PER_SEC))] ∧
    (sub32 hw.cntWake hw.cntEntry * 1000000 / cfg.PAL_RTC_TICKS_PER_SEC ≤ hw.schUsec →
      sub32 hw.schUsec
          (u32 (sub32 hw.cntWake hw.cntEntry * 1000000 / cfg.PAL_RTC_TICKS_PER_SEC)) =
        hw.schUsec - sub32 hw.cntWake hw.cntEntry * 1000000 / cfg.PAL_RTC_TICKS_PER_SEC) ∧
    (hw.schUsec < sub32 hw.cntWake hw.cntEntry * 1000000 / cfg.PAL_RTC_TICKS_PER_SEC →
      sub32 hw.cntWake hw.cntEntry * 1000000 / cfg.PAL_RTC_TICKS_PER_SEC < 2 ^ 32 →
      sub32 hw.schUsec
          (u32 (sub32 hw.cntWake hw.cntEntry * 1000000 / cfg.PAL_RTC_TICKS_PER_SEC)) =
        2 ^ 32 - (sub32 hw.cntWake hw.cntEntry * 1000000 / cfg.PAL_RTC_TICKS_PER_SEC -
          hw.schUsec)) := by
  have _ := hT0
  refine ⟨?_, ?_, ?_, ?_⟩
  · rw [timerRestoreArgs_deep_max32665 cfg hw s hmin, restoreArg_eq cfg hw hT]
  · rw [timerRestoreArgs_deep_max32690 cfg hw s hmin, restoreArg_eq cfg hw hT]
  · intro hle
    exact sub32_of_le _ _ hsch hle
  · intro hgt hlt
    exact sub32_of_gt _ _ hgt hlt

theorem palSysEnterStandby_restore_arg_witness :
    hwDeep.schUsec < 2 ^ 32 ∧ 3000 ≤ hwDeep.schUsec ∧
    0 < cfgStandby.PAL_RTC_TICKS_PER_SEC ∧ cfgStandby.PAL_RTC_TICKS_PER_SEC < 2 ^ 32 ∧
    timerRestoreArgs (emitted sIdle (Max32665.palSysEnterStandby cfgStandby hwDeep sIdle)) =
      [3897] :=
  ⟨by decide, by decide, by decide, by decide,
    (palSysEnterStandby_restore_arg cfgStandby hwDeep sIdle
      (by decide) (by decide) (by decide) (by decide)).1.trans (by decide)⟩

/-- C6: for `PalSysSleep` of either PAL variant and a sentinel
`PAL_MAX_RTC_COUNTER_VAL` that fits the 32-bit register: a call that reaches
the deep path of `palSysEnterStandby` stores exactly two values to the compare
register, the wake target and then the sentinel, and the register holds the
sentinel on return, whatever the counter values and the clock frequency; every
other call (busy, debug stay-active, shallow sleep, retry, short request)
stores nothing to the compare register and leaves it unchanged. -/
theorem PalSysSleep_compare_sentinel (cfg : Config) (hw : Hw) (s : PalState)
    (hmax : cfg.PAL_MAX_RTC_COUNTER_VAL < 2 ^ 32) :
    (Max32665.takesDeepPath cfg hw s →
      cmpWrites (emitted s (Max32665.PalSysSleep cfg hw s)) =
        [targetTick cfg hw.cntEntry hw.schUsec (Max32665.wakeupUs hw),
          cfg.PAL_MAX_RTC_COUNTER_VAL] ∧
      (Max32665.PalSysSleep cfg hw s).MXC_WUT_cmp = cfg.PAL_MAX_RTC_COUNTER_VAL) ∧
    (¬ Max32665.takesDeepPath cfg hw s →
      cmpWrites (emitted s (Max32665.PalSysSleep cfg hw s)) = [] ∧
      (Max32665.PalSysSleep cfg hw s).MXC_WUT_cmp = s.MXC_WUT_cmp) ∧
    (Max32690.takesDeepPath cfg hw s →
      cmpWrites (emitted s (Max32690.PalSysSleep cfg hw s)) =
        [targetTick cfg hw.cntEntry hw.schUsec (Max32690.wakeupUs cfg hw),
          cfg.PAL_MAX_RTC_COUNTER_VAL] ∧
      (Max32690.PalSysSleep cfg hw s).MXC_WUT_cmp = cfg.PAL_MAX_RTC_COUNTER_VAL) ∧
    (¬ Max32690.takesDeepPath cfg hw s →
      cmpWrites (emitted s (Max32690.PalSysSleep cfg hw s)) = [] ∧
      (Max32690.PalSysSleep cfg hw s).MXC_WUT_cmp = s.MXC_WUT_cmp) := by
  have hu : u32 cfg.PAL_MAX_RTC_COUNTER_VAL = cfg.PAL_MAX_RTC_COUNTER_VAL :=
    Nat.mod_eq_of_lt hmax
  refine ⟨?_, PalSysSleep_not_deep_max32665 cfg hw s, ?_, PalSysSleep_not_deep_max32690 cfg hw s⟩
  · intro h
    rw [PalSysSleep_deep_max32665 cfg hw s h, emitted_append s _ _ rfl,
      cmpWrites_gate_deep _ [Action.MXC_LP_EnterSleepMode] _ _ _ rfl, hu]
    exact ⟨rfl, rfl⟩
  · intro h
    rw [PalSysSleep_deep_max32690 cfg hw s h, emitted_append s _ _ rfl,
      cmpWrites_gate_deep _ _ _ _ _ (Max32690.cmpWrites_lowPowerEntry cfg), hu]
    exact ⟨rfl, rfl⟩

theorem PalSysSleep_compare_sentinel_witness :
    cfgStandby.PAL_MAX_RTC_COUNTER_VAL < 2 ^ 32 ∧
    Max32665.takesDeepPath cfgStandby hwDeep sIdle ∧
    cmpWrites (emitted sIdle (Max32665.PalSysSleep cfgStandby hwDeep sIdle)) =
      [1231, 4294967295] ∧
    (Max32665.PalSysSleep cfgStandby hwDeep sIdle).MXC_WUT_cmp = 4294967295 :=
  ⟨by decide, by unfold Max32665.takesDeepPath; decide,
    ((PalSysSleep_compare_sentinel cfgStandby hwDeep sIdle (by decide)).1
      (by unfold Max32665.takesDeepPath; decide)).1.trans (by decide),
    ((PalSysSleep_compare_sentinel cfgStandby hwDeep sIdle (by decide)).1
      (by unfold Max32665.takesDeepPath; decide)).2⟩

/-- C7 (as stated, refuted): with the trap disabled and the 32-bit assert
counter at 4294967295, `PalSysAssertTrap` returns and `PalSysGetAssertCount`
is then 0, not one more than before. -/
theorem PalSysAssertTrap_count_wraps :
    sNoTrapMax.PalSysAssertTrapEnable = false ∧
    PalSysGetAssertCount sNoTrapMax = 4294967295 ∧
    (PalSysAssertTrap 1 sNoTrapMax).map PalSysGetAssertCount = some 0 := by
  decide

/-- C7 (amended): for every state in which the trap-enable flag is `FALSE`,
`PalSysAssertTrap` (the same text in both variants) returns after one
evaluation of the loop condition, and `PalSysGetAssertCount` afterwards is the
32-bit increment of its value before: exactly one greater unless the counter
was at `2^32 - 1`, where it wraps to zero.  The busy count and the trap-enable
flag are unchanged. -/
theorem PalSysAssertTrap_disabled_returns (s : PalState) (fuel : Nat)
    (hflag : s.PalSysAssertTrapEnable = false) (hfuel : 0 < fuel) :
    PalSysAssertTrap fuel s = some (PalExitCs (trapEntry s)) ∧
    PalSysGetAssertCount (PalExitCs (trapEntry s)) = (PalSysGetAssertCount s + 1) % 2 ^ 32 ∧
    (PalSysGetAssertCount s + 1 < 2 ^ 32 →
      PalSysGetAssertCount (PalExitCs (trapEntry s)) = PalSysGetAssertCount s + 1) ∧
    (PalExitCs (trapEntry s)).palSysBusyCount = s.palSysBusyCount ∧
    (PalExitCs (trapEntry s)).PalSysAssertTrapEnable = s.PalSysAssertTrapEnable := by
  obtain ⟨n, rfl⟩ : ∃ n, fuel = n + 1 := ⟨fuel - 1, by omega⟩
  have hc : PalSysGetAssertCount (PalExitCs (trapEntry s)) =
      (PalSysGetAssertCount s + 1) % 2 ^ 32 := by
    rw [trapEntry_eq]; rfl
  refine ⟨?_, hc, ?_, ?_, ?_⟩
  · unfold PalSysAssertTrap
    rw [trapRun_disabled s hflag n]
  · intro hlt
    rw [hc]
    exact Nat.mod_eq_of_lt hlt
  · rw [trapEntry_eq]; rfl
  · rw [trapEntry_eq]; rfl

theorem PalSysAssertTrap_disabled_returns_witness :
    sNoTrap.PalSysAssertTrapEnable = false ∧
    (PalSysAssertTrap 1 sNoTrap).map PalSysGetAssertCount = some 1 :=
  ⟨by decide, by
    rw [(PalSysAssertTrap_disabled_returns sNoTrap 1 (by decide) (by decide)).1]
    exact congrArg some
      ((PalSysAssertTrap_disabled_returns sNoTrap 1 (by decide) (by decide)).2.1.trans
        (by decide))⟩

/-- C8: when the trap-enable flag is `TRUE` and nothing changes it,
`PalSysAssertTrap` never returns: after any number `n` of evaluations of the
loop condition the routine is still at the loop head with the flag set,
interrupts are disabled, `PalExitCs` has not been called (the only actions
recorded are `PalEnterCs` and `PalLedOn(PAL_LED_ID_ERROR)`), the assert count is
the 32-bit increment of its value on entry, and no amount of fuel makes the
routine return. -/
theorem PalSysAssertTrap_enabled_spins (s : PalState) (n : Nat)
    (hflag : s.PalSysAssertTrapEnable = true) :
    (trapRun n s).1 = TrapPc.spin ∧
    (trapRun n s).2.PalSysAssertTrapEnable = true ∧
    (trapRun n s).2.irqEnabled = false ∧
    emitted s (trapRun n s).2 = [Action.PalEnterCs, Action.PalLedOn LedId.PAL_LED_ID_ERROR] ∧
    Action.PalExitCs ∉ emitted s (trapRun n s).2 ∧
    PalSysGetAssertCount (trapRun n s).2 = (PalSysGetAssertCount s + 1) % 2 ^ 32 ∧
    (PalSysGetAssertCount s + 1 < 2 ^ 32 →
      PalSysGetAssertCount (trapRun n s).2 = PalSysGetAssertCount s + 1) ∧
    PalSysAssertTrap n s = none := by
  have hrun := trapRun_enabled s hflag n
  have hem : emitted s (trapEntry s) =
      [Action.PalEnterCs, Action.PalLedOn LedId.PAL_LED_ID_ERROR] :=
    emitted_append s _ _ (by rw [trapEntry_eq])
  have hc : PalSysGetAssertCount (trapEntry s) = (PalSysGetAssertCount s + 1) % 2 ^ 32 := by
    rw [trapEntry_eq]; rfl
  unfold PalSysAssertTrap
  rw [hrun]
  refine ⟨rfl, ?_, ?_, hem, ?_, hc, ?_, rfl⟩
  · rw [trapEntry_eq]; exact hflag
  · rw [trapEntry_eq]
  · show Action.PalExitCs ∉ emitted s (trapEntry s)
    rw [hem]; decide
  · intro hlt
    show PalSysGetAssertCount (trapEntry s) = _
    rw [hc]
    exact Nat.mod_eq_of_lt hlt

theorem PalSysAssertTrap_enabled_spins_witness :
    sIdle.PalSysAssertTrapEnable = true ∧
    (trapRun 1000 sIdle).1 = TrapPc.spin ∧
    PalSysAssertTrap 1000 sIdle = none :=
  ⟨by decide,
    (PalSysAssertTrap_enabled_spins sIdle 1000 (by decide)).1,
    (PalSysAssertTrap_enabled_spins sIdle 1000 (by decide)).2.2.2.2.2.2.2⟩

/-- C9: in `PalSysSleep` of both PAL variants, in a non-debug build and with
a busy count of zero, the first of the three gate conditions that holds (trim
pending, then terminal UART state busy, then scheduler timer not busy)
downgrades to shallow sleep: the gate queries up to that one are made, then
`MXC_LP_EnterSleepMode` is called once and the routine returns.  Nothing else
changes: `palSysEnterStandby`, `PalTimerSleep` and the other low-power entries
are not called and the compare register is not written, whatever the later
gate inputs and `PAL_SYS_ENABLE_STANDBY` are. -/
theorem PalSysSleep_gate_downgrades (cfg : Config) (hw : Hw) (s : PalState)
    (hdebug : cfg.DEBUG = false) (hbusy : s.palSysBusyCount = 0) :
    (hw.trimPending = true →
      Max32665.PalSysSleep cfg hw s =
        { s with trace := s.trace ++
            [Action.MXC_WUT_TrimPending, Action.MXC_LP_EnterSleepMode] } ∧
      Max32690.PalSysSleep cfg hw s =
        { s with trace := s.trace ++
            [Action.MXC_WUT_TrimPending, Action.MXC_LP_EnterSleepMode] }) ∧
    (hw.trimPending = false → hw.uartBusy = true →
      Max32665.PalSysSleep cfg hw s =
        { s with trace := s.trace ++
            [Action.MXC_WUT_TrimPending, Action.PalUartGetState,
              Action.MXC_LP_EnterSleepMode] } ∧
      Max32690.PalSysSleep cfg hw s =
        { s with trace := s.trace ++
            [Action.MXC_WUT_TrimPending, Action.PalUartGetState,
              Action.MXC_LP_EnterSleepMode] }) ∧
    (hw.trimPending = false → hw.uartBusy = false → hw.timerBusy = false →
      Max32665.PalSysSleep cfg hw s =
        { s with trace := s.trace ++
            [Action.MXC_WUT_TrimPending, Action.PalUartGetState, Action.PalTimerGetState,
              Action.MXC_LP_EnterSleepMode] } ∧
      Max32690.PalSysSleep cfg hw s =
        { s with trace := s.trace ++
            [Action.MXC_WUT_TrimPending, Action.PalUartGetState, Action.PalTimerGetState,
              Action.MXC_LP_EnterSleepMode] }) := by
  refine ⟨?_, ?_, ?_⟩
  · intro ht
    constructor <;>
    simp [Max32665.PalSysSleep, Max32690.PalSysSleep, hdebug, hbusy, ht, emit]
  · intro ht hu
    constructor <;>
    simp [Max32665.PalSysSleep, Max32690.PalSysSleep, hdebug, hbusy, ht, hu, emit]
  · intro ht hu htm
    constructor <;>
    simp [Max32665.PalSysSleep, Max32690.PalSysSleep, hdebug, hbusy, ht, hu, htm, emit]

theorem PalSysSleep_gate_downgrades_witness :
    cfgStandby.DEBUG = false ∧ sIdle.palSysBusyCount = 0 ∧ hwTrim.trimPending = true ∧
    (Max32665.PalSysSleep cfgStandby hwTrim sIdle).trace =
      [Action.MXC_WUT_TrimPending, Action.MXC_LP_EnterSleepMode] ∧
    (Max32690.PalSysSleep cfgStandby hwTrim sIdle).trace =
      [Action.MXC_WUT_TrimPending, Action.MXC_LP_EnterSleepMode] :=
  ⟨by decide, by decide, by decide,
    congrArg PalState.trace
      ((PalSysSleep_gate_downgrades cfgStandby hwTrim sIdle (by decide) (by decide)).1
        (by decide)).1,
    congrArg PalState.trace
      ((PalSysSleep_gate_downgrades cfgStandby hwTrim sIdle (by decide) (by decide)).1
        (by decide)).2⟩

/-- C10 (as stated, refuted): in a `DEBUG` build with `PAL_SYS_ENABLE_STANDBY`
at its default 0, with busy count zero, no trim pending, the terminal UART not
busy, the scheduler timer busy and the UART hardware active, `PalSysSleep` of
either variant returns before the gate: no `PalTimerSleep(25)` is requested. -/
theorem PalSysSleep_debug_no_retry :
    cfgDebug.DEBUG = true ∧ cfgDebug.PAL_SYS_ENABLE_STANDBY = 0 ∧
    sIdle.palSysBusyCount = 0 ∧ hwUartActive.trimPending = false ∧
    hwUartActive.uartBusy = false ∧ hwUartActive.timerBusy = true ∧
    hwUartActive.uartActive = true ∧
    Max32665.PalSysSleep cfgDebug hwUartActive sIdle = sIdle ∧
    Action.PalTimerSleep 25 ∉ emitted sIdle (Max32665.PalSysSleep cfgDebug hwUartActive sIdle) ∧
    Max32690.PalSysSleep cfgDebug hwUartActive sIdle = sIdle ∧
    Action.PalTimerSleep 25 ∉ emitted sIdle (Max32690.PalSysSleep cfgDebug hwUartActive sIdle) := by
  decide

/-- C10 (amended): in `PalSysSleep` of both PAL variants, unless the build is
a `DEBUG` build with `PAL_SYS_ENABLE_STANDBY == 0` (which returns before the
gate), when the busy count is zero, no trim is pending, the terminal UART
state is not busy and the scheduler timer is busy, but the terminal UART
hardware reports active, the routine makes the four gate queries, calls
`PalTimerSleep(25)` and returns: `palSysEnterStandby` is not called, there is
no low-power entry and the compare register is not written, for every value of
`PAL_SYS_ENABLE_STANDBY` that the build admits. -/
theorem PalSysSleep_uart_active_retry (cfg : Config) (hw : Hw) (s : PalState)
    (hbuild : ¬ (cfg.DEBUG = true ∧ cfg.PAL_SYS_ENABLE_STANDBY = 0))
    (hbusy : s.palSysBusyCount = 0) (htrim : hw.trimPending = false)
    (huart : hw.uartBusy = false) (htimer : hw.timerBusy = true)
    (hactive : hw.uartActive = true) :
    Max32665.PalSysSleep cfg hw s =
      { s with trace := s.trace ++ (gateQueries ++ [Action.PalTimerSleep 25]) } ∧
    Max32690.PalSysSleep cfg hw s =
      { s with trace := s.trace ++ (gateQueries ++ [Action.PalTimerSleep 25]) } ∧
    cmpWrites (emitted s (Max32665.PalSysSleep cfg hw s)) = [] ∧
    cmpWrites (emitted s (Max32690.PalSysSleep cfg hw s)) = [] ∧
    (∀ a ∈ emitted s (Max32665.PalSysSleep cfg hw s), a.isLowPowerEntry = false) ∧
    (∀ a ∈ emitted s (Max32690.PalSysSleep cfg hw s), a.isLowPowerEntry = false) := by
  have h5 : Max32665.PalSysSleep cfg hw s =
      { s with trace := s.trace ++ (gateQueries ++ [Action.PalTimerSleep 25]) } := by
    simp [Max32665.PalSysSleep, hbuild, hbusy, htrim, huart, htimer, hactive, emit, gateQueries]
  have h9 : Max32690.PalSysSleep cfg hw s =
      { s with trace := s.trace ++ (gateQueries ++ [Action.PalTimerSleep 25]) } := by
    simp [Max32690.PalSysSleep, hbuild, hbusy, htrim, huart, htimer, hactive, emit, gateQueries]
  rw [h5, h9, emitted_append s _ _ rfl]
  refine ⟨rfl, rfl, rfl, rfl, ?_, ?_⟩ <;> decide

theorem PalSysSleep_uart_active_retry_witness :
    ¬ (cfgStandby.DEBUG = true ∧ cfgStandby.PAL_SYS_ENABLE_STANDBY = 0) ∧
    sIdle.palSysBusyCount = 0 ∧ hwUartActive.trimPending = false ∧
    hwUartActive.uartBusy = false ∧ hwUartActive.timerBusy = true ∧
    hwUartActive.uartActive = true ∧
    (Max32665.PalSysSleep cfgStandby hwUartActive sIdle).trace =
      [Action.MXC_WUT_TrimPending, Action.PalUartGetState, Action.PalTimerGetState,
        Action.MXC_UART_GetActive, Action.PalTimerSleep 25] :=
  ⟨by decide, by decide, by decide, by decide, by decide, by decide,
    congrArg PalState.trace
      (PalSysSleep_uart_active_retry cfgStandby hwUartActive sIdle (by decide) (by decide)
        (by decide) (by decide) (by decide) (by decide)).1⟩

/-- C11: in the max32665 `PalSysSleep` of a non-debug build,
`palSysEnterStandby` is invoked (its first action, `MXC_WUT_Store`, is
recorded) if and only if the busy count is zero, no trim is pending, the
terminal UART state is not busy, the scheduler timer is busy, the UART
hardware is not active and `PAL_SYS_ENABLE_STANDBY` is non-zero; the call then
is `palSysEnterStandby` run after the four gate queries.  When all gate
conditions pass and `PAL_SYS_ENABLE_STANDBY` is 0, the four gate queries are
followed by exactly one `MXC_LP_EnterSleepMode` and nothing else. -/
theorem PalSysSleep_enters_standby_iff (cfg : Config) (hw : Hw) (s : PalState)
    (hdebug : cfg.DEBUG = false) :
    (Action.MXC_WUT_Store ∈ emitted s (Max32665.PalSysSleep cfg hw s) ↔
      (s.palSysBusyCount = 0 ∧ hw.trimPending = false ∧ hw.uartBusy = false ∧
        hw.timerBusy = true ∧ hw.uartActive = false ∧ cfg.PAL_SYS_ENABLE_STANDBY ≠ 0)) ∧
    ((s.palSysBusyCount = 0 ∧ hw.trimPending = false ∧ hw.uartBusy = false ∧
        hw.timerBusy = true ∧ hw.uartActive = false ∧ cfg.PAL_SYS_ENABLE_STANDBY ≠ 0) →
      Max32665.PalSysSleep cfg hw s =
        Max32665.palSysEnterStandby cfg hw { s with trace := s.trace ++ gateQueries }) ∧
    ((s.palSysBusyCount = 0 ∧ hw.trimPending = false ∧ hw.uartBusy = false ∧
        hw.timerBusy = true ∧ hw.uartActive = false ∧ cfg.PAL_SYS_ENABLE_STANDBY = 0) →
      Max32665.PalSysSleep cfg hw s =
        { s with trace := s.trace ++ (gateQueries ++ [Action.MXC_LP_EnterSleepMode]) }) := by
  refine ⟨⟨PalSysSleep_store_imp_max32665 cfg hw s, ?_⟩, ?_, ?_⟩
  · rintro ⟨hb, ht, hu, htm, hua, hst⟩
    rw [PalSysSleep_standby_eq_max32665 cfg hw s hdebug hb ht hu htm hua hst]
    obtain ⟨rest, hrest⟩ := palSysEnterStandby_first_max32665 cfg hw
      { s with trace := s.trace ++ gateQueries }
    rw [emitted_append s _ (gateQueries ++ Action.MXC_WUT_Store :: rest)
      (by rw [hrest]; simp)]
    simp
  · rintro ⟨hb, ht, hu, htm, hua, hst⟩
    exact PalSysSleep_standby_eq_max32665 cfg hw s hdebug hb ht hu htm hua hst
  · rintro ⟨hb, ht, hu, htm, hua, hst⟩
    simp [Max32665.PalSysSleep, hdebug, hb, ht, hu, htm, hua, hst, emit, gateQueries]

theorem PalSysSleep_enters_standby_iff_witness :
    cfgStandby.DEBUG = false ∧
    Action.MXC_WUT_Store ∈ emitted sIdle (Max32665.PalSysSleep cfgStandby hwDeep sIdle) ∧
    (Max32665.PalSysSleep cfgDefault hwDeep sIdle).trace =
      [Action.MXC_WUT_TrimPending, Action.PalUartGetState, Action.PalTimerGetState,
        Action.MXC_UART_GetActive, Action.MXC_LP_EnterSleepMode] :=
  ⟨by decide,
    (PalSysSleep_enters_standby_iff cfgStandby hwDeep sIdle (by decide)).1.2 (by decide),
    congrArg PalState.trace
      ((PalSysSleep_enters_standby_iff cfgDefault hwDeep sIdle (by decide)).2.2 (by decide))⟩

/-- C12: the wake-up overhead that `palSysEnterStandby` selects depends on
`SystemCoreClock` only.  On max32665 it is 2950 at 96000000 Hz and 3100 for
every other value; on the ARM build of max32690 it is 950 at 120000000 Hz and
1100 for every other value.  So an unknown frequency gets the largest entry of
the platform's table.  On the deep path the compare target is computed from
this value. -/
theorem wakeupUs_selection (cfg : Config) (hw : Hw) (s : PalState)
    (harm : cfg.riscv = false) :
    (∀ hw' : Hw, hw'.SystemCoreClock = hw.SystemCoreClock →
      Max32665.wakeupUs hw' = Max32665.wakeupUs hw ∧
      Max32690.wakeupUs cfg hw' = Max32690.wakeupUs cfg hw) ∧
    (hw.SystemCoreClock = 96000000 → Max32665.wakeupUs hw = 2950) ∧
    (hw.SystemCoreClock ≠ 96000000 → Max32665.wakeupUs hw = 3100) ∧
    (hw.SystemCoreClock = 120000000 → Max32690.wakeupUs cfg hw = 950) ∧
    (hw.SystemCoreClock ≠ 120000000 → Max32690.wakeupUs cfg hw = 1100) ∧
    max Max32665.PAL_SYS_STANDBY_WAKEUP_USEC_96 Max32665.PAL_SYS_STANDBY_WAKEUP_USEC_60 = 3100 ∧
    max (Max32690.PAL_SYS_STANDBY_WAKEUP_USEC_120 cfg) (Max32690.PAL_SYS_STANDBY_WAKEUP_USEC_60 cfg)
      = 1100 ∧
    (3000 ≤ hw.schUsec →
      armedTarget (emitted s (Max32665.palSysEnterStandby cfg hw s)) =
        some (targetTick cfg hw.cntEntry hw.schUsec (Max32665.wakeupUs hw)) ∧
      armedTarget (emitted s (Max32690.palSysEnterStandby cfg hw s)) =
        some (targetTick cfg hw.cntEntry hw.schUsec (Max32690.wakeupUs cfg hw))) := by
  refine ⟨?_, ?_, ?_, ?_, ?_, ?_, ?_, ?_⟩
  · intro hw' h
    simp [Max32665.wakeupUs, Max32690.wakeupUs, h]
  · intro h
    simp [Max32665.wakeupUs, h, Max32665.PAL_SYS_STANDBY_WAKEUP_USEC_96]
  · intro h
    simp [Max32665.wakeupUs, h, Max32665.PAL_SYS_STANDBY_WAKEUP_USEC_60]
  · intro h
    simp [Max32690.wakeupUs, h, Max32690.PAL_SYS_STANDBY_WAKEUP_USEC_120, harm]
  · intro h
    simp [Max32690.wakeupUs, h, Max32690.PAL_SYS_STANDBY_WAKEUP_USEC_60, harm]
  · decide
  · simp [Max32690.PAL_SYS_STANDBY_WAKEUP_USEC_120, Max32690.PAL_SYS_STANDBY_WAKEUP_USEC_60, harm]
  · intro hmin
    exact ⟨armedTarget_deep_max32665 cfg hw s hmin, armedTarget_deep_max32690 cfg hw s hmin⟩

theorem wakeupUs_selection_witness :
    cfgStandby.riscv = false ∧
    Max32665.wakeupUs hwDeep = 2950 ∧ Max32665.wakeupUs hwUnderflow = 3100 ∧
    Max32690.wakeupUs cfgStandby hwDeep = 1100 :=
  ⟨by decide,
    (wakeupUs_selection cfgStandby hwDeep sIdle (by decide)).2.1 (by decide),
    (wakeupUs_selection cfgStandby hwUnderflow sIdle (by decide)).2.2.1 (by decide),
    (wakeupUs_selection cfgStandby hwDeep sIdle (by decide)).2.2.2.2.1 (by decide)⟩

/-- C13 (the code diverges): on max32665 with the core at 60 MHz the selected
overhead is 3100 microseconds; for an expiry time of 3000 microseconds, which
passes the threshold test, `schUsec - wakeupUs` wraps in 64 bits and a
32768 Hz wake clock is armed at 4154505682 from a snapshot of 1000, not at the
snapshot. -/
theorem palSysEnterStandby_overhead_underflow :
    3000 ≤ hwUnderflow.schUsec ∧
    hwUnderflow.schUsec ≤ Max32665.wakeupUs hwUnderflow ∧
    hwUnderflow.cntEntry = 1000 ∧
    armedTarget (emitted sIdle (Max32665.palSysEnterStandby cfgStandby hwUnderflow sIdle)) =
      some 4154505682 := by
  decide

/-- C14: if interrupts are disabled when `PalSysSleep` is called, then in both
variants and on every path they are disabled when it returns.  Each recorded
action is paired with the interrupt-enable state in which it is issued.

On the deep path of `palSysEnterStandby` the paired trace is exactly this: the
four gate queries, `MXC_WUT_Store`, the counter read, `PalTimerGetExpTime`, the
compare write of the target, `NVIC_EnableIRQ`, `MXC_LP_EnableWUTAlarmWakeup`,
`PalTimerStop`, `PalBbDisable` and the one `PalExitCs`, all issued with
interrupts disabled; then the low-power entry (on the RISC-V build preceded by
the semaphore write that wakes the ARM core) and the one `PalEnterCs`, issued
with interrupts enabled; then `PalBbEnable`, `PalBbRestore`,
`MXC_WUT_RestoreBBClock`, the counter read, `PalTimerRestore` and the compare
write of the sentinel, issued with interrupts disabled again.

On every other path no action is issued with interrupts enabled, and neither
`PalExitCs` nor `PalEnterCs` is called.

So on every path the only actions issued with interrupts enabled are the
low-power entry of the deep path (with the semaphore write) and the
`PalEnterCs` that ends the window, and `PalExitCs` and `PalEnterCs` are each
called at most once. -/
theorem PalSysSleep_interrupt_window (cfg : Config) (hw : Hw) (s : PalState)
    (hirq : s.irqEnabled = false) :
    ((Max32665.PalSysSleep cfg hw s).irqEnabled = false ∧
      irqAfter false (emitted s (Max32665.PalSysSleep cfg hw s)) = false ∧
      (∀ p ∈ irqDuring false (emitted s (Max32665.PalSysSleep cfg hw s)),
        p.2 = true → p.1.isLowPowerEntry = true ∨ p.1 = Action.MXC_SEMA_irq1_set ∨
          p.1 = Action.PalEnterCs) ∧
      (emitted s (Max32665.PalSysSleep cfg hw s)).count Action.PalExitCs ≤ 1 ∧
      (emitted s (Max32665.PalSysSleep cfg hw s)).count Action.PalEnterCs ≤ 1) ∧
    ((Max32690.PalSysSleep cfg hw s).irqEnabled = false ∧
      irqAfter false (emitted s (Max32690.PalSysSleep cfg hw s)) = false ∧
      (∀ p ∈ irqDuring false (emitted s (Max32690.PalSysSleep cfg hw s)),
        p.2 = true → p.1.isLowPowerEntry = true ∨ p.1 = Action.MXC_SEMA_irq1_set ∨
          p.1 = Action.PalEnterCs) ∧
      (emitted s (Max32690.PalSysSleep cfg hw s)).count Action.PalExitCs ≤ 1 ∧
      (emitted s (Max32690.PalSysSleep cfg hw s)).count Action.PalEnterCs ≤ 1) ∧
    (Max32665.takesDeepPath cfg hw s →
      irqDuring false (emitted s (Max32665.PalSysSleep cfg hw s)) =
        ([Action.MXC_WUT_TrimPending, Action.PalUartGetState, Action.PalTimerGetState,
          Action.MXC_UART_GetActive,
          Action.MXC_WUT_Store, Action.MXC_WUT_cnt_read, Action.PalTimerGetExpTime,
          Action.MXC_WUT_cmp_write (targetTick cfg hw.cntEntry hw.schUsec (Max32665.wakeupUs hw)),
          Action.NVIC_EnableIRQ Irq.WUT_IRQn,
          Action.MXC_LP_EnableWUTAlarmWakeup, Action.PalTimerStop, Action.PalBbDisable,
          Action.PalExitCs].map (fun a => (a, false)) ++
        ([Action.MXC_LP_EnterSleepMode] ++ [Action.PalEnterCs]).map (fun a => (a, true)) ++
        [Action.PalBbEnable, Action.PalBbRestore, Action.MXC_WUT_RestoreBBClock,
          Action.MXC_WUT_cnt_read, Action.PalTimerRestore (restoreArg cfg hw),
          Action.MXC_WUT_cmp_write (u32 cfg.PAL_MAX_RTC_COUNTER_VAL)].map
            (fun a => (a, false)))) ∧
    (¬ Max32665.takesDeepPath cfg hw s →
      (∀ p ∈ irqDuring false (emitted s (Max32665.PalSysSleep cfg hw s)), p.2 = false) ∧
      Action.PalExitCs ∉ emitted s (Max32665.PalSysSleep cfg hw s) ∧
      Action.PalEnterCs ∉ emitted s (Max32665.PalSysSleep cfg hw s)) ∧
    (Max32690.takesDeepPath cfg hw s →
      irqDuring false (emitted s (Max32690.PalSysSleep cfg hw s)) =
        ([Action.MXC_WUT_TrimPending, Action.PalUartGetState, Action.PalTimerGetState,
          Action.MXC_UART_GetActive,
          Action.MXC_WUT_Store, Action.MXC_WUT_cnt_read, Action.PalTimerGetExpTime,
          Action.MXC_WUT_cmp_write
            (targetTick cfg hw.cntEntry hw.schUsec (Max32690.wakeupUs cfg hw)),
          Action.NVIC_EnableIRQ Irq.WUT0_IRQn,
          Action.MXC_LP_EnableWUTAlarmWakeup, Action.PalTimerStop, Action.PalBbDisable,
          Action.PalExitCs].map (fun a => (a, false)) ++
        ((if cfg.riscv then [Action.MXC_SEMA_irq1_set, Action.MXC_LP_EnterSleepMode]
          else [Action.MXC_LP_EnterStandbyMode]) ++ [Action.PalEnterCs]).map
            (fun a => (a, true)) ++
        [Action.PalBbEnable, Action.PalBbRestore, Action.MXC_WUT_RestoreBBClock,
          Action.MXC_WUT_cnt_read, Action.PalTimerRestore (restoreArg cfg hw),
          Action.MXC_WUT_cmp_write (u32 cfg.PAL_MAX_RTC_COUNTER_VAL)].map
            (fun a => (a, false)))) ∧
    (¬ Max32690.takesDeepPath cfg hw s →
      (∀ p ∈ irqDuring false (emitted s (Max32690.PalSysSleep cfg hw s)), p.2 = false) ∧
      Action.PalExitCs ∉ emitted s (Max32690.PalSysSleep cfg hw s) ∧
      Action.PalEnterCs ∉ emitted s (Max32690.PalSysSleep cfg hw s)) := by
  refine ⟨PalSysSleep_irq_window_max32665 cfg hw s hirq,
    PalSysSleep_irq_window_max32690 cfg hw s hirq, ?_, ?_, ?_, ?_⟩
  · intro h
    rw [PalSysSleep_deep_max32665 cfg hw s h, emitted_append s _ _ rfl]
    exact irqDuring_gate_deep_eq _ _ _ _ _ (Or.inl rfl)
  · intro h
    have hno := all_noIrqEffect _ (PalSysSleep_not_deep_irq_max32665 cfg hw s h).1
    exact ⟨(irqDuring_of_no_effect _ false hno).1, not_mem_of_no_irqEffect _ hno⟩
  · intro h
    rw [PalSysSleep_deep_max32690 cfg hw s h, emitted_append s _ _ rfl]
    have hentry : Max32690.lowPowerEntry cfg = [Action.MXC_LP_EnterSleepMode] ∨
        Max32690.lowPowerEntry cfg = [Action.MXC_LP_EnterStandbyMode] ∨
        Max32690.lowPowerEntry cfg = [Action.MXC_SEMA_irq1_set, Action.MXC_LP_EnterSleepMode] := by
      cases hr : cfg.riscv <;> simp [Max32690.lowPowerEntry, hr]
    exact irqDuring_gate_deep_eq _ _ _ _ _ hentry
  · intro h
    have hno := all_noIrqEffect _ (PalSysSleep_not_deep_irq_max32690 cfg hw s h).1
    exact ⟨(irqDuring_of_no_effect _ false hno).1, not_mem_of_no_irqEffect _ hno⟩

theorem PalSysSleep_interrupt_window_witness :
    sIdle.irqEnabled = false ∧
    (Max32665.PalSysSleep cfgStandby hwDeep sIdle).irqEnabled = false ∧
    Max32665.takesDeepPath cfgStandby hwDeep sIdle ∧
    irqDuring false (emitted sIdle (Max32665.PalSysSleep cfgStandby hwDeep sIdle)) =
      [(Action.MXC_WUT_TrimPending, false), (Action.PalUartGetState, false),
        (Action.PalTimerGetState, false), (Action.MXC_UART_GetActive, false),
        (Action.MXC_WUT_Store, false), (Action.MXC_WUT_cnt_read, false),
        (Action.PalTimerGetExpTime, false), (Action.MXC_WUT_cmp_write 1231, false),
        (Action.NVIC_EnableIRQ Irq.WUT_IRQn, false),
        (Action.MXC_LP_EnableWUTAlarmWakeup, false), (Action.PalTimerStop, false),
        (Action.PalBbDisable, false), (Action.PalExitCs, false),
        (Action.MXC_LP_EnterSleepMode, true), (Action.PalEnterCs, true),
        (Action.PalBbEnable, false), (Action.PalBbRestore, false),
        (Action.MXC_WUT_RestoreBBClock, false), (Action.MXC_WUT_cnt_read, false),
        (Action.PalTimerRestore 3897, false), (Action.MXC_WUT_cmp_write 4294967295, false)] ∧
    ¬ Max32690.takesDeepPath cfgStandby hwShort sIdle ∧
    (∀ p ∈ irqDuring false (emitted sIdle (Max32690.PalSysSleep cfgStandby hwShort sIdle)),
      p.2 = false) ∧
    emitted sIdle (Max32690.PalSysSleep cfgStandby hwShort sIdle) =
      [Action.MXC_WUT_TrimPending, Action.PalUartGetState, Action.PalTimerGetState,
        Action.MXC_UART_GetActive, Action.MXC_WUT_Store, Action.MXC_WUT_cnt_read,
        Action.PalTimerGetExpTime, Action.MXC_LP_EnterSleepMode] :=
  ⟨by decide,
    (PalSysSleep_interrupt_window cfgStandby hwDeep sIdle (by decide)).1.1,
    by unfold Max32665.takesDeepPath; decide,
    ((PalSysSleep_interrupt_window cfgStandby hwDeep sIdle (by decide)).2.2.1
      (by unfold Max32665.takesDeepPath; decide)).trans (by decide),
    by unfold Max32690.takesDeepPath; decide,
    ((PalSysSleep_interrupt_window cfgStandby hwShort sIdle (by decide)).2.2.2.2.2
      (by unfold Max32690.takesDeepPath; decide)).1,
    by decide⟩

/-- C15: on the deep path of `palSysEnterStandby` (expiry time of at least
3000 microseconds) the recorded actions are exactly: `MXC_WUT_Store`, the
counter read, `PalTimerGetExpTime`, the compare write of the target,
`NVIC_EnableIRQ` of the wake-up timer line, `MXC_LP_EnableWUTAlarmWakeup`,
`PalTimerStop`, `PalBbDisable`, `PalExitCs`, the low-power entry, `PalEnterCs`,
`PalBbEnable`, `PalBbRestore`, `MXC_WUT_RestoreBBClock`, the counter read,
`PalTimerRestore`, the compare write of the sentinel.  The low-power entry is
`MXC_LP_EnterSleepMode` on max32665, `MXC_LP_EnterStandbyMode` on the ARM build
of max32690, and the semaphore write followed by `MXC_LP_EnterSleepMode` on its
RISC-V build.  So arming precedes quiescing and the baseband is restored
before `PalTimerRestore`. -/
theorem palSysEnterStandby_deep_sequence (cfg : Config) (hw : Hw) (s : PalState)
    (hmin : 3000 ≤ hw.schUsec) :
    emitted s (Max32665.palSysEnterStandby cfg hw s) =
      [Action.MXC_WUT_Store, Action.MXC_WUT_cnt_read, Action.PalTimerGetExpTime,
        Action.MXC_WUT_cmp_write (targetTick cfg hw.cntEntry hw.schUsec (Max32665.wakeupUs hw)),
        Action.NVIC_EnableIRQ Irq.WUT_IRQn, Action.MXC_LP_EnableWUTAlarmWakeup,
        Action.PalTimerStop, Action.PalBbDisable, Action.PalExitCs] ++
      [Action.MXC_LP_EnterSleepMode] ++
      [Action.PalEnterCs, Action.PalBbEnable, Action.PalBbRestore,
        Action.MXC_WUT_RestoreBBClock, Action.MXC_WUT_cnt_read,
        Action.PalTimerRestore (restoreArg cfg hw),
        Action.MXC_WUT_cmp_write (u32 cfg.PAL_MAX_RTC_COUNTER_VAL)] ∧
    emitted s (Max32690.palSysEnterStandby cfg hw s) =
      [Action.MXC_WUT_Store, Action.MXC_WUT_cnt_read, Action.PalTimerGetExpTime,
        Action.MXC_WUT_cmp_write
          (targetTick cfg hw.cntEntry hw.schUsec (Max32690.wakeupUs cfg hw)),
        Action.NVIC_EnableIRQ Irq.WUT0_IRQn, Action.MXC_LP_EnableWUTAlarmWakeup,
        Action.PalTimerStop, Action.PalBbDisable, Action.PalExitCs] ++
      (if cfg.riscv then [Action.MXC_SEMA_irq1_set, Action.MXC_LP_EnterSleepMode]
        else [Action.MXC_LP_EnterStandbyMode]) ++
      [Action.PalEnterCs, Action.PalBbEnable, Action.PalBbRestore,
        Action.MXC_WUT_RestoreBBClock, Action.MXC_WUT_cnt_read,
        Action.PalTimerRestore (restoreArg cfg hw),
        Action.MXC_WUT_cmp_write (u32 cfg.PAL_MAX_RTC_COUNTER_VAL)] := by
  constructor
  · exact emitted_append s _ _ (congrArg PalState.trace
      (palSysEnterStandby_deep_eq_max32665 cfg hw s hmin))
  · exact emitted_append s _ _ (congrArg PalState.trace
      (palSysEnterStandby_deep_eq_max32690 cfg hw s hmin))

theorem palSysEnterStandby_deep_sequence_witness :
    3000 ≤ hwDeep.schUsec ∧
    emitted sIdle (Max32665.palSysEnterStandby cfgStandby hwDeep sIdle) =
      [Action.MXC_WUT_Store, Action.MXC_WUT_cnt_read, Action.PalTimerGetExpTime,
        Action.MXC_WUT_cmp_write 1231, Action.NVIC_EnableIRQ Irq.WUT_IRQn,
        Action.MXC_LP_EnableWUTAlarmWakeup, Action.PalTimerStop, Action.PalBbDisable,
        Action.PalExitCs, Action.MXC_LP_EnterSleepMode, Action.PalEnterCs, Action.PalBbEnable,
        Action.PalBbRestore, Action.MXC_WUT_RestoreBBClock, Action.MXC_WUT_cnt_read,
        Action.PalTimerRestore 3897, Action.MXC_WUT_cmp_write 4294967295] :=
  ⟨by decide,
    (palSysEnterStandby_deep_sequence cfgStandby hwDeep sIdle (by decide)).1.trans (by decide)⟩

/-- C17: for every prior state and build, after `PalSysInit` of either variant
`PalSysGetAssertCount` returns 0, the busy count is 0 so that `PalSysIsBusy`
returns `FALSE`, and the trap-enable flag is `TRUE`. -/
theorem PalSysInit_resets (cfg : Config) (s : PalState) :
    (PalSysGetAssertCount (Max32665.PalSysInit cfg s) = 0 ∧
      (Max32665.PalSysInit cfg s).palSysBusyCount = 0 ∧
      (PalSysIsBusy (Max32665.PalSysInit cfg s)).1 = false ∧
      (Max32665.PalSysInit cfg s).PalSysAssertTrapEnable = true) ∧
    (PalSysGetAssertCount (Max32690.PalSysInit cfg s) = 0 ∧
      (Max32690.PalSysInit cfg s).palSysBusyCount = 0 ∧
      (PalSysIsBusy (Max32690.PalSysInit cfg s)).1 = false ∧
      (Max32690.PalSysInit cfg s).PalSysAssertTrapEnable = true) := by
  have b5 := PalSysInit_busyCount_max32665 cfg s
  have b9 := PalSysInit_busyCount_max32690 cfg s
  refine ⟨⟨?_, b5, ?_, ?_⟩, ⟨?_, b9, ?_, ?_⟩⟩
  · unfold Max32665.PalSysInit PalSysGetAssertCount; split_ifs <;> rfl
  · rw [PalSysIsBusy_fst, b5]; rfl
  · unfold Max32665.PalSysInit; split_ifs <;> rfl
  · unfold Max32690.PalSysInit PalSysGetAssertCount; split_ifs <;> rfl
  · rw [PalSysIsBusy_fst, b9]; rfl
  · unfold Max32690.PalSysInit; split_ifs <;> rfl

/-- C16 (as stated, refuted): with the trap disabled and the assert counter at
4294967295, `PalSysAssertTrap` returns with the counter at 0, so the value of
`PalSysGetAssertCount` has decreased. -/
theorem assertCount_decreases_at_wrap :
    sNoTrapMax.PalSysAssertTrapEnable = false ∧
    PalSysGetAssertCount sNoTrapMax = 4294967295 ∧
    (PalCall.AssertTrap.run sNoTrapMax).map PalSysGetAssertCount = some 0 ∧
    ¬ (PalSysGetAssertCount sNoTrapMax ≤ 0) := by
  decide

/-- C16 (amended): every call after initialisation (`PalSysAssertTrap` with
the trap disabled, `PalSysSetTrap`, `PalSysGetAssertCount`,
`PalSysGetStackUsage`, `PalSysSetBusy`, `PalSysSetIdle`, `PalSysIsBusy`,
`PalSysSleep` of either variant) returns, and only `PalSysAssertTrap` changes
the assert counter: every other call leaves `PalSysGetAssertCount` as it was,
and `PalSysAssertTrap` makes it the 32-bit increment of its former value.  So
the counter does not decrease as long as it is below `2^32 - 1`, where the
increment wraps to 0. -/
theorem assertCount_monotone_below_wrap (call : PalCall) (s : PalState)
    (hret : call ≠ PalCall.AssertTrap ∨ s.PalSysAssertTrapEnable = false) :
    ∃ s', call.run s = some s' ∧
      (call ≠ PalCall.AssertTrap → PalSysGetAssertCount s' = PalSysGetAssertCount s) ∧
      (call = PalCall.AssertTrap →
        PalSysGetAssertCount s' = (PalSysGetAssertCount s + 1) % 2 ^ 32) ∧
      (PalSysGetAssertCount s + 1 < 2 ^ 32 →
        PalSysGetAssertCount s ≤ PalSysGetAssertCount s') := by
  by_cases hc : call = PalCall.AssertTrap
  · subst hc
    have hflag : s.PalSysAssertTrapEnable = false := by
      rcases hret with h | h
      · exact absurd rfl h
      · exact h
    have hrun : PalCall.AssertTrap.run s = some (PalExitCs (trapEntry s)) := by
      show PalSysAssertTrap 1 s = _
      unfold PalSysAssertTrap
      rw [trapRun_disabled s hflag 0]
    have hcount : PalSysGetAssertCount (PalExitCs (trapEntry s)) =
        (PalSysGetAssertCount s + 1) % 2 ^ 32 := by
      rw [trapEntry_eq]; rfl
    refine ⟨_, hrun, fun h => absurd rfl h, fun _ => hcount, ?_⟩
    intro hlt
    rw [hcount, Nat.mod_eq_of_lt hlt]
    omega
  · have hsome : ∃ s', call.run s = some s' := by
      cases call <;> first | exact absurd rfl hc | exact ⟨_, rfl⟩
    obtain ⟨s', hs'⟩ := hsome
    have hkeep := PalCall.run_assertCount call s s' hc hs'
    exact ⟨s', hs', fun _ => hkeep, fun h => absurd h hc,
      fun _ => by unfold PalSysGetAssertCount; omega⟩

theorem assertCount_monotone_below_wrap_witness :
    sNoTrap.PalSysAssertTrapEnable = false ∧
    ∃ s', PalCall.AssertTrap.run sNoTrap = some s' ∧
      (PalCall.AssertTrap ≠ PalCall.AssertTrap →
        PalSysGetAssertCount s' = PalSysGetAssertCount sNoTrap) ∧
      (PalCall.AssertTrap = PalCall.AssertTrap →
        PalSysGetAssertCount s' = (PalSysGetAssertCount sNoTrap + 1) % 2 ^ 32) ∧
      (PalSysGetAssertCount sNoTrap + 1 < 2 ^ 32 →
        PalSysGetAssertCount sNoTrap ≤ PalSysGetAssertCount s') :=
  ⟨by decide, assertCount_monotone_below_wrap PalCall.AssertTrap sNoTrap (Or.inr (by decide))⟩

/-- C18: `freertos_permit_tickless` returns `E_NO_ERROR` if and only if no trim
is pending, the terminal UART state is not busy, the scheduler timer is busy
and the console UART hardware is not active; in every other case it returns
`E_BUSY`.  For the same driver state (the console UART reporting what the
terminal UART reports) and a busy count of zero, this is the decision of the
`PalSysSleep` gate: in a non-debug max32665 build with standby enabled,
`PalSysSleep` invokes `palSysEnterStandby` exactly when
`freertos_permit_tickless` returns `E_NO_ERROR`. -/
theorem freertos_permit_tickless_decision (cfg : Config) (th : Tickless.TicklessHw)
    (p s : PalState) (hsame : th.consoleUartActive = th.uartActive)
    (hdebug : cfg.DEBUG = false) (hstandby : cfg.PAL_SYS_ENABLE_STANDBY ≠ 0)
    (hbusy : s.palSysBusyCount = 0) :
    ((Tickless.freertos_permit_tickless th p).1 = Tickless.MxcError.E_NO_ERROR ↔
      (th.trimPending = false ∧ th.uartBusy = false ∧ th.timerBusy = true ∧
        th.consoleUartActive = false)) ∧
    (¬ (th.trimPending = false ∧ th.uartBusy = false ∧ th.timerBusy = true ∧
        th.consoleUartActive = false) →
      (Tickless.freertos_permit_tickless th p).1 = Tickless.MxcError.E_BUSY) ∧
    ((Tickless.freertos_permit_tickless th p).1 = Tickless.MxcError.E_NO_ERROR ↔
      Action.MXC_WUT_Store ∈ emitted s (Max32665.PalSysSleep cfg th.toHw s)) := by
  have hiff : (Tickless.freertos_permit_tickless th p).1 = Tickless.MxcError.E_NO_ERROR ↔
      (th.trimPending = false ∧ th.uartBusy = false ∧ th.timerBusy = true ∧
        th.consoleUartActive = false) := by
    rw [freertos_permit_tickless_fst]
    split_ifs with h
    · exact ⟨fun _ => h, fun _ => rfl⟩
    · exact ⟨fun hc => absurd hc (by decide), fun hc => absurd hc h⟩
  refine ⟨hiff, ?_, ?_⟩
  · intro h
    rw [freertos_permit_tickless_fst, if_neg h]
  · rw [hiff]
    constructor
    · rintro ⟨h1, h2, h3, h4⟩
      exact PalSysSleep_store_of_gates_max32665 cfg th.toHw s hdebug hbusy h1 h2 h3
        (by rw [← hsame]; exact h4) hstandby
    · intro hmem
      obtain ⟨_, h1, h2, h3, h4, _⟩ := PalSysSleep_store_imp_max32665 cfg th.toHw s hmem
      exact ⟨h1, h2, h3, by rw [hsame]; exact h4⟩

theorem freertos_permit_tickless_decision_witness :
    thDeep.consoleUartActive = thDeep.uartActive ∧ cfgStandby.DEBUG = false ∧
    cfgStandby.PAL_SYS_ENABLE_STANDBY ≠ 0 ∧ sIdle.palSysBusyCount = 0 ∧
    (Tickless.freertos_permit_tickless thDeep sIdle).1 = Tickless.MxcError.E_NO_ERROR ∧
    Action.MXC_WUT_Store ∈ emitted sIdle (Max32665.PalSysSleep cfgStandby thDeep.toHw sIdle) :=
  ⟨by decide, by decide, by decide, by decide, by decide,
    (freertos_permit_tickless_decision cfgStandby thDeep sIdle sIdle (by decide) (by decide)
      (by decide) (by decide)).2.2.1 (by decide)⟩

/-- C19: in `vPortSuppressTicksAndSleep`, for every `xExpectedIdleTime`, when
`eTaskConfirmSleepModeStatus` answers `eAbortSleep` or
`freertos_permit_tickless` answers anything other than `E_NO_ERROR` (and
`MXC_ASSERT` does not fail), the routine returns without a low-power entry,
without a store to the compare register, without `PalTimerStop`,
`PalBbDisable`, `PalTimerRestore` or `vTaskStepTick`, and without touching the
`ENABLE` bit of `SysTick->CTRL`; the compare register is unchanged.  The two
checks are made exactly when `SysTick->VAL` is at least 2 and the idle time
amounts to at least 150 wake-up timer ticks, and then the routine returns with
interrupts enabled; otherwise it returns after reading `SysTick->VAL`, without
having disabled interrupts. -/
theorem vPortSuppressTicksAndSleep_denied (cfg : Tickless.TicklessConfig)
    (th : Tickless.TicklessHw) (x : Nat) (s : Tickless.TicklessState)
    (hassert : ¬ (cfg.MXC_ASSERT_ENABLE = true ∧
      ¬ cfg.configRTC_TICK_RATE_HZ ≥ cfg.configTICK_RATE_HZ))
    (hdeny : th.abortSleep = true ∨
      (Tickless.freertos_permit_tickless th s.pal).1 ≠ Tickless.MxcError.E_NO_ERROR) :
    ∃ s', Tickless.vPortSuppressTicksAndSleep cfg th x s = some s' ∧
      (∀ a ∈ emitted s.pal s'.pal, a.isSleepStep = false) ∧
      s'.pal.MXC_WUT_cmp = s.pal.MXC_WUT_cmp ∧
      s'.SysTick_CTRL_ENABLE = s.SysTick_CTRL_ENABLE ∧
      (Action.eTaskConfirmSleepModeStatus ∈ emitted s.pal s'.pal ↔
        ¬ (th.SysTick_VAL < 2 ∨ Tickless.idleTicks cfg x < 150)) ∧
      (Action.eTaskConfirmSleepModeStatus ∈ emitted s.pal s'.pal →
        s'.pal.irqEnabled = true) ∧
      (Action.eTaskConfirmSleepModeStatus ∉ emitted s.pal s'.pal →
        s'.pal.irqEnabled = s.pal.irqEnabled ∧
        emitted s.pal s'.pal = [Action.SysTick_VAL_read]) := by
  refine ⟨_, vPortSuppressTicksAndSleep_deny cfg th x s hassert hdeny, ?_⟩
  by_cases hearly : th.SysTick_VAL < 2 ∨ Tickless.idleTicks cfg x < 150
  · rw [if_pos hearly, emitted_append s.pal _ _ rfl]
    simp [hearly, Action.isSleepStep]
  · rw [if_neg hearly, emitted_append s.pal _ _ rfl]
    refine ⟨?_, rfl, rfl, ?_, fun _ => rfl, ?_⟩
    · intro a ha
      simp only [List.mem_append, List.mem_cons, List.mem_singleton, List.not_mem_nil,
        or_false] at ha
      rcases ha with ((rfl | rfl | rfl) | ha) | rfl
      · rfl
      · rfl
      · rfl
      · split_ifs at ha
        · simp at ha
        · exact (permitQueries_mem th a ha).1
      · rfl
    · simp [hearly]
    · intro hno
      exact absurd (by simp) hno

theorem vPortSuppressTicksAndSleep_denied_witness :
    ¬ (cfgTickless.MXC_ASSERT_ENABLE = true ∧
      ¬ cfgTickless.configRTC_TICK_RATE_HZ ≥ cfgTickless.configTICK_RATE_HZ) ∧
    (Tickless.freertos_permit_tickless thUartActive tsIdle.pal).1 ≠
      Tickless.MxcError.E_NO_ERROR ∧
    Tickless.vPortSuppressTicksAndSleep cfgTickless thUartActive 100 tsIdle =
      some { tsIdle with pal := { tsIdle.pal with trace :=
        [Action.SysTick_VAL_read, Action.cpsid_i, Action.eTaskConfirmSleepModeStatus,
          Action.MXC_WUT_TrimPending, Action.PalUartGetState, Action.PalTimerGetState,
          Action.MXC_UART_GetActive, Action.cpsie_i] } } ∧
    ∃ s', Tickless.vPortSuppressTicksAndSleep cfgTickless thUartActive 100 tsIdle = some s' ∧
      (∀ a ∈ emitted tsIdle.pal s'.pal, a.isSleepStep = false) :=
  ⟨by decide, by decide, by decide,
    (vPortSuppressTicksAndSleep_denied cfgTickless thUartActive 100 tsIdle (by decide)
      (Or.inr (by decide))).imp fun _ h => ⟨h.1, h.2.1⟩⟩

/-- C20 (the code diverges): with a 32768 Hz wake-up timer under a 1000 Hz
tick, an expected idle time of 100 ticks and a scheduler expiry in 10 ms, the
deep branch of `vPortSuppressTicksAndSleep` arms the compare register at
`preCapture + 294 = 1294`; that is the only store to the register, and it
still holds 1294 when the routine returns: the reset to the sentinel that
`palSysEnterStandby` performs is missing here. -/
theorem vPortSuppressTicksAndSleep_leaves_compare_armed :
    tsIdle.pal.MXC_WUT_cmp = 4294967295 ∧
    (Tickless.vPortSuppressTicksAndSleep cfgTickless thDeep 100 tsIdle).map
      (fun s' => cmpWrites (emitted tsIdle.pal s'.pal)) = some [1294] ∧
    (Tickless.vPortSuppressTicksAndSleep cfgTickless thDeep 100 tsIdle).map
      (fun s' => s'.pal.MXC_WUT_cmp) = some 1294 ∧
    (Tickless.vPortSuppressTicksAndSleep cfgTickless thDeep 100 tsIdle).map
      (fun s' => (emitted tsIdle.pal s'.pal).getLast?) =
        some (some Action.SysTick_CTRL_set_ENABLE) := by
  decide

/-- C21 (the code diverges): the claim holds for the max32690 table (950 and
1100 on the ARM build, 1850 and 2200 on the RISC-V build, all below 3000) and
for the 96 MHz entry of max32665 (2950), but the max32665 entry for the other
clock is 3100, above the threshold of 3000.  With the core at 60 MHz and an
expiry time of 3000 microseconds the deep path is taken and
`schUsec - wakeupUs` underflows: evaluated in `uint64_t` it is `2^64 - 100`. -/
theorem min_standby_below_wakeup_overhead :
    PAL_SYS_MIN_STANDBY_USEC = 3000 ∧
    Max32665.PAL_SYS_STANDBY_WAKEUP_USEC_96 < PAL_SYS_MIN_STANDBY_USEC ∧
    (∀ cfg : Config, Max32690.PAL_SYS_STANDBY_WAKEUP_USEC_120 cfg < PAL_SYS_MIN_STANDBY_USEC ∧
      Max32690.PAL_SYS_STANDBY_WAKEUP_USEC_60 cfg < PAL_SYS_MIN_STANDBY_USEC) ∧
    Max32665.PAL_SYS_STANDBY_WAKEUP_USEC_60 = 3100 ∧
    ¬ (Max32665.PAL_SYS_STANDBY_WAKEUP_USEC_60 < PAL_SYS_MIN_STANDBY_USEC) ∧
    ¬ (hwUnderflow.schUsec < PAL_SYS_MIN_STANDBY_USEC) ∧
    hwUnderflow.schUsec < Max32665.wakeupUs hwUnderflow ∧
    sub64 hwUnderflow.schUsec (Max32665.wakeupUs hwUnderflow) = 2 ^ 64 - 100 ∧
    cmpWrites (emitted sIdle (Max32665.palSysEnterStandby cfgStandby hwUnderflow sIdle)) =
      [4154505682, 4294967295] := by
  refine ⟨rfl, by decide, ?_, rfl, by decide, by decide, by decide, by decide, by decide⟩
  intro cfg
  cases h : cfg.riscv <;>
    simp [Max32690.PAL_SYS_STANDBY_WAKEUP_USEC_120, Max32690.PAL_SYS_STANDBY_WAKEUP_USEC_60,
      PAL_SYS_MIN_STANDBY_USEC, h]

/-- C22 (the code diverges): on the ARM build with `PAL_SYS_RISCV_LOAD == 0`
and standby enabled, with busy count zero, all gates passing and an expiry
time of 10 ms, both variants take the deep path of `palSysEnterStandby`, but
the low-power entry of max32665 is `MXC_LP_EnterSleepMode` where max32690
calls `MXC_LP_EnterStandbyMode`.  The rest of the two sequences agrees up to
the name of the wake-up timer interrupt line and the overhead in the compare
target. -/
theorem PalSysSleep_variants_low_power_entry_differs :
    cfgStandby.PAL_SYS_RISCV_LOAD = 0 ∧ cfgStandby.riscv = false ∧
    emitted sIdle (Max32665.PalSysSleep cfgStandby hwDeep sIdle) =
      [Action.MXC_WUT_TrimPending, Action.PalUartGetState, Action.PalTimerGetState,
        Action.MXC_UART_GetActive,
        Action.MXC_WUT_Store, Action.MXC_WUT_cnt_read, Action.PalTimerGetExpTime,
        Action.MXC_WUT_cmp_write 1231, Action.NVIC_EnableIRQ Irq.WUT_IRQn,
        Action.MXC_LP_EnableWUTAlarmWakeup, Action.PalTimerStop, Action.PalBbDisable,
        Action.PalExitCs, Action.MXC_LP_EnterSleepMode, Action.PalEnterCs, Action.PalBbEnable,
        Action.PalBbRestore, Action.MXC_WUT_RestoreBBClock, Action.MXC_WUT_cnt_read,
        Action.PalTimerRestore 3897, Action.MXC_WUT_cmp_write 4294967295] ∧
    emitted sIdle (Max32690.PalSysSleep cfgStandby hwDeep sIdle) =
      [Action.MXC_WUT_TrimPending, Action.PalUartGetState, Action.PalTimerGetState,
        Action.MXC_UART_GetActive,
        Action.MXC_WUT_Store, Action.MXC_WUT_cnt_read, Action.PalTimerGetExpTime,
        Action.MXC_WUT_cmp_write 1291, Action.NVIC_EnableIRQ Irq.WUT0_IRQn,
        Action.MXC_LP_EnableWUTAlarmWakeup, Action.PalTimerStop, Action.PalBbDisable,
        Action.PalExitCs, Action.MXC_LP_EnterStandbyMode, Action.PalEnterCs,
        Action.PalBbEnable, Action.PalBbRestore, Action.MXC_WUT_RestoreBBClock,
        Action.MXC_WUT_cnt_read, Action.PalTimerRestore 3897,
        Action.MXC_WUT_cmp_write 4294967295] ∧
    (emitted sIdle (Max32665.PalSysSleep cfgStandby hwDeep sIdle)).filter
        Action.isLowPowerEntry = [Action.MXC_LP_EnterSleepMode] ∧
    (emitted sIdle (Max32690.PalSysSleep cfgStandby hwDeep sIdle)).filter
        Action.isLowPowerEntry = [Action.MXC_LP_EnterStandbyMode] := by
  decide

/-- C26: the PAL critical section does not nest or restore.  Whatever the
interrupt-enable state on entry, global interrupts are enabled after
`PalSysSetBusy`, `PalSysSetIdle` and `PalSysIsBusy` return, and after
`PalSysAssertTrap` returns with the trap disabled (the text of these routines
is the same in both variants).  In particular a call made inside an outer
`PalEnterCs` section, or with interrupts disabled as `PalSysSleep` requires,
ends with interrupts enabled and not with the caller's state. -/
theorem critical_section_does_not_nest (s : PalState) (fuel : Nat)
    (hflag : s.PalSysAssertTrapEnable = false) (hfuel : 0 < fuel) :
    (PalSysSetBusy s).irqEnabled = true ∧
    (PalSysSetIdle s).irqEnabled = true ∧
    (PalSysIsBusy s).2.irqEnabled = true ∧
    (∃ s', PalSysAssertTrap fuel s = some s' ∧ s'.irqEnabled = true) ∧
    (PalSysSetBusy (PalEnterCs s)).irqEnabled = true ∧
    (PalSysSetIdle (PalEnterCs s)).irqEnabled = true ∧
    (PalSysIsBusy (PalEnterCs s)).2.irqEnabled = true ∧
    (∃ s', PalSysAssertTrap fuel (PalEnterCs s) = some s' ∧ s'.irqEnabled = true) ∧
    (PalEnterCs s).irqEnabled = false := by
  obtain ⟨n, rfl⟩ : ∃ n, fuel = n + 1 := ⟨fuel - 1, by omega⟩
  have hidle : ∀ u : PalState, (PalSysSetIdle u).irqEnabled = true := by
    intro u
    unfold PalSysSetIdle
    dsimp only
    split_ifs <;> simp [PalExitCs, PalEnterCs, emit]
  have htrap : ∀ u : PalState, u.PalSysAssertTrapEnable = false →
      ∃ s', PalSysAssertTrap (n + 1) u = some s' ∧ s'.irqEnabled = true := by
    intro u hu
    refine ⟨PalExitCs (trapEntry u), ?_, rfl⟩
    unfold PalSysAssertTrap
    rw [trapRun_disabled u hu n]
  exact ⟨rfl, hidle s, rfl, htrap s hflag, rfl, hidle _, rfl, htrap _ hflag, rfl⟩

theorem critical_section_does_not_nest_witness :
    sNoTrap.PalSysAssertTrapEnable = false ∧ sNoTrap.irqEnabled = false ∧
    (PalSysSetBusy sNoTrap).irqEnabled = true ∧
    (PalSysAssertTrap 1 sNoTrap).map PalState.irqEnabled = some true :=
  ⟨by decide, by decide,
    (critical_section_does_not_nest sNoTrap 1 (by decide) (by decide)).1,
    by
      obtain ⟨s', h1, h2⟩ :=
        (critical_section_does_not_nest sNoTrap 1 (by decide) (by decide)).2.2.2.1
      rw [h1]
      exact congrArg some h2⟩

/-- C23 (as stated, refuted): with a 1 MHz wake-up timer under a 4000 Hz tick,
an expected idle time of 2 ticks (250 wake-up timer ticks) and a scheduler
expiry in 10 ms, the deep branch is taken; the wake-up ticks (1000) exceed the
idle ticks, `idleTicks -= ...` wraps, and the compare register is armed at
`preCapture + 9000` where the claim gives `preCapture`: 9 ms ahead, later than
the one RTOS tick (0.25 ms) of expected idle time. -/
theorem vPortSuppressTicksAndSleep_idle_adjust_wraps :
    150 ≤ Tickless.idleTicks cfgTicklessFast 2 ∧
    150000000 / cfgTicklessFast.configRTC_TICK_RATE_HZ ≤ thDeep.schUsec ∧
    thDeep.wutGetCount = 1000 ∧
    (Tickless.vPortSuppressTicksAndSleep cfgTicklessFast thDeep 2 tsIdle).map
      (fun s' => cmpWrites (emitted tsIdle.pal s'.pal)) = some [10000] ∧
    (thDeep.wutGetCount + Tickless.armedOffset cfgTicklessFast thDeep 2) % 2 ^ 32 = 1000 ∧
    ¬ ((10000 - 1000) * cfgTicklessFast.configTICK_RATE_HZ ≤
      (2 - 1) * cfgTicklessFast.configRTC_TICK_RATE_HZ) := by
  decide

/-- C23 (amended): in `vPortSuppressTicksAndSleep` with a wake-up timer rate
`configRTC_TICK_RATE_HZ` of at most 150000 Hz, on the deep branch (`MXC_ASSERT`
holds, `SysTick->VAL` at least 2, sleep permitted, `schUsec`, a `uint32_t`, at
least `MIN_WUT_TICKS * 1000000 / configRTC_TICK_RATE_HZ`), with `idleTicks`
(the 32-bit product `(xExpectedIdleTime - 1) * WUT_RATIO` clamped to
`MAX_WUT_SNOOZE`) at least `MIN_WUT_TICKS`, the routine returns and the one
value stored to the compare register is
`(preCapture + min(bleSleepTicks, idleTicks - wakeupTicks)) mod 2^32` with
`wakeupTicks = WAKEUP_US * configRTC_TICK_RATE_HZ / 1000000` and
`bleSleepTicks = (schUsec - WAKEUP_US) * configRTC_TICK_RATE_HZ / 1000000`,
neither subtraction going below zero.  Hence the armed offset, as a time, is
at most the time to the BLE scheduler deadline, at most
`xExpectedIdleTime - 1` RTOS ticks, and at most 5 seconds. -/
theorem vPortSuppressTicksAndSleep_armed_compare (cfg : Tickless.TicklessConfig)
    (th : Tickless.TicklessHw) (x : Nat) (s : Tickless.TicklessState)
    (hassert : ¬ (cfg.MXC_ASSERT_ENABLE = true ∧
      ¬ cfg.configRTC_TICK_RATE_HZ ≥ cfg.configTICK_RATE_HZ))
    (hrtc : cfg.configRTC_TICK_RATE_HZ ≤ 150000)
    (hsys : 2 ≤ th.SysTick_VAL) (hidle : 150 ≤ Tickless.idleTicks cfg x)
    (habort : th.abortSleep = false) (htrim : th.trimPending = false)
    (huart : th.uartBusy = false) (htimer : th.timerBusy = true)
    (hconsole : th.consoleUartActive = false)
    (hsch : 150000000 / cfg.configRTC_TICK_RATE_HZ ≤ th.schUsec)
    (hsch32 : th.schUsec < 2 ^ 32) :
    (∃ s', Tickless.vPortSuppressTicksAndSleep cfg th x s = some s' ∧
      cmpWrites (emitted s.pal s'.pal) =
        [(th.wutGetCount + Tickless.armedOffset cfg th x) % 2 ^ 32]) ∧
    Tickless.WAKEUP_US ≤ th.schUsec ∧
    Tickless.WAKEUP_US * cfg.configRTC_TICK_RATE_HZ / 1000000 ≤ Tickless.idleTicks cfg x ∧
    Tickless.armedOffset cfg th x * 1000000 ≤ th.schUsec * cfg.configRTC_TICK_RATE_HZ ∧
    Tickless.armedOffset cfg th x * cfg.configTICK_RATE_HZ ≤
      sub32 x 1 * cfg.configRTC_TICK_RATE_HZ ∧
    (1 ≤ x → x < 2 ^ 32 → sub32 x 1 = x - 1) ∧
    Tickless.armedOffset cfg th x ≤ 5 * cfg.configRTC_TICK_RATE_HZ := by
  obtain ⟨hmax, hprod⟩ := idleTicks_le cfg x
  have hpos : 0 < cfg.configRTC_TICK_RATE_HZ := by omega
  have hidle32 : Tickless.idleTicks cfg x < 2 ^ 32 := by omega
  have hlo := schUsec_ge_wakeup cfg th hrtc hsch hpos
  obtain ⟨hadj, hwake⟩ := adjustedIdleTicks_eq cfg _ hrtc hidle hidle32
  have hble := bleSleepTicks_eq cfg th hrtc hlo hsch32
  have hoff1 : Tickless.armedOffset cfg th x ≤
      (th.schUsec - Tickless.WAKEUP_US) * cfg.configRTC_TICK_RATE_HZ / 1000000 :=
    Nat.min_le_left _ _
  have hoff2 : Tickless.armedOffset cfg th x ≤ Tickless.idleTicks cfg x :=
    le_trans (Nat.min_le_right _ _) (Nat.sub_le _ _)
  refine ⟨?_, hlo, hwake, ?_, ?_, ?_, by omega⟩
  · obtain ⟨s', hs', hw, _⟩ := vPortSuppressTicksAndSleep_deep cfg th x s hassert hsys hidle
      habort htrim huart htimer hconsole hsch
    refine ⟨s', hs', ?_⟩
    rw [hw, hble, hadj]
    rfl
  · calc Tickless.armedOffset cfg th x * 1000000
        ≤ (th.schUsec - Tickless.WAKEUP_US) * cfg.configRTC_TICK_RATE_HZ / 1000000 * 1000000 :=
          Nat.mul_le_mul_right _ hoff1
      _ ≤ (th.schUsec - Tickless.WAKEUP_US) * cfg.configRTC_TICK_RATE_HZ :=
          Nat.div_mul_le_self _ _
      _ ≤ th.schUsec * cfg.configRTC_TICK_RATE_HZ :=
          Nat.mul_le_mul_right _ (Nat.sub_le _ _)
  · calc Tickless.armedOffset cfg th x * cfg.configTICK_RATE_HZ
        ≤ (sub32 x 1 * Tickless.WUT_RATIO cfg) * cfg.configTICK_RATE_HZ :=
          Nat.mul_le_mul_right _ (le_trans hoff2 hprod)
      _ = sub32 x 1 * (Tickless.WUT_RATIO cfg * cfg.configTICK_RATE_HZ) := Nat.mul_assoc _ _ _
      _ ≤ sub32 x 1 * cfg.configRTC_TICK_RATE_HZ :=
          Nat.mul_le_mul_left _ (Nat.div_mul_le_self _ _)
  · intro h1 h2
    unfold sub32 u32
    omega

theorem vPortSuppressTicksAndSleep_armed_compare_witness :
    cfgTickless.configRTC_TICK_RATE_HZ ≤ 150000 ∧
    150 ≤ Tickless.idleTicks cfgTickless 100 ∧
    150000000 / cfgTickless.configRTC_TICK_RATE_HZ ≤ thDeep.schUsec ∧
    Tickless.armedOffset cfgTickless thDeep 100 = 294 ∧
    ∃ s', Tickless.vPortSuppressTicksAndSleep cfgTickless thDeep 100 tsIdle = some s' ∧
      cmpWrites (emitted tsIdle.pal s'.pal) =
        [(thDeep.wutGetCount + Tickless.armedOffset cfgTickless thDeep 100) % 2 ^ 32] :=
  ⟨by decide, by decide, by decide, by decide,
    (vPortSuppressTicksAndSleep_armed_compare cfgTickless thDeep 100 tsIdle (by decide)
      (by decide) (by decide) (by decide) (by decide) (by decide) (by decide) (by decide)
      (by decide) (by decide) (by decide)).1⟩

/-- C24 (the code at a failing input): `dsaKeySmall` is a valid DSA key
(`p = 23` and `q = 11` prime, `q` divides `p - 1`, `g = 2` of order `q`,
`0 < x < q`, `y = g^x mod p`).  For the digest of value 5 and the random byte
`0x01` (so `k = 0x0D`), `r = 4` and `s = 3` are both non-zero and `wc_DsaSign`
returns 0, but each number is one byte long, no padding is written (only a
19-byte number is padded) and the buffer receives `04 03` followed by its old
content.  `wc_DsaVerify` decodes bytes 0..19 as `r`, finds it not below `q`,
returns `MP_ZERO_E` and sets the answer to 0, whether the buffer was filled
with `0xAA` or with zeros before signing.  The same `r` and `s` written as
twice 20 big-endian bytes are accepted. -/
theorem wc_DsaSign_short_numbers_not_padded :
    Nat.Prime dsaKeySmall.p ∧ Nat.Prime dsaKeySmall.q ∧
    (dsaKeySmall.p - 1) % dsaKeySmall.q = 0 ∧
    dsaKeySmall.g ^ dsaKeySmall.q % dsaKeySmall.p = 1 ∧ dsaKeySmall.g ≠ 1 ∧
    0 < dsaKeySmall.x ∧ dsaKeySmall.x < dsaKeySmall.q ∧
    dsaKeySmall.y = dsaKeySmall.g ^ dsaKeySmall.x % dsaKeySmall.p ∧
    digestFive.length = 20 ∧
    Dsa.wc_DsaSign signEnvOk digestFive sigBufferStale dsaKeySmall =
      some (Dsa.Ret.ok, [4, 3] ++ List.replicate 38 170) ∧
    Dsa.wc_DsaVerify verifyEnvOk digestFive ([4, 3] ++ List.replicate 38 170) dsaKeySmall 1 =
      (Dsa.Ret.MP_ZERO_E, 0) ∧
    Dsa.wc_DsaSign signEnvOk digestFive (List.replicate 40 0) dsaKeySmall =
      some (Dsa.Ret.ok, [4, 3] ++ List.replicate 38 0) ∧
    Dsa.wc_DsaVerify verifyEnvOk digestFive ([4, 3] ++ List.replicate 38 0) dsaKeySmall 1 =
      (Dsa.Ret.MP_ZERO_E, 0) ∧
    Dsa.mp_unsigned_bin_size 4 = 1 ∧ Dsa.mp_unsigned_bin_size 3 = 1 ∧
    Dsa.wc_DsaVerify verifyEnvOk digestFive sigPadded dsaKeySmall 0 = (Dsa.Ret.ok, 1) := by
  refine ⟨by norm_num [dsaKeySmall], by norm_num [dsaKeySmall], ?_⟩
  decide

/-- C25 (as stated, refuted): when `mp_init_multi` fails, `wc_DsaVerify`
returns `MP_INIT_E` before it stores to `*answer`: for the all-zero signature
(`r = 0`, `s = 0`) the return value is not `MP_ZERO_E`, and an answer that was
1 before the call is still 1 although the return value is not 0.  When the
read of `r` fails the return value for the same signature is `MP_READ_E`. -/
theorem wc_DsaVerify_init_failure_keeps_answer :
    Dsa.mp_read_unsigned_bin ((List.replicate 40 0).take 20) = 0 ∧
    Dsa.wc_DsaVerify verifyEnvInitFails digestFive (List.replicate 40 0) dsaKeySmall 1 =
      (Dsa.Ret.MP_INIT_E, 1) ∧
    Dsa.wc_DsaVerify { verifyEnvOk with read_r_ok := false } digestFive (List.replicate 40 0)
      dsaKeySmall 1 = (Dsa.Ret.MP_READ_E, 0) := by
  decide

/-- C25 (amended): in every execution of `wc_DsaVerify` in which
`mp_init_multi` succeeds, with `r` decoded from bytes 0..19 and `s` from bytes
20..39 of the signature: if the two reads of the signature succeed and `r` or
`s` is zero or not strictly less than `q`, the routine returns `MP_ZERO_E` and
sets the answer to 0; the answer is set to 0 or 1; and it is 1 only if the
return value is 0, `0 < r < q`, `0 < s < q` and
`r = ((g^u1 * y^u2) mod p) mod q` with `w = s^-1 mod q`, `u1 = H*w mod q`,
`u2 = r*w mod q`. -/
theorem wc_DsaVerify_rejects_out_of_range (env : Dsa.VerifyEnv) (digest sig : List Nat)
    (key : Dsa.DsaKey) (answer : Int) (hinit : env.init_ok = true) :
    (env.read_r_ok = true → env.read_s_ok = true →
      (Dsa.mp_read_unsigned_bin (sig.take 20) = 0 ∨
        Dsa.mp_read_unsigned_bin ((sig.drop 20).take 20) = 0 ∨
        ¬ Dsa.mp_read_unsigned_bin (sig.take 20) < key.q ∨
        ¬ Dsa.mp_read_unsigned_bin ((sig.drop 20).take 20) < key.q) →
      Dsa.wc_DsaVerify env digest sig key answer = (Dsa.Ret.MP_ZERO_E, 0)) ∧
    ((Dsa.wc_DsaVerify env digest sig key answer).2 = 0 ∨
      (Dsa.wc_DsaVerify env digest sig key answer).2 = 1) ∧
    ((Dsa.wc_DsaVerify env digest sig key answer).2 = 1 →
      (Dsa.wc_DsaVerify env digest sig key answer).1 = Dsa.Ret.ok ∧
      0 < Dsa.mp_read_unsigned_bin (sig.take 20) ∧
      Dsa.mp_read_unsigned_bin (sig.take 20) < key.q ∧
      0 < Dsa.mp_read_unsigned_bin ((sig.drop 20).take 20) ∧
      Dsa.mp_read_unsigned_bin ((sig.drop 20).take 20) < key.q ∧
      ∃ w, w < key.q ∧ Dsa.mp_read_unsigned_bin ((sig.drop 20).take 20) * w % key.q = 1 ∧
        Dsa.mp_read_unsigned_bin (sig.take 20) =
          (key.g ^ (Dsa.mp_read_unsigned_bin (digest.take 20) * w % key.q) *
            key.y ^ (Dsa.mp_read_unsigned_bin (sig.take 20) * w % key.q)) % key.p % key.q) :=
  ⟨fun hr hs hbad => wc_DsaVerify_zero env digest sig key answer hinit hr hs hbad,
    wc_DsaVerify_answer_range env digest sig key answer hinit,
    fun h => wc_DsaVerify_answer_one env digest sig key answer hinit h⟩

theorem wc_DsaVerify_rejects_out_of_range_witness :
    verifyEnvOk.init_ok = true ∧
    Dsa.wc_DsaVerify verifyEnvOk digestFive (List.replicate 40 0) dsaKeySmall 1 =
      (Dsa.Ret.MP_ZERO_E, 0) ∧
    ((Dsa.wc_DsaVerify verifyEnvOk digestFive sigPadded dsaKeySmall 0).2 = 0 ∨
      (Dsa.wc_DsaVerify verifyEnvOk digestFive sigPadded dsaKeySmall 0).2 = 1) ∧
    (Dsa.wc_DsaVerify verifyEnvOk digestFive sigPadded dsaKeySmall 0).1 = Dsa.Ret.ok :=
  ⟨by decide,
    (wc_DsaVerify_rejects_out_of_range verifyEnvOk digestFive (List.replicate 40 0) dsaKeySmall 1
      (by decide)).1 (by decide) (by decide) (Or.inl (by decide)),
    (wc_DsaVerify_rejects_out_of_range verifyEnvOk digestFive sigPadded dsaKeySmall 0
      (by decide)).2.1,
    ((wc_DsaVerify_rejects_out_of_range verifyEnvOk digestFive sigPadded dsaKeySmall 0
      (by decide)).2.2 (by decide)).1⟩

end Pal
